import Mathlib

/-!
# Block Kuzushi (`src/main.c`): shallow embedding and verified properties

The game is a single C file built on raylib.  The embedding below follows
`main.c` function by function.

* C `float` is modelled by an arbitrary linear ordered field `α` (exact
  arithmetic, no rounding, no NaN).  All definitions are polymorphic in `α`
  and computable; theorems that need trigonometry are stated for `α = ℝ`.
* C `int` (`lives`, `score`, `activeBlocks`) is modelled by `Int`; in every
  reachable state these stay far away from the 32-bit limits.
* The fixed-size arrays `blocks[50]` and `powerups[50]` are functions on
  `Fin 50`; a `for (i = 0; i < n; i++)` loop is `forLoop n body`.
* Everything that `main.c` takes from outside (libm's `cosf`/`sinf`, raymath's
  square root inside `Vector2Length`, the constant `PI`, raylib's two collision
  predicates) is a field of the parameter `E : Raylib α`.  Key states, the
  frame time and the value returned by `GetRandomValue(-45, 45)` are the
  fields of `Input α`.
-/

set_option linter.unusedSectionVars false
set_option linter.unnecessarySeqFocus false

namespace BlockKuzushi

/-! ## Constants (`#define`s of `main.c`) -/

def SCREEN_WIDTH : Nat := 800
def SCREEN_HEIGHT : Nat := 600
def PLAYER_WIDTH : Nat := 100
def PLAYER_HEIGHT : Nat := 20
def BALL_RADIUS : Nat := 10
def BLOCK_WIDTH : Nat := 70
def BLOCK_HEIGHT : Nat := 30
def BLOCKS_X : Nat := 10
def BLOCKS_Y : Nat := 5
def BLOCK_SPACING_X : Nat := 10
def BLOCK_SPACING_Y : Nat := 10
def INITIAL_LIVES : Nat := 3
def POWERUP_SIZE : Nat := 15
def POWERUP_SPEED : Nat := 150

/-! ## Data model -/

/-- raylib `Vector2`. -/
@[ext]
structure Vector2 (α : Type) where
  x : α
  y : α

/-- raylib `Rectangle`. -/
@[ext]
structure Rectangle (α : Type) where
  x : α
  y : α
  width : α
  height : α

/-- raylib `Color` (r, g, b, a). -/
@[ext]
structure Color where
  r : Nat
  g : Nat
  b : Nat
  a : Nat
deriving DecidableEq

inductive GameState where
  | TITLE
  | GAMEPLAY
  | GAME_OVER
  | GAME_WIN
deriving DecidableEq

inductive BlockType where
  | NORMAL
  | POWERUP
deriving DecidableEq

inductive PowerupType where
  | EXTRA_LIFE
deriving DecidableEq

@[ext]
structure Block (α : Type) where
  rect : Rectangle α
  active : Bool
  color : Color
  type : BlockType

@[ext]
structure Powerup (α : Type) where
  position : Vector2 α
  active : Bool
  type : PowerupType
  rect : Rectangle α

/-- The `Game` struct; `BLOCKS_X * BLOCKS_Y = 50` slots in both arrays. -/
@[ext]
structure Game (α : Type) where
  playerPosition : Vector2 α
  ballPosition : Vector2 α
  ballVelocity : Vector2 α
  blocks : Fin 50 → Block α
  powerups : Fin 50 → Powerup α
  lives : Int
  score : Int
  activeBlocks : Int
  state : GameState

/-- What one `UpdateGame` call reads from the environment. -/
structure Input (α : Type) where
  /-- the `deltaTime` argument (`GetFrameTime()`) -/
  deltaTime : α
  /-- `IsKeyDown(KEY_LEFT)` -/
  keyLeft : Bool
  /-- `IsKeyDown(KEY_A)` -/
  keyA : Bool
  /-- `IsKeyDown(KEY_RIGHT)` -/
  keyRight : Bool
  /-- `IsKeyDown(KEY_D)` -/
  keyD : Bool
  /-- `IsKeyPressed(KEY_SPACE)` -/
  keySpace : Bool
  /-- the value `GetRandomValue(-45, 45)` returns if it is called -/
  randomValue : Int

/-- External functions and constants used by `main.c` (libm, raylib, raymath). -/
structure Raylib (α : Type) where
  cosf : α → α
  sinf : α → α
  sqrtf : α → α
  PI : α
  CheckCollisionCircleRec : Vector2 α → α → Rectangle α → Bool
  CheckCollisionRecs : Rectangle α → Rectangle α → Bool

section Defs

variable {α : Type} [LinearOrderedField α]

/-- raylib's `DEG2RAD` macro, `PI/180.0f`. -/
def Raylib.DEG2RAD (E : Raylib α) : α := E.PI / 180

/-- raymath `Vector2Add`. -/
def Vector2Add (v1 v2 : Vector2 α) : Vector2 α := ⟨v1.x + v2.x, v1.y + v2.y⟩

/-- raymath `Vector2Scale`. -/
def Vector2Scale (v : Vector2 α) (scale : α) : Vector2 α := ⟨v.x * scale, v.y * scale⟩

/-- raymath `Vector2Length`, `sqrtf(v.x*v.x + v.y*v.y)`. -/
def Vector2Length (E : Raylib α) (v : Vector2 α) : α := E.sqrtf (v.x * v.x + v.y * v.y)

/-- raylib's circle/rectangle test, as implemented in `rshapes.c`: the reference
behaviour for `Raylib.CheckCollisionCircleRec`. -/
def circleRecOverlap (center : Vector2 α) (radius : α) (rec : Rectangle α) : Bool :=
  let recCenterX := rec.x + rec.width / 2
  let recCenterY := rec.y + rec.height / 2
  let dx := |center.x - recCenterX|
  let dy := |center.y - recCenterY|
  if dx > rec.width / 2 + radius then false
  else if dy > rec.height / 2 + radius then false
  else if dx ≤ rec.width / 2 then true
  else if dy ≤ rec.height / 2 then true
  else
    decide ((dx - rec.width / 2) * (dx - rec.width / 2)
      + (dy - rec.height / 2) * (dy - rec.height / 2) ≤ radius * radius)

/-- raylib's rectangle/rectangle test, as implemented in `rshapes.c`: the
reference behaviour for `Raylib.CheckCollisionRecs`. -/
def recsOverlap (rec1 rec2 : Rectangle α) : Bool :=
  decide ((rec1.x < rec2.x + rec2.width ∧ rec1.x + rec1.width > rec2.x)
    ∧ (rec1.y < rec2.y + rec2.height ∧ rec1.y + rec1.height > rec2.y))

/-! ## Loops and array writes -/

/-- The first `n` iterations of `for (int i = 0; i < N; i++) body(i)`. -/
def forLoopUpTo {σ : Type} {N : Nat} (body : Fin N → σ → σ) : (n : Nat) → n ≤ N → σ → σ
  | 0, _, s => s
  | n + 1, h, s => body ⟨n, h⟩ (forLoopUpTo body n (Nat.le_of_succ_le h) s)

/-- The loop `for (int i = 0; i < N; i++) body(i)`. -/
def forLoop {σ : Type} (N : Nat) (body : Fin N → σ → σ) (s : σ) : σ :=
  forLoopUpTo body N (Nat.le_refl N) s

/-- In-place update `a[i] = f(a[i])` of one array slot. -/
def modifyAt {β : Type} {N : Nat} (a : Fin N → β) (i : Nat) (f : β → β) : Fin N → β :=
  fun j => if j.val = i then f (a j) else a j

/-! ## `ResetBall` and `InitGame` -/

/-- `ResetBall`; `rnd` is the value returned by `GetRandomValue(-45, 45)`. -/
def ResetBall (E : Raylib α) (game : Game α) (rnd : Int) : Game α :=
  let game := { game with
    ballPosition := ⟨(SCREEN_WIDTH : α) / 2, (SCREEN_HEIGHT : α) / 2⟩ }
  let angle : α := (rnd : α) * E.DEG2RAD
  { game with ballVelocity := ⟨E.cosf angle * 300, -E.sinf angle * 300⟩ }

/-- Body of the inner `for x` loop of `InitGame`; the loop state is the game
together with the counter `blockIndex`. -/
def InitGame.body (y : Fin BLOCKS_Y) (x : Fin BLOCKS_X) (st : Game α × Nat) : Game α × Nat :=
  let game := st.1
  let blockIndex := st.2
  let blockX : α := ((x.val * (BLOCK_WIDTH + BLOCK_SPACING_X) + BLOCK_SPACING_X : Nat) : α)
  let blockY : α := ((y.val * (BLOCK_HEIGHT + BLOCK_SPACING_Y) + 50 : Nat) : α)
  let game := { game with blocks := modifyAt game.blocks blockIndex (fun b =>
    { b with rect := ⟨blockX, blockY, (BLOCK_WIDTH : α), (BLOCK_HEIGHT : α)⟩ }) }
  let game := { game with blocks := modifyAt game.blocks blockIndex (fun b =>
    { b with active := true }) }
  let game := { game with blocks := modifyAt game.blocks blockIndex (fun b =>
    { b with color := ⟨230, 41, 55, 255⟩ }) }
  let game :=
    if blockIndex % 5 = 0 then
      let game := { game with blocks := modifyAt game.blocks blockIndex (fun b =>
        { b with type := BlockType.POWERUP }) }
      { game with blocks := modifyAt game.blocks blockIndex (fun b =>
        { b with color := ⟨0, 228, 48, 255⟩ }) }
    else
      { game with blocks := modifyAt game.blocks blockIndex (fun b =>
        { b with type := BlockType.NORMAL }) }
  let game := { game with powerups := modifyAt game.powerups blockIndex (fun p =>
    { p with active := false }) }
  let blockIndex := blockIndex + 1
  let game := { game with activeBlocks := game.activeBlocks + 1 }
  (game, blockIndex)

/-- `InitGame`; `rnd` is consumed by the `ResetBall` call. -/
def InitGame (E : Raylib α) (game : Game α) (rnd : Int) : Game α :=
  let game := { game with
    playerPosition :=
      ⟨(SCREEN_WIDTH : α) / 2 - (PLAYER_WIDTH : α) / 2, ((SCREEN_HEIGHT - 50 : Nat) : α)⟩ }
  let game := ResetBall E game rnd
  let blockIndex : Nat := 0
  let game := { game with activeBlocks := 0 }
  let st := forLoop BLOCKS_Y (fun y st => forLoop BLOCKS_X (fun x st => InitGame.body y x st) st)
    (game, blockIndex)
  let game := st.1
  { game with lives := INITIAL_LIVES, score := 0, state := GameState.GAMEPLAY }

/-! ## `CheckBlockCollision`, `CheckCollisions`, `ActivatePowerup` -/

/-- `CheckBlockCollision`.  The C function receives pointers to the ball
position and velocity; the result is the returned `bool` together with the
values `*ballPos` and `*ballVel` hold on return.  The `game` argument is
unused in C and dropped here. -/
def CheckBlockCollision (E : Raylib α) (ballPos ballVel : Vector2 α) (blockRect : Rectangle α) :
    Bool × Vector2 α × Vector2 α :=
  if E.CheckCollisionCircleRec ballPos (BALL_RADIUS : α) blockRect then
    let ballLeft := ballPos.x - (BALL_RADIUS : α)
    let ballRight := ballPos.x + (BALL_RADIUS : α)
    let ballTop := ballPos.y - (BALL_RADIUS : α)
    let ballBottom := ballPos.y + (BALL_RADIUS : α)
    let blockLeft := blockRect.x
    let blockRight := blockRect.x + blockRect.width
    let blockTop := blockRect.y
    let blockBottom := blockRect.y + blockRect.height
    let overlapLeft := ballRight - blockLeft
    let overlapRight := blockRight - ballLeft
    let overlapTop := ballBottom - blockTop
    let overlapBottom := blockBottom - ballTop
    let minOverlapX := if overlapLeft < overlapRight then overlapLeft else overlapRight
    let minOverlapY := if overlapTop < overlapBottom then overlapTop else overlapBottom
    if minOverlapX < minOverlapY then
      (true, ballPos, { ballVel with x := ballVel.x * (-1) })
    else
      (true, ballPos, { ballVel with y := ballVel.y * (-1) })
  else
    (false, ballPos, ballVel)

/-- Body of the `for` loop of `CheckCollisions`. -/
def CheckCollisions.body (E : Raylib α) (i : Fin 50) (game : Game α) : Game α :=
  if (game.blocks i).active then
    let r := CheckBlockCollision E game.ballPosition game.ballVelocity (game.blocks i).rect
    let game := { game with ballPosition := r.2.1, ballVelocity := r.2.2 }
    if r.1 then
      let game := { game with blocks := modifyAt game.blocks i (fun b => { b with active := false }) }
      let game := { game with activeBlocks := game.activeBlocks - 1 }
      let game := { game with score := game.score + 10 }
      if (game.blocks i).type = BlockType.POWERUP then
        let position : Vector2 α :=
          ⟨(game.blocks i).rect.x + (game.blocks i).rect.width / 2 - (POWERUP_SIZE : α) / 2,
           (game.blocks i).rect.y + (game.blocks i).rect.height⟩
        let game := { game with powerups := modifyAt game.powerups i (fun p =>
          { p with position := position }) }
        let game := { game with powerups := modifyAt game.powerups i (fun p =>
          { p with active := true }) }
        let game := { game with powerups := modifyAt game.powerups i (fun p =>
          { p with type := PowerupType.EXTRA_LIFE }) }
        { game with powerups := modifyAt game.powerups i (fun p =>
          { p with rect :=
              ⟨(game.powerups i).position.x, (game.powerups i).position.y,
               (POWERUP_SIZE : α), (POWERUP_SIZE : α)⟩ }) }
      else game
    else game
  else game

/-- `CheckCollisions`. -/
def CheckCollisions (E : Raylib α) (game : Game α) : Game α :=
  forLoop 50 (CheckCollisions.body E) game

/-- `ActivatePowerup`. -/
def ActivatePowerup (game : Game α) (type : PowerupType) : Game α :=
  match type with
  | PowerupType.EXTRA_LIFE => { game with lives := game.lives + 1 }

/-! ## `UpdateGame` -/

/-- `UpdateGame`, "Move player" and "Keep player within screen bounds". -/
def UpdateGame.movePlayer (game : Game α) (inp : Input α) : Game α :=
  let game :=
    if inp.keyLeft || inp.keyA then
      { game with playerPosition :=
          { game.playerPosition with x := game.playerPosition.x - 500 * inp.deltaTime } }
    else game
  let game :=
    if inp.keyRight || inp.keyD then
      { game with playerPosition :=
          { game.playerPosition with x := game.playerPosition.x + 500 * inp.deltaTime } }
    else game
  let game :=
    if game.playerPosition.x < 0 then
      { game with playerPosition := { game.playerPosition with x := 0 } }
    else game
  if game.playerPosition.x > ((SCREEN_WIDTH - PLAYER_WIDTH : Nat) : α) then
    { game with playerPosition :=
        { game.playerPosition with x := ((SCREEN_WIDTH - PLAYER_WIDTH : Nat) : α) } }
  else game

/-- `UpdateGame`, "Update ball position". -/
def UpdateGame.moveBall (game : Game α) (deltaTime : α) : Game α :=
  { game with
    ballPosition := Vector2Add game.ballPosition (Vector2Scale game.ballVelocity deltaTime) }

/-- `UpdateGame`, "Ball-wall collisions". -/
def UpdateGame.ballWall (game : Game α) : Game α :=
  let game :=
    if game.ballPosition.x < (BALL_RADIUS : α)
        ∨ game.ballPosition.x > ((SCREEN_WIDTH - BALL_RADIUS : Nat) : α) then
      { game with ballVelocity := { game.ballVelocity with x := game.ballVelocity.x * (-1) } }
    else game
  if game.ballPosition.y < (BALL_RADIUS : α) then
    { game with ballVelocity := { game.ballVelocity with y := game.ballVelocity.y * (-1) } }
  else game

/-- The local `playerRect` of `UpdateGame`. -/
def UpdateGame.playerRect (game : Game α) : Rectangle α :=
  ⟨game.playerPosition.x, game.playerPosition.y, (PLAYER_WIDTH : α), (PLAYER_HEIGHT : α)⟩

/-- `UpdateGame`, "Ball-player collision". -/
def UpdateGame.ballPlayer (E : Raylib α) (game : Game α) (playerRect : Rectangle α) : Game α :=
  if E.CheckCollisionCircleRec game.ballPosition (BALL_RADIUS : α) playerRect
      && decide (game.ballVelocity.y > 0) then
    let hitPos := (game.ballPosition.x - game.playerPosition.x) / (PLAYER_WIDTH : α)
    let angle := (hitPos - 1 / 2) * E.PI
    let speed := Vector2Length E game.ballVelocity
    let game := { game with ballVelocity := { game.ballVelocity with x := E.cosf angle * speed } }
    { game with ballVelocity := { game.ballVelocity with y := -E.sinf angle * speed } }
  else game

/-- `UpdateGame`, "Ball out of bounds". -/
def UpdateGame.ballOut (E : Raylib α) (game : Game α) (rnd : Int) : Game α :=
  if game.ballPosition.y > ((SCREEN_HEIGHT + BALL_RADIUS : Nat) : α) then
    let game := { game with lives := game.lives - 1 }
    if game.lives ≤ 0 then
      { game with state := GameState.GAME_OVER }
    else
      ResetBall E game rnd
  else game

/-- Body of the "Update powerups" loop of `UpdateGame`. -/
def UpdateGame.powerupBody (E : Raylib α) (playerRect : Rectangle α) (deltaTime : α)
    (i : Fin 50) (game : Game α) : Game α :=
  if (game.powerups i).active then
    let game := { game with powerups := modifyAt game.powerups i (fun p =>
      { p with position := { p.position with y := p.position.y + (POWERUP_SPEED : α) * deltaTime } }) }
    let game := { game with powerups := modifyAt game.powerups i (fun p =>
      { p with rect := { p.rect with y := p.position.y } }) }
    let game :=
      if (game.powerups i).position.y > (SCREEN_HEIGHT : α) then
        { game with powerups := modifyAt game.powerups i (fun p => { p with active := false }) }
      else game
    if E.CheckCollisionRecs (game.powerups i).rect playerRect then
      let game := ActivatePowerup game (game.powerups i).type
      { game with powerups := modifyAt game.powerups i (fun p => { p with active := false }) }
    else game
  else game

/-- `UpdateGame`, "Update powerups". -/
def UpdateGame.updatePowerups (E : Raylib α) (game : Game α) (playerRect : Rectangle α)
    (deltaTime : α) : Game α :=
  forLoop 50 (UpdateGame.powerupBody E playerRect deltaTime) game

/-- `UpdateGame`, "Check if all blocks are destroyed". -/
def UpdateGame.winCheck (game : Game α) : Game α :=
  if game.activeBlocks ≤ 0 then { game with state := GameState.GAME_WIN } else game

/-- `UpdateGame`. -/
def UpdateGame (E : Raylib α) (game : Game α) (inp : Input α) : Game α :=
  if game.state = GameState.GAMEPLAY then
    let game := UpdateGame.movePlayer game inp
    let game := UpdateGame.moveBall game inp.deltaTime
    let game := UpdateGame.ballWall game
    let playerRect := UpdateGame.playerRect game
    let game := UpdateGame.ballPlayer E game playerRect
    let game := UpdateGame.ballOut E game inp.randomValue
    let game := UpdateGame.updatePowerups E game playerRect inp.deltaTime
    let game := CheckCollisions E game
    UpdateGame.winCheck game
  else
    if inp.keySpace then InitGame E game inp.randomValue else game

/-! ## Reachable states -/

/-- States of the `main` loop: `InitGame` on an arbitrary (uninitialised) `Game`,
then any number of `UpdateGame` calls.  `GetRandomValue(-45, 45)` returns a value
in `[-45, 45]`; frame time and keys are unconstrained. -/
inductive Reachable (E : Raylib α) : Game α → Prop where
  | init (g0 : Game α) (rnd : Int) (hr : -45 ≤ rnd ∧ rnd ≤ 45) : Reachable E (InitGame E g0 rnd)
  | step (g : Game α) (inp : Input α)
      (hr : -45 ≤ inp.randomValue ∧ inp.randomValue ≤ 45) (hg : Reachable E g) :
      Reachable E (UpdateGame E g inp)

/-- Number of blocks whose `active` flag is set. -/
def countActive (blocks : Fin 50 → Block α) : Nat :=
  (Finset.univ.filter (fun i => (blocks i).active = true)).card

/-! ## Auxiliary definitions: closed forms and invariants used in the proofs -/

/-- Block `i` as `InitGame` lays it out. -/
def initBlock (i : Fin 50) : Block α :=
  { rect := ⟨((10 + 80 * (i.val % 10) : Nat) : α), ((50 + 40 * (i.val / 10) : Nat) : α), 70, 30⟩
    active := true
    color := if i.val % 5 = 0 then ⟨0, 228, 48, 255⟩ else ⟨230, 41, 55, 255⟩
    type := if i.val % 5 = 0 then BlockType.POWERUP else BlockType.NORMAL }

/-- Loop invariant of the block-initialisation loops of `InitGame`, after `k` slots. -/
structure InitInv (g : Game α) (k : Nat) (st : Game α × Nat) : Prop where
  idx : st.2 = k
  cnt : st.1.activeBlocks = (k : Int)
  blk : ∀ j : Fin 50, j.val < k → st.1.blocks j = initBlock j
  pwrLo : ∀ j : Fin 50, j.val < k → st.1.powerups j = { g.powerups j with active := false }
  pwrHi : ∀ j : Fin 50, k ≤ j.val → st.1.powerups j = g.powerups j
  player : st.1.playerPosition = g.playerPosition
  bpos : st.1.ballPosition = g.ballPosition
  bvel : st.1.ballVelocity = g.ballVelocity

/-- Block `i` is active and the ball circle overlaps its rectangle: the
condition under which `CheckCollisions` destroys block `i`. -/
def blockHit (E : Raylib α) (g : Game α) (i : Fin 50) : Bool :=
  (g.blocks i).active && E.CheckCollisionCircleRec g.ballPosition (BALL_RADIUS : α) (g.blocks i).rect

/-- The power-up `CheckCollisions` writes into the slot of a destroyed `POWERUP` block. -/
def spawnPowerup (b : Block α) : Powerup α :=
  { position := ⟨b.rect.x + b.rect.width / 2 - (POWERUP_SIZE : α) / 2, b.rect.y + b.rect.height⟩
    active := true
    type := PowerupType.EXTRA_LIFE
    rect := ⟨b.rect.x + b.rect.width / 2 - (POWERUP_SIZE : α) / 2, b.rect.y + b.rect.height,
      (POWERUP_SIZE : α), (POWERUP_SIZE : α)⟩ }

/-- Number of indices below `n` at which `p` holds. -/
def countBelow (p : Fin 50 → Bool) (n : Nat) : Nat :=
  (Finset.univ.filter (fun j : Fin 50 => j.val < n ∧ p j = true)).card

/-- Loop invariant of `CheckCollisions` after `n` iterations started in `g`. -/
structure CollInv (E : Raylib α) (g : Game α) (n : Nat) (t : Game α) : Prop where
  player : t.playerPosition = g.playerPosition
  bpos : t.ballPosition = g.ballPosition
  velx : t.ballVelocity.x = g.ballVelocity.x ∨ t.ballVelocity.x = -g.ballVelocity.x
  vely : t.ballVelocity.y = g.ballVelocity.y ∨ t.ballVelocity.y = -g.ballVelocity.y
  blk : ∀ j : Fin 50, t.blocks j =
    if j.val < n ∧ blockHit E g j = true then { g.blocks j with active := false } else g.blocks j
  pwr : ∀ j : Fin 50, t.powerups j =
    if j.val < n ∧ blockHit E g j = true ∧ (g.blocks j).type = BlockType.POWERUP then
      spawnPowerup (g.blocks j) else g.powerups j
  lives : t.lives = g.lives
  score : t.score = g.score + 10 * (countBelow (blockHit E g) n : Int)
  cnt : t.activeBlocks = g.activeBlocks - (countBelow (blockHit E g) n : Int)
  state : t.state = g.state

/-- A power-up after falling for `deltaTime` (position and rectangle moved down). -/
def fallen (p : Powerup α) (deltaTime : α) : Powerup α :=
  { p with
    position := { p.position with y := p.position.y + (POWERUP_SPEED : α) * deltaTime }
    rect := { p.rect with y := p.position.y + (POWERUP_SPEED : α) * deltaTime } }

/-- The power-up is active and, after falling, its rectangle overlaps the paddle:
the condition under which the "Update powerups" loop calls `ActivatePowerup`. -/
def caught (E : Raylib α) (playerRect : Rectangle α) (deltaTime : α) (p : Powerup α) : Bool :=
  p.active && E.CheckCollisionRecs (fallen p deltaTime).rect playerRect

/-- What one iteration of the "Update powerups" loop does to its slot. -/
def stepPowerup (E : Raylib α) (playerRect : Rectangle α) (deltaTime : α) (p : Powerup α) :
    Powerup α :=
  if p.active then
    { fallen p deltaTime with
      active := !(decide ((fallen p deltaTime).position.y > (SCREEN_HEIGHT : α))
        || E.CheckCollisionRecs (fallen p deltaTime).rect playerRect) }
  else p

/-- Number of power-ups caught by the paddle in one "Update powerups" pass. -/
def caughtCount (E : Raylib α) (playerRect : Rectangle α) (deltaTime : α) (g : Game α) : Nat :=
  (Finset.univ.filter
    (fun j : Fin 50 => caught E playerRect deltaTime (g.powerups j) = true)).card

/-- Paddle x-coordinate after "Move player" and the clamp. -/
def paddleX (g : Game α) (inp : Input α) : α :=
  let x0 := g.playerPosition.x
  let x1 := if inp.keyLeft || inp.keyA then x0 - 500 * inp.deltaTime else x0
  let x2 := if inp.keyRight || inp.keyD then x1 + 500 * inp.deltaTime else x1
  let x3 := if x2 < 0 then 0 else x2
  if x3 > 700 then 700 else x3

/-- Ball velocity after "Ball-wall collisions" at ball position `p`. -/
def wallVel (p v : Vector2 α) : Vector2 α :=
  ⟨if p.x < 10 ∨ p.x > 790 then v.x * (-1) else v.x, if p.y < 10 then v.y * (-1) else v.y⟩

/-- Ball velocity after "Ball-player collision". -/
def paddleVel (E : Raylib α) (p v : Vector2 α) (playerX : α) (playerRect : Rectangle α) :
    Vector2 α :=
  if E.CheckCollisionCircleRec p 10 playerRect = true ∧ v.y > 0 then
    ⟨E.cosf (((p.x - playerX) / 100 - 1 / 2) * E.PI) * Vector2Length E v,
     -E.sinf (((p.x - playerX) / 100 - 1 / 2) * E.PI) * Vector2Length E v⟩
  else v

/-- State before the "Update powerups" loop of a gameplay frame. -/
def preFrame (E : Raylib α) (g : Game α) (inp : Input α) : Game α :=
  let player : Vector2 α := ⟨paddleX g inp, g.playerPosition.y⟩
  let pos := Vector2Add g.ballPosition (Vector2Scale g.ballVelocity inp.deltaTime)
  let vel := paddleVel E pos (wallVel pos g.ballVelocity) player.x
    ⟨player.x, player.y, 100, 20⟩
  if pos.y > 610 then
    if g.lives - 1 ≤ 0 then
      { g with playerPosition := player, ballPosition := pos, ballVelocity := vel,
               lives := g.lives - 1, state := GameState.GAME_OVER }
    else
      { g with playerPosition := player, ballPosition := ⟨400, 300⟩,
               ballVelocity :=
                ⟨E.cosf ((inp.randomValue : α) * E.DEG2RAD) * 300,
                 -E.sinf ((inp.randomValue : α) * E.DEG2RAD) * 300⟩,
               lives := g.lives - 1 }
  else
    { g with playerPosition := player, ballPosition := pos, ballVelocity := vel }

/-- Bookkeeping invariant: `activeBlocks` counts the active blocks. -/
def CountInv (g : Game α) : Prop := g.activeBlocks = (countActive g.blocks : Int)

/-- A game whose fields are all zero: stands for the uninitialised `Game game;` of `main`. -/
def zeroGame : Game α :=
  { playerPosition := ⟨0, 0⟩
    ballPosition := ⟨0, 0⟩
    ballVelocity := ⟨0, 0⟩
    blocks := fun _ => ⟨⟨0, 0, 0, 0⟩, false, ⟨0, 0, 0, 0⟩, BlockType.NORMAL⟩
    powerups := fun _ => ⟨⟨0, 0⟩, false, PowerupType.EXTRA_LIFE, ⟨0, 0, 0, 0⟩⟩
    lives := 0
    score := 0
    activeBlocks := 0
    state := GameState.TITLE }

/-- A frame of `deltaTime` seconds with no key held; `rnd` is the value the
random generator would return. -/
def idleInput (deltaTime : α) (rnd : Int) : Input α :=
  { deltaTime := deltaTime, keyLeft := false, keyA := false, keyRight := false, keyD := false,
    keySpace := false, randomValue := rnd }

/-- Rectangles of the blocks are the ones `InitGame` lays out. -/
def GridInv (g : Game α) : Prop := ∀ j, (g.blocks j).rect = (initBlock j).rect

/-- The paddle scenario of the specification one frame before contact: paddle
spanning x in [375, 475], ball at (400, 540) moving straight down with
velocity (0, 300), blocks as `InitGame` lays them out, no power-up in flight. -/
def paddleScenario : Game α :=
  { playerPosition := ⟨375, 550⟩
    ballPosition := ⟨400, 540⟩
    ballVelocity := ⟨0, 300⟩
    blocks := initBlock
    powerups := fun _ => ⟨⟨0, 0⟩, false, PowerupType.EXTRA_LIFE, ⟨0, 0, 0, 0⟩⟩
    lives := 3
    score := 0
    activeBlocks := 50
    state := GameState.GAMEPLAY }

/-- Number of blocks that are active in `g` and no longer active in `g2`. -/
def deactivatedCount (g g2 : Game α) : Nat :=
  (Finset.univ.filter
    (fun i : Fin 50 => (g.blocks i).active = true ∧ (g2.blocks i).active = false)).card

/-- Ball between the two bottom-row blocks 45 and 46 (rectangles x in [410, 480]
and [490, 560], y in [210, 240]), 5 units below their lower edge; everything
else as `InitGame` lays it out. -/
def twoBlockScenario : Game α :=
  { playerPosition := ⟨350, 550⟩
    ballPosition := ⟨485, 245⟩
    ballVelocity := ⟨0, -300⟩
    blocks := initBlock
    powerups := fun _ => ⟨⟨0, 0⟩, false, PowerupType.EXTRA_LIFE, ⟨0, 0, 0, 0⟩⟩
    lives := 3
    score := 0
    activeBlocks := 50
    state := GameState.GAMEPLAY }

/-- While the game is in Gameplay at least one block is left. -/
def PlayInv (g : Game α) : Prop := g.state = GameState.GAMEPLAY → 0 < g.activeBlocks

/-- A fresh game whose ball, launched up-right at 45 degrees, has travelled 55
units in x and in y and now touches block 45 from below; `s` stands for `√2`,
so the velocity is `(150·√2, -150·√2)`. -/
def beforeBlock45 (s : α) : Game α :=
  { playerPosition := ⟨350, 550⟩
    ballPosition := ⟨455, 245⟩
    ballVelocity := ⟨150 * s, -(150 * s)⟩
    blocks := initBlock
    powerups := fun _ => ⟨⟨0, 0⟩, false, PowerupType.EXTRA_LIFE, ⟨0, 0, 0, 0⟩⟩
    lives := 3
    score := 0
    activeBlocks := 50
    state := GameState.GAMEPLAY }

/-- The game after `CheckCollisions` has destroyed block 45 of `beforeBlock45`:
the ball now moves down-right and the power-up of slot 45 is in flight at the
bottom centre of the destroyed block. -/
def afterBlock45 (s : α) : Game α :=
  { playerPosition := ⟨350, 550⟩
    ballPosition := ⟨455, 245⟩
    ballVelocity := ⟨150 * s, 150 * s⟩
    blocks := fun j => if j.val = 45 then { initBlock j with active := false } else initBlock j
    powerups := fun j =>
      if j.val = 45 then ⟨⟨875 / 2, 240⟩, true, PowerupType.EXTRA_LIFE, ⟨875 / 2, 240, 15, 15⟩⟩
      else ⟨⟨0, 0⟩, false, PowerupType.EXTRA_LIFE, ⟨0, 0, 0, 0⟩⟩
    lives := 3
    score := 10
    activeBlocks := 49
    state := GameState.GAMEPLAY }

/-- End of a round: block 45 is the only block left (`activeBlocks = 1`, score
490) and the ball, moving straight up, touches it from below at (455, 245). -/
def lastBlockScenario : Game α :=
  { playerPosition := ⟨350, 550⟩
    ballPosition := ⟨455, 245⟩
    ballVelocity := ⟨0, -300⟩
    blocks := fun j => if j.val = 45 then initBlock j else { initBlock j with active := false }
    powerups := fun _ => ⟨⟨0, 0⟩, false, PowerupType.EXTRA_LIFE, ⟨0, 0, 0, 0⟩⟩
    lives := 2
    score := 490
    activeBlocks := 1
    state := GameState.GAMEPLAY }

/-- State of a gameplay frame after the "Update powerups" loop, just before
`CheckCollisions`. -/
def midFrame (E : Raylib α) (g : Game α) (inp : Input α) : Game α :=
  UpdateGame.updatePowerups E (preFrame E g inp)
    ⟨paddleX g inp, g.playerPosition.y, 100, 20⟩ inp.deltaTime

/-- Number of blocks `CheckCollisions` destroys in the gameplay frame `g`, `inp`. -/
def frameHits (E : Raylib α) (g : Game α) (inp : Input α) : Nat :=
  countBelow (blockHit E (midFrame E g inp)) 50

/-- Lives and score are not negative, and a game in Gameplay has a life left. -/
def LivesInv (g : Game α) : Prop :=
  0 ≤ g.lives ∧ 0 ≤ g.score ∧ (g.state = GameState.GAMEPLAY → 1 ≤ g.lives)

/-- The score is ten points per destroyed block, and a won game has no block left. -/
def ScoreInv (g : Game α) : Prop :=
  g.score = 10 * (50 - g.activeBlocks) ∧ (g.state = GameState.GAME_WIN → g.activeBlocks ≤ 0)

/-- Types of the blocks are the ones `InitGame` assigns. -/
def TypeInv (g : Game α) : Prop := ∀ j, (g.blocks j).type = (initBlock j : Block α).type

/-- An active power-up sits in the slot of a destroyed `POWERUP` block and its
rectangle is the 15x15 square at its position. -/
def SlotInv (g : Game α) : Prop :=
  ∀ i, (g.powerups i).active = true →
    (g.blocks i).type = BlockType.POWERUP ∧ (g.blocks i).active = false
    ∧ (g.powerups i).rect = ⟨(g.powerups i).position.x, (g.powerups i).position.y, 15, 15⟩

/-- `UpdateGame` called once per input, in order: the frames of the `main` loop. -/
def runFrames (E : Raylib α) : Game α → List (Input α) → Game α
  | g, [] => g
  | g, inp :: rest => runFrames E (UpdateGame E g inp) rest

/-- None of the frames restarts the game: a restart is a frame outside Gameplay
that observes the Space-pressed event (it runs `InitGame`). -/
def noRestart (E : Raylib α) : Game α → List (Input α) → Bool
  | _, [] => true
  | g, inp :: rest =>
    (decide (g.state = GameState.GAMEPLAY) || !inp.keySpace)
      && noRestart E (UpdateGame E g inp) rest

/-- A freshly initialised game whose ball has been put at (45, 85), just under the
middle of block 0 (rectangle x = 10, y = 50, 70 wide, 30 high). -/
def block0Scenario (E : Raylib α) : Game α :=
  { InitGame E zeroGame 0 with ballPosition := ⟨45, 85⟩ }

/-- The paddle spans x in [375, 475]; the ball, at (370, 540) and moving straight
down with velocity (0, 300), is about to clip the paddle's upper left corner. -/
def paddleEdgeScenario : Game α :=
  { playerPosition := ⟨375, 550⟩
    ballPosition := ⟨370, 540⟩
    ballVelocity := ⟨0, 300⟩
    blocks := initBlock
    powerups := fun _ => ⟨⟨0, 0⟩, false, PowerupType.EXTRA_LIFE, ⟨0, 0, 0, 0⟩⟩
    lives := 3
    score := 0
    activeBlocks := 50
    state := GameState.GAMEPLAY }

/-- The local `hitPos` of the "Ball-player collision" step of `UpdateGame`. -/
def UpdateGame.hitPos (game : Game α) : α :=
  (game.ballPosition.x - game.playerPosition.x) / (PLAYER_WIDTH : α)

/-- The condition of the `if` of the "Ball-player collision" step of `UpdateGame`:
the paddle response fires. -/
def UpdateGame.paddleFires (E : Raylib α) (game : Game α) : Bool :=
  E.CheckCollisionCircleRec game.ballPosition (BALL_RADIUS : α) (UpdateGame.playerRect game)
    && decide (game.ballVelocity.y > 0)

/-- The state of a gameplay frame when its "Ball-player collision" step runs. -/
def UpdateGame.beforePaddle (game : Game α) (inp : Input α) : Game α :=
  UpdateGame.ballWall (UpdateGame.moveBall (UpdateGame.movePlayer game inp) inp.deltaTime)

end Defs

/-- Idealised external functions over the reals: libm is exact and raylib's
collision predicates are the ones of `rshapes.c`. -/
def IdealReal (E : Raylib ℝ) : Prop :=
  E.cosf = Real.cos ∧ E.sinf = Real.sin ∧ E.sqrtf = Real.sqrt ∧ E.PI = Real.pi
    ∧ E.CheckCollisionCircleRec = circleRecOverlap ∧ E.CheckCollisionRecs = recsOverlap

/-! ## Lemmas and verified claims -/

section Lemmas

variable {α : Type} [LinearOrderedField α]

theorem forLoopUpTo_induct {σ : Type} {N : Nat} (body : Fin N → σ → σ) (P : Nat → σ → Prop)
    (s : σ) (h0 : P 0 s)
    (hstep : ∀ (i : Fin N) (t : σ), P i.val t → P (i.val + 1) (body i t)) :
    ∀ (n : Nat) (h : n ≤ N), P n (forLoopUpTo body n h s) := by
  intro n
  induction n with
  | zero => intro _; exact h0
  | succ k ih =>
    intro h
    exact hstep ⟨k, h⟩ _ (ih (Nat.le_of_succ_le h))

theorem forLoop_induct {σ : Type} {N : Nat} (body : Fin N → σ → σ) (P : Nat → σ → Prop)
    (s : σ) (h0 : P 0 s)
    (hstep : ∀ (i : Fin N) (t : σ), P i.val t → P (i.val + 1) (body i t)) :
    P N (forLoop N body s) :=
  forLoopUpTo_induct body P s h0 hstep N (Nat.le_refl N)

theorem InitGame_body_inv (g : Game α) (y : Fin BLOCKS_Y) (x : Fin BLOCKS_X) (st : Game α × Nat)
    (h : InitInv g (10 * y.val + x.val) st) :
    InitInv g (10 * y.val + x.val + 1) (InitGame.body y x st) := by
  obtain ⟨game, bi⟩ := st
  obtain ⟨hidx, hcnt, hblk, hlo, hhi, hp, hbp, hbv⟩ := h
  simp only at hidx hcnt hblk hlo hhi hp hbp hbv
  subst hidx
  have hx : x.val < 10 := x.isLt
  have hy : y.val < 5 := y.isLt
  refine ⟨?_, ?_, ?_, ?_, ?_, ?_, ?_, ?_⟩
  · simp [InitGame.body]
  · by_cases h5 : (10 * y.val + x.val) % 5 = 0 <;> simp [InitGame.body, h5, hcnt]
  · intro j hj
    by_cases hji : j.val = 10 * y.val + x.val
    · have h1 : (10 * y.val + x.val) % 10 = x.val := by omega
      have h2 : (10 * y.val + x.val) / 10 = y.val := by omega
      by_cases h5 : (10 * y.val + x.val) % 5 = 0
      · have h5j : j.val % 5 = 0 := by rw [hji]; exact h5
        simp [InitGame.body, modifyAt, hji, h5, initBlock, h5j, h1, h2, BLOCK_WIDTH,
          BLOCK_SPACING_X, BLOCK_HEIGHT, BLOCK_SPACING_Y]
        constructor <;> ring
      · have h5j : ¬ j.val % 5 = 0 := by rw [hji]; exact h5
        simp [InitGame.body, modifyAt, hji, h5, initBlock, h5j, h1, h2, BLOCK_WIDTH,
          BLOCK_SPACING_X, BLOCK_HEIGHT, BLOCK_SPACING_Y]
        constructor <;> ring
    · have hlt : j.val < 10 * y.val + x.val := by omega
      by_cases h5 : (10 * y.val + x.val) % 5 = 0 <;>
        simp [InitGame.body, modifyAt, hji, h5, hblk j hlt]
  · intro j hj
    by_cases hji : j.val = 10 * y.val + x.val
    · by_cases h5 : (10 * y.val + x.val) % 5 = 0 <;>
        simp [InitGame.body, modifyAt, hji, h5, hhi j (le_of_eq hji.symm)]
    · have hlt : j.val < 10 * y.val + x.val := by omega
      by_cases h5 : (10 * y.val + x.val) % 5 = 0 <;>
        simp [InitGame.body, modifyAt, hji, h5, hlo j hlt]
  · intro j hj
    have hji : ¬ j.val = 10 * y.val + x.val := by omega
    by_cases h5 : (10 * y.val + x.val) % 5 = 0 <;>
      simp [InitGame.body, modifyAt, hji, h5, hhi j (by omega)]
  · by_cases h5 : (10 * y.val + x.val) % 5 = 0 <;> simp [InitGame.body, h5, hp]
  · by_cases h5 : (10 * y.val + x.val) % 5 = 0 <;> simp [InitGame.body, h5, hbp]
  · by_cases h5 : (10 * y.val + x.val) % 5 = 0 <;> simp [InitGame.body, h5, hbv]

theorem InitGame_loops_inv (g : Game α) :
    InitInv g 50 (forLoop BLOCKS_Y (fun y st =>
      forLoop BLOCKS_X (fun x st => InitGame.body y x st) st) ({ g with activeBlocks := 0 }, 0)) := by
  have key := forLoop_induct
    (fun (y : Fin BLOCKS_Y) (st : Game α × Nat) =>
      forLoop BLOCKS_X (fun x st => InitGame.body y x st) st)
    (fun k st => InitInv g (10 * k) st) ({ g with activeBlocks := 0 }, 0)
    ⟨rfl, by simp, fun j hj => absurd hj (by omega), fun j hj => absurd hj (by omega),
      fun j _ => rfl, rfl, rfl, rfl⟩
    (fun y st hst => by
      have inner := forLoop_induct (fun (x : Fin BLOCKS_X) st => InitGame.body y x st)
        (fun k st => InitInv g (10 * y.val + k) st) st hst
        (fun x t ht => InitGame_body_inv g y x t ht)
      have e : 10 * (y.val + 1) = 10 * y.val + BLOCKS_X := by simp [BLOCKS_X]; ring
      show InitInv g (10 * (y.val + 1)) _
      rw [e]
      exact inner)
  exact key

/-- Closed form of `InitGame`. -/
theorem InitGame_eq (E : Raylib α) (g : Game α) (rnd : Int) :
    InitGame E g rnd =
      { playerPosition := ⟨350, 550⟩
        ballPosition := ⟨400, 300⟩
        ballVelocity := ⟨E.cosf ((rnd : α) * E.DEG2RAD) * 300, -E.sinf ((rnd : α) * E.DEG2RAD) * 300⟩
        blocks := initBlock
        powerups := fun j => { g.powerups j with active := false }
        lives := 3
        score := 0
        activeBlocks := 50
        state := GameState.GAMEPLAY } := by
  have h := InitGame_loops_inv
    (ResetBall E { g with playerPosition :=
      ⟨(SCREEN_WIDTH : α) / 2 - (PLAYER_WIDTH : α) / 2, ((SCREEN_HEIGHT - 50 : Nat) : α)⟩ } rnd)
  obtain ⟨_, hcnt, hblk, hlo, _, hp, hbp, hbv⟩ := h
  unfold InitGame
  ext1
  · simp only [hp]; simp [ResetBall, SCREEN_WIDTH, PLAYER_WIDTH, SCREEN_HEIGHT]; norm_num
  · simp only [hbp]; simp [ResetBall, SCREEN_WIDTH, SCREEN_HEIGHT]; norm_num
  · simp only [hbv]; simp [ResetBall]
  · funext j; simp only [hblk j j.isLt]
  · funext j; simp only [hlo j j.isLt]; simp [ResetBall]
  · simp [INITIAL_LIVES]
  · simp
  · simp only [hcnt]; norm_num
  · simp

theorem CheckBlockCollision_fst (E : Raylib α) (p v : Vector2 α) (r : Rectangle α) :
    (CheckBlockCollision E p v r).1 = E.CheckCollisionCircleRec p (BALL_RADIUS : α) r := by
  unfold CheckBlockCollision
  by_cases h : E.CheckCollisionCircleRec p (BALL_RADIUS : α) r = true
  · simp only [h, if_true]; split_ifs <;> rfl
  · simp only [h]; simp at h; simp [h]

theorem CheckBlockCollision_pos (E : Raylib α) (p v : Vector2 α) (r : Rectangle α) :
    (CheckBlockCollision E p v r).2.1 = p := by
  unfold CheckBlockCollision
  by_cases h : E.CheckCollisionCircleRec p (BALL_RADIUS : α) r = true
  · simp only [h, if_true]; split_ifs <;> rfl
  · simp only [h]; rfl

theorem CheckBlockCollision_vel (E : Raylib α) (p v : Vector2 α) (r : Rectangle α) :
    ((CheckBlockCollision E p v r).2.2.x = v.x ∨ (CheckBlockCollision E p v r).2.2.x = -v.x)
    ∧ ((CheckBlockCollision E p v r).2.2.y = v.y ∨ (CheckBlockCollision E p v r).2.2.y = -v.y) := by
  unfold CheckBlockCollision
  by_cases h : E.CheckCollisionCircleRec p (BALL_RADIUS : α) r = true
  · simp only [h, if_true]; split_ifs <;> simp
  · simp only [h]; simp

theorem CheckBlockCollision_miss (E : Raylib α) (p v : Vector2 α) (r : Rectangle α)
    (h : E.CheckCollisionCircleRec p (BALL_RADIUS : α) r = false) :
    CheckBlockCollision E p v r = (false, p, v) := by
  unfold CheckBlockCollision
  simp [h]

/-- One iteration of the `CheckCollisions` loop, in closed form. -/
theorem CheckCollisions_body_eq (E : Raylib α) (i : Fin 50) (t : Game α) :
    CheckCollisions.body E i t =
      if blockHit E t i then
        { t with
          ballVelocity := (CheckBlockCollision E t.ballPosition t.ballVelocity (t.blocks i).rect).2.2
          blocks := modifyAt t.blocks i (fun b => { b with active := false })
          activeBlocks := t.activeBlocks - 1
          score := t.score + 10
          powerups :=
            if (t.blocks i).type = BlockType.POWERUP then
              modifyAt t.powerups i (fun _ => spawnPowerup (t.blocks i))
            else t.powerups }
      else t := by
  unfold CheckCollisions.body blockHit
  by_cases ha : (t.blocks i).active = true
  · by_cases hc : E.CheckCollisionCircleRec t.ballPosition (BALL_RADIUS : α) (t.blocks i).rect = true
    · have h1 := CheckBlockCollision_fst E t.ballPosition t.ballVelocity (t.blocks i).rect
      have h2 := CheckBlockCollision_pos E t.ballPosition t.ballVelocity (t.blocks i).rect
      rw [hc] at h1
      by_cases hty : (t.blocks i).type = BlockType.POWERUP
      · simp [ha, hc, h1, h2, hty, modifyAt]
        funext j
        simp only [modifyAt]
        split_ifs <;> simp [spawnPowerup]
      · simp [ha, hc, h1, h2, hty, modifyAt]
    · simp only [Bool.not_eq_true] at hc
      have h := CheckBlockCollision_miss E t.ballPosition t.ballVelocity _ hc
      simp [ha, hc, h]
  · simp [ha]

theorem countBelow_zero (p : Fin 50 → Bool) : countBelow p 0 = 0 := by
  simp [countBelow]

theorem countBelow_succ (p : Fin 50 → Bool) (i : Fin 50) :
    countBelow p (i.val + 1) = countBelow p i.val + (if p i = true then 1 else 0) := by
  unfold countBelow
  by_cases hp : p i = true
  · have e : Finset.univ.filter (fun j : Fin 50 => j.val < i.val + 1 ∧ p j = true)
        = insert i (Finset.univ.filter (fun j : Fin 50 => j.val < i.val ∧ p j = true)) := by
      ext j
      simp only [Finset.mem_filter, Finset.mem_univ, true_and, Finset.mem_insert]
      constructor
      · rintro ⟨h1, h2⟩
        by_cases hji : j = i
        · exact Or.inl hji
        · refine Or.inr ⟨?_, h2⟩
          have : j.val ≠ i.val := fun h => hji (Fin.ext h)
          omega
      · rintro (h | ⟨h1, h2⟩)
        · subst h; exact ⟨Nat.lt_succ_self _, hp⟩
        · exact ⟨by omega, h2⟩
    rw [e, Finset.card_insert_of_not_mem]
    · simp [hp]
    · simp
  · have e : Finset.univ.filter (fun j : Fin 50 => j.val < i.val + 1 ∧ p j = true)
        = Finset.univ.filter (fun j : Fin 50 => j.val < i.val ∧ p j = true) := by
      ext j
      simp only [Finset.mem_filter, Finset.mem_univ, true_and]
      constructor
      · rintro ⟨h1, h2⟩
        refine ⟨?_, h2⟩
        have : j.val ≠ i.val := fun h => hp (by rw [← Fin.ext h]; exact h2)
        omega
      · rintro ⟨h1, h2⟩
        exact ⟨by omega, h2⟩
    rw [e]; simp [hp]

theorem countBelow_all (p : Fin 50 → Bool) :
    countBelow p 50 = (Finset.univ.filter (fun j : Fin 50 => p j = true)).card := by
  unfold countBelow
  congr 1
  ext j
  simp [j.isLt]

theorem CheckCollisions_body_inv (E : Raylib α) (g : Game α) (i : Fin 50) (t : Game α)
    (h : CollInv E g i.val t) : CollInv E g (i.val + 1) (CheckCollisions.body E i t) := by
  obtain ⟨hp, hbp, hvx, hvy, hblk, hpwr, hl, hs, hc, hst⟩ := h
  have hbi : t.blocks i = g.blocks i := by rw [hblk i]; simp
  have hhit : blockHit E t i = blockHit E g i := by simp [blockHit, hbi, hbp]
  rw [CheckCollisions_body_eq, hhit]
  by_cases hh : blockHit E g i = true
  · simp only [hh, if_true]
    have hv := CheckBlockCollision_vel E t.ballPosition t.ballVelocity (t.blocks i).rect
    refine ⟨hp, hbp, ?_, ?_, ?_, ?_, hl, ?_, ?_, hst⟩
    · show (CheckBlockCollision E t.ballPosition t.ballVelocity (t.blocks i).rect).2.2.x = _ ∨ _
      rcases hv.1 with h1 | h1 <;> rcases hvx with h2 | h2 <;> rw [h1, h2] <;> simp
    · show (CheckBlockCollision E t.ballPosition t.ballVelocity (t.blocks i).rect).2.2.y = _ ∨ _
      rcases hv.2 with h1 | h1 <;> rcases hvy with h2 | h2 <;> rw [h1, h2] <;> simp
    · intro j
      show modifyAt t.blocks i.val (fun b => { b with active := false }) j = _
      by_cases hji : j = i
      · subst hji; simp [modifyAt, hbi, hh]
      · have hne : j.val ≠ i.val := fun h => hji (Fin.ext h)
        have e : (j.val < i.val + 1) = (j.val < i.val) := by
          apply propext; constructor <;> intro h <;> omega
        simp only [modifyAt, hne, if_false, hblk j, e]
    · intro j
      show (if (t.blocks i).type = BlockType.POWERUP then
          modifyAt t.powerups i.val (fun _ => spawnPowerup (t.blocks i)) else t.powerups) j = _
      by_cases hji : j = i
      · subst hji
        by_cases hty : (g.blocks j).type = BlockType.POWERUP
        · simp [modifyAt, hbi, hh, hty]
        · simp [hbi, hh, hty, hpwr j]
      · have hne : j.val ≠ i.val := fun h => hji (Fin.ext h)
        have e : (j.val < i.val + 1) = (j.val < i.val) := by
          apply propext; constructor <;> intro h <;> omega
        by_cases hty : (t.blocks i).type = BlockType.POWERUP
        · simp only [hty, if_true, modifyAt, hne, if_false, hpwr j, e]
        · simp only [hty, if_false, hpwr j, e]
    · show t.score + 10 = _
      rw [hs, countBelow_succ]; simp only [hh, if_true]; push_cast; ring
    · show t.activeBlocks - 1 = _
      rw [hc, countBelow_succ]; simp only [hh, if_true]; push_cast; ring
  · rw [if_neg hh]
    have e : ∀ j : Fin 50, (j.val < i.val + 1 ∧ blockHit E g j = true)
        = (j.val < i.val ∧ blockHit E g j = true) := by
      intro j
      apply propext
      constructor
      · rintro ⟨h1, h2⟩
        refine ⟨?_, h2⟩
        have : j.val ≠ i.val := fun h => hh (by rw [← Fin.ext h]; exact h2)
        omega
      · rintro ⟨h1, h2⟩; exact ⟨by omega, h2⟩
    refine ⟨hp, hbp, hvx, hvy, ?_, ?_, hl, ?_, ?_, hst⟩
    · intro j; rw [hblk j]; simp only [e j]
    · intro j
      have e3 : (j.val < i.val + 1 ∧ blockHit E g j = true ∧ (g.blocks j).type = BlockType.POWERUP)
          = (j.val < i.val ∧ blockHit E g j = true ∧ (g.blocks j).type = BlockType.POWERUP) := by
        rw [← and_assoc, ← and_assoc, e j]
      rw [hpwr j]; simp only [e3]
    · rw [countBelow_succ]; simpa [hh] using hs
    · rw [countBelow_succ]; simpa [hh] using hc

theorem CheckCollisions_inv (E : Raylib α) (g : Game α) :
    CollInv E g 50 (CheckCollisions E g) := by
  refine forLoop_induct (CheckCollisions.body E) (fun n t => CollInv E g n t) g ?_ ?_
  · exact ⟨rfl, rfl, Or.inl rfl, Or.inl rfl, fun j => by simp, fun j => by simp, rfl,
      by simp [countBelow_zero], by simp [countBelow_zero], rfl⟩
  · intro i t ht
    exact CheckCollisions_body_inv E g i t ht

/-- One iteration of the "Update powerups" loop, in closed form. -/
theorem UpdateGame_powerupBody_eq (E : Raylib α) (playerRect : Rectangle α) (deltaTime : α)
    (i : Fin 50) (t : Game α) :
    UpdateGame.powerupBody E playerRect deltaTime i t =
      { t with
        powerups := modifyAt t.powerups i (fun p => stepPowerup E playerRect deltaTime p)
        lives := t.lives + (if caught E playerRect deltaTime (t.powerups i) = true then 1 else 0) } := by
  unfold UpdateGame.powerupBody
  by_cases ha : (t.powerups i).active = true
  · have hty : (t.powerups i).type = PowerupType.EXTRA_LIFE := by
      cases (t.powerups i).type; rfl
    by_cases ho : (t.powerups i).position.y + (POWERUP_SPEED : α) * deltaTime > (SCREEN_HEIGHT : α) <;>
    by_cases hc : E.CheckCollisionRecs (fallen (t.powerups i) deltaTime).rect playerRect = true <;>
    · have hc2 := hc
      simp only [fallen] at hc2
      simp [ha, modifyAt, ho, hc2, caught, hc, ActivatePowerup]
      funext j
      simp only [modifyAt]
      split_ifs with hj
      · have : j = i := Fin.ext hj
        subst this
        simp [stepPowerup, ha, fallen, ho, hc2]
      · rfl
  · rw [if_neg ha]
    simp only [Bool.not_eq_true] at ha
    ext1 <;> try rfl
    · funext j
      simp only [modifyAt]
      split_ifs with hj
      · have : j = i := Fin.ext hj
        subst this
        simp [stepPowerup, ha]
      · rfl
    · simp [caught, ha]

/-- Closed form of the "Update powerups" loop. -/
theorem UpdateGame_updatePowerups_eq (E : Raylib α) (g : Game α) (playerRect : Rectangle α)
    (deltaTime : α) :
    UpdateGame.updatePowerups E g playerRect deltaTime =
      { g with
        powerups := fun j => stepPowerup E playerRect deltaTime (g.powerups j)
        lives := g.lives + (caughtCount E playerRect deltaTime g : Int) } := by
  have key := forLoop_induct (UpdateGame.powerupBody E playerRect deltaTime)
    (fun n t => t = { g with
      powerups := fun j =>
        if j.val < n then stepPowerup E playerRect deltaTime (g.powerups j) else g.powerups j
      lives := g.lives
        + (countBelow (fun j => caught E playerRect deltaTime (g.powerups j)) n : Int) }) g
    (by simp [countBelow_zero])
    (by
      intro i t ht
      show UpdateGame.powerupBody E playerRect deltaTime i t = _
      rw [UpdateGame_powerupBody_eq, countBelow_succ]
      subst ht
      ext1 <;> try rfl
      · funext j
        simp only [modifyAt]
        by_cases hji : j = i
        · subst hji; simp
        · have hne : j.val ≠ i.val := fun h => hji (Fin.ext h)
          have e : (j.val < i.val + 1) = (j.val < i.val) := by
            apply propext; constructor <;> intro h <;> omega
          simp only [hne, if_false, e]
      · simp only [lt_self_iff_false, if_false]
        split_ifs <;> push_cast <;> ring)
  unfold UpdateGame.updatePowerups
  rw [key]
  ext1 <;> try rfl
  · funext j; simp [j.isLt]
  · simp only [caughtCount, countBelow_all]

theorem UpdateGame_movePlayer_eq (g : Game α) (inp : Input α) :
    UpdateGame.movePlayer g inp =
      { g with playerPosition := ⟨paddleX g inp, g.playerPosition.y⟩ } := by
  have e : ((SCREEN_WIDTH - PLAYER_WIDTH : Nat) : α) = 700 := by
    simp [SCREEN_WIDTH, PLAYER_WIDTH]
  unfold UpdateGame.movePlayer paddleX
  simp only [e]
  split_ifs <;> simp_all

theorem paddleX_bounds (g : Game α) (inp : Input α) :
    0 ≤ paddleX g inp ∧ paddleX g inp ≤ 700 := by
  unfold paddleX
  simp only
  split_ifs <;> constructor <;> linarith

theorem UpdateGame_ballWall_eq (g : Game α) :
    UpdateGame.ballWall g = { g with ballVelocity := wallVel g.ballPosition g.ballVelocity } := by
  have e1 : ((SCREEN_WIDTH - BALL_RADIUS : Nat) : α) = 790 := by
    simp [SCREEN_WIDTH, BALL_RADIUS]
  have e2 : ((BALL_RADIUS : Nat) : α) = 10 := by simp [BALL_RADIUS]
  unfold UpdateGame.ballWall wallVel
  simp only [e1, e2]
  split_ifs <;> simp_all

theorem UpdateGame_ballPlayer_eq (E : Raylib α) (g : Game α) (playerRect : Rectangle α) :
    UpdateGame.ballPlayer E g playerRect =
      { g with ballVelocity :=
          paddleVel E g.ballPosition g.ballVelocity g.playerPosition.x playerRect } := by
  have e2 : ((BALL_RADIUS : Nat) : α) = 10 := by simp [BALL_RADIUS]
  have e3 : ((PLAYER_WIDTH : Nat) : α) = 100 := by simp [PLAYER_WIDTH]
  unfold UpdateGame.ballPlayer paddleVel
  simp only [e2, e3, Vector2Length]
  by_cases h1 : E.CheckCollisionCircleRec g.ballPosition 10 playerRect = true
  · by_cases h2 : g.ballVelocity.y > 0
    · simp [h1, h2]
    · simp [h1, h2]
  · simp [h1]

theorem UpdateGame_ballOut_eq (E : Raylib α) (g : Game α) (rnd : Int) :
    UpdateGame.ballOut E g rnd =
      if g.ballPosition.y > 610 then
        if g.lives - 1 ≤ 0 then { g with lives := g.lives - 1, state := GameState.GAME_OVER }
        else { g with
          lives := g.lives - 1
          ballPosition := ⟨400, 300⟩
          ballVelocity :=
            ⟨E.cosf ((rnd : α) * E.DEG2RAD) * 300, -E.sinf ((rnd : α) * E.DEG2RAD) * 300⟩ }
      else g := by
  have e1 : ((SCREEN_HEIGHT + BALL_RADIUS : Nat) : α) = 610 := by
    simp [SCREEN_HEIGHT, BALL_RADIUS]
  unfold UpdateGame.ballOut
  simp only [e1]
  split_ifs <;> simp_all [ResetBall, SCREEN_WIDTH, SCREEN_HEIGHT] <;> constructor <;> norm_num

/-- A gameplay frame, phase by phase. -/
theorem UpdateGame_gameplay (E : Raylib α) (g : Game α) (inp : Input α)
    (hs : g.state = GameState.GAMEPLAY) :
    UpdateGame E g inp =
      UpdateGame.winCheck (CheckCollisions E
        (UpdateGame.updatePowerups E (preFrame E g inp)
          ⟨paddleX g inp, g.playerPosition.y, 100, 20⟩ inp.deltaTime)) := by
  have e3 : ((PLAYER_WIDTH : Nat) : α) = 100 := by simp [PLAYER_WIDTH]
  have e4 : ((PLAYER_HEIGHT : Nat) : α) = 20 := by simp [PLAYER_HEIGHT]
  unfold UpdateGame
  rw [if_pos hs]
  simp only [UpdateGame_movePlayer_eq, UpdateGame.moveBall, UpdateGame_ballWall_eq,
    UpdateGame.playerRect, UpdateGame_ballPlayer_eq, UpdateGame_ballOut_eq, e3, e4]
  congr 3

theorem UpdateGame_idle (E : Raylib α) (g : Game α) (inp : Input α)
    (hs : g.state ≠ GameState.GAMEPLAY) :
    UpdateGame E g inp = if inp.keySpace = true then InitGame E g inp.randomValue else g := by
  unfold UpdateGame
  rw [if_neg hs]

/-- Induction over the reachable states. -/
theorem Reachable_inv (E : Raylib α) (P : Game α → Prop)
    (hinit : ∀ g0 rnd, P (InitGame E g0 rnd))
    (hstep : ∀ g inp, P g → P (UpdateGame E g inp)) :
    ∀ g, Reachable E g → P g := by
  intro g hg
  induction hg with
  | init g0 rnd _ => exact hinit g0 rnd
  | step g inp _ _ ih => exact hstep g inp ih

theorem countActive_initBlock : countActive (initBlock : Fin 50 → Block α) = 50 := by
  simp [countActive, initBlock]

/-- What `CheckCollisions` does to the number of active blocks. -/
theorem countActive_CheckCollisions (E : Raylib α) (g : Game α) :
    countActive (CheckCollisions E g).blocks + countBelow (blockHit E g) 50
      = countActive g.blocks := by
  have h := CheckCollisions_inv E g
  rw [countBelow_all]
  unfold countActive
  have e1 : Finset.univ.filter (fun i => ((CheckCollisions E g).blocks i).active = true)
      = (Finset.univ.filter (fun i => (g.blocks i).active = true)).filter
          (fun i => ¬ blockHit E g i = true) := by
    ext j
    simp only [Finset.mem_filter, Finset.mem_univ, true_and]
    rw [h.blk j]
    by_cases hh : blockHit E g j = true
    · simp [hh, j.isLt]
    · simp [hh]
  have e2 : Finset.univ.filter (fun i => blockHit E g i = true)
      = (Finset.univ.filter (fun i => (g.blocks i).active = true)).filter
          (fun i => blockHit E g i = true) := by
    ext j
    simp only [Finset.mem_filter, Finset.mem_univ, true_and]
    constructor
    · intro hh
      refine ⟨?_, hh⟩
      simp only [blockHit, Bool.and_eq_true] at hh
      exact hh.1
    · exact fun hh => hh.2
  rw [e1, e2, add_comm]
  exact Finset.filter_card_add_filter_neg_card_eq_card _

theorem CountInv_InitGame (E : Raylib α) (g0 : Game α) (rnd : Int) :
    CountInv (InitGame E g0 rnd) := by
  rw [InitGame_eq]
  simp [CountInv, countActive_initBlock]

theorem preFrame_blocks (E : Raylib α) (g : Game α) (inp : Input α) :
    (preFrame E g inp).blocks = g.blocks := by
  unfold preFrame; simp only; split_ifs <;> rfl

theorem preFrame_activeBlocks (E : Raylib α) (g : Game α) (inp : Input α) :
    (preFrame E g inp).activeBlocks = g.activeBlocks := by
  unfold preFrame; simp only; split_ifs <;> rfl

theorem preFrame_score (E : Raylib α) (g : Game α) (inp : Input α) :
    (preFrame E g inp).score = g.score := by
  unfold preFrame; simp only; split_ifs <;> rfl

theorem preFrame_powerups (E : Raylib α) (g : Game α) (inp : Input α) :
    (preFrame E g inp).powerups = g.powerups := by
  unfold preFrame; simp only; split_ifs <;> rfl

theorem preFrame_playerPosition (E : Raylib α) (g : Game α) (inp : Input α) :
    (preFrame E g inp).playerPosition = ⟨paddleX g inp, g.playerPosition.y⟩ := by
  unfold preFrame; simp only; split_ifs <;> rfl

theorem winCheck_blocks (g : Game α) : (UpdateGame.winCheck g).blocks = g.blocks := by
  unfold UpdateGame.winCheck; split_ifs <;> rfl

theorem winCheck_activeBlocks (g : Game α) :
    (UpdateGame.winCheck g).activeBlocks = g.activeBlocks := by
  unfold UpdateGame.winCheck; split_ifs <;> rfl

theorem winCheck_playerPosition (g : Game α) :
    (UpdateGame.winCheck g).playerPosition = g.playerPosition := by
  unfold UpdateGame.winCheck; split_ifs <;> rfl

theorem CountInv_CheckCollisions (E : Raylib α) (g : Game α) (h : CountInv g) :
    CountInv (CheckCollisions E g) := by
  have h1 := (CheckCollisions_inv E g).cnt
  have h2 := countActive_CheckCollisions E g
  unfold CountInv at *
  rw [h1, h, ← h2]
  push_cast; ring

theorem CountInv_UpdateGame (E : Raylib α) (g : Game α) (inp : Input α) (h : CountInv g) :
    CountInv (UpdateGame E g inp) := by
  by_cases hs : g.state = GameState.GAMEPLAY
  · rw [UpdateGame_gameplay E g inp hs]
    have h3 : CountInv (UpdateGame.updatePowerups E (preFrame E g inp)
        ⟨paddleX g inp, g.playerPosition.y, 100, 20⟩ inp.deltaTime) := by
      rw [UpdateGame_updatePowerups_eq]
      simpa [CountInv, preFrame_blocks, preFrame_activeBlocks] using h
    have h4 := CountInv_CheckCollisions E _ h3
    unfold CountInv at h4 ⊢
    rw [winCheck_blocks, winCheck_activeBlocks]
    exact h4
  · rw [UpdateGame_idle E g inp hs]
    split_ifs
    · exact CountInv_InitGame E g _
    · exact h

/-- C1. In every state reachable from `InitGame` by `UpdateGame` calls (any frame
time, any keys, any random launch value), `activeBlocks` equals the number of
blocks whose `active` flag is set. -/
theorem activeBlocks_eq_countActive (E : Raylib α) (g : Game α) (h : Reachable E g) :
    g.activeBlocks = (countActive g.blocks : Int) :=
  Reachable_inv E CountInv (CountInv_InitGame E) (CountInv_UpdateGame E) g h

/-- Witness for C1: the state after `InitGame` and one idle frame is reachable. -/
theorem activeBlocks_eq_countActive_witness :
    Reachable (⟨Real.cos, Real.sin, Real.sqrt, Real.pi, circleRecOverlap, recsOverlap⟩ : Raylib ℝ)
        (UpdateGame ⟨Real.cos, Real.sin, Real.sqrt, Real.pi, circleRecOverlap, recsOverlap⟩
          (InitGame ⟨Real.cos, Real.sin, Real.sqrt, Real.pi, circleRecOverlap, recsOverlap⟩
            zeroGame 45) (idleInput (1 / 60) 0))
      ∧ (UpdateGame (⟨Real.cos, Real.sin, Real.sqrt, Real.pi, circleRecOverlap, recsOverlap⟩ : Raylib ℝ)
          (InitGame ⟨Real.cos, Real.sin, Real.sqrt, Real.pi, circleRecOverlap, recsOverlap⟩
            zeroGame 45) (idleInput (1 / 60) 0)).activeBlocks
        = (countActive (UpdateGame
            (⟨Real.cos, Real.sin, Real.sqrt, Real.pi, circleRecOverlap, recsOverlap⟩ : Raylib ℝ)
            (InitGame ⟨Real.cos, Real.sin, Real.sqrt, Real.pi, circleRecOverlap, recsOverlap⟩
              zeroGame 45) (idleInput (1 / 60) 0)).blocks : Int) :=
  ⟨Reachable.step _ _ (by simp [idleInput]) (Reachable.init _ _ (by decide)),
   activeBlocks_eq_countActive _ _
    (Reachable.step _ _ (by simp [idleInput]) (Reachable.init _ _ (by decide)))⟩

theorem UpdateGame_gameplay_playerPosition (E : Raylib α) (g : Game α) (inp : Input α)
    (hs : g.state = GameState.GAMEPLAY) :
    (UpdateGame E g inp).playerPosition = ⟨paddleX g inp, g.playerPosition.y⟩ := by
  rw [UpdateGame_gameplay E g inp hs, winCheck_playerPosition, (CheckCollisions_inv E _).player,
    UpdateGame_updatePowerups_eq]
  exact preFrame_playerPosition E g inp

theorem winCheck_state_of_activeBlocks (g : Game α) (h : g.activeBlocks = 0) :
    (UpdateGame.winCheck g).state = GameState.GAME_WIN := by
  unfold UpdateGame.winCheck
  rw [if_pos (le_of_eq h)]

theorem countActive_eq_zero_iff (blocks : Fin 50 → Block α) :
    countActive blocks = 0 ↔ ∀ i, (blocks i).active = false := by
  unfold countActive
  rw [Finset.card_eq_zero, Finset.filter_eq_empty_iff]
  simp

/-- C2. After `InitGame`, and after every `UpdateGame` call made in the Gameplay
state (any frame time, any keys), the paddle x-coordinate lies in
`[0, 700]`, where `700 = SCREEN_WIDTH - PLAYER_WIDTH`. -/
theorem paddle_within_screen (E : Raylib α) :
    ((SCREEN_WIDTH : α) - (PLAYER_WIDTH : α) = 700)
    ∧ (∀ (g0 : Game α) (rnd : Int),
        0 ≤ (InitGame E g0 rnd).playerPosition.x ∧ (InitGame E g0 rnd).playerPosition.x ≤ 700)
    ∧ (∀ (g : Game α) (inp : Input α), g.state = GameState.GAMEPLAY →
        0 ≤ (UpdateGame E g inp).playerPosition.x
          ∧ (UpdateGame E g inp).playerPosition.x ≤ 700) := by
  refine ⟨by simp [SCREEN_WIDTH, PLAYER_WIDTH]; norm_num, ?_, ?_⟩
  · intro g0 rnd
    rw [InitGame_eq]
    constructor <;> norm_num
  · intro g inp hs
    rw [UpdateGame_gameplay_playerPosition E g inp hs]
    exact paddleX_bounds g inp

/-- Witness for C2: a fresh game is in Gameplay; one second with the right key held. -/
theorem paddle_within_screen_witness :
    (InitGame (⟨Real.cos, Real.sin, Real.sqrt, Real.pi, circleRecOverlap, recsOverlap⟩ : Raylib ℝ)
        zeroGame 45).state = GameState.GAMEPLAY
      ∧ 0 ≤ (UpdateGame
          (⟨Real.cos, Real.sin, Real.sqrt, Real.pi, circleRecOverlap, recsOverlap⟩ : Raylib ℝ)
          (InitGame ⟨Real.cos, Real.sin, Real.sqrt, Real.pi, circleRecOverlap, recsOverlap⟩
            zeroGame 45)
          { idleInput 1 0 with keyRight := true }).playerPosition.x
      ∧ (UpdateGame
          (⟨Real.cos, Real.sin, Real.sqrt, Real.pi, circleRecOverlap, recsOverlap⟩ : Raylib ℝ)
          (InitGame ⟨Real.cos, Real.sin, Real.sqrt, Real.pi, circleRecOverlap, recsOverlap⟩
            zeroGame 45)
          { idleInput 1 0 with keyRight := true }).playerPosition.x ≤ 700 :=
  ⟨by rw [InitGame_eq],
   (paddle_within_screen _).2.2 _ _ (by rw [InitGame_eq])⟩

/-- C4. For every `UpdateGame` call made in the Gameplay state of a reachable game:
after the call no block is active exactly when `activeBlocks = 0`, and in that
case the call itself ends in `GAME_WIN`. -/
theorem win_in_same_call (E : Raylib α) (g : Game α) (hr : Reachable E g)
    (hs : g.state = GameState.GAMEPLAY) (inp : Input α) :
    ((∀ i, ((UpdateGame E g inp).blocks i).active = false)
        ↔ (UpdateGame E g inp).activeBlocks = 0)
    ∧ ((UpdateGame E g inp).activeBlocks = 0
        → (UpdateGame E g inp).state = GameState.GAME_WIN) := by
  have hc : CountInv (UpdateGame E g inp) :=
    CountInv_UpdateGame E g inp (Reachable_inv E CountInv (CountInv_InitGame E)
      (CountInv_UpdateGame E) g hr)
  constructor
  · rw [← countActive_eq_zero_iff]
    unfold CountInv at hc
    rw [hc]
    exact Nat.cast_eq_zero.symm
  · intro h0
    rw [UpdateGame_gameplay E g inp hs] at h0 ⊢
    rw [winCheck_activeBlocks] at h0
    exact winCheck_state_of_activeBlocks _ h0

/-- Witness for C4: a fresh game is reachable and in Gameplay. -/
theorem win_in_same_call_witness :
    Reachable (⟨Real.cos, Real.sin, Real.sqrt, Real.pi, circleRecOverlap, recsOverlap⟩ : Raylib ℝ)
        (InitGame ⟨Real.cos, Real.sin, Real.sqrt, Real.pi, circleRecOverlap, recsOverlap⟩
          zeroGame 45)
      ∧ (InitGame (⟨Real.cos, Real.sin, Real.sqrt, Real.pi, circleRecOverlap, recsOverlap⟩ : Raylib ℝ)
          zeroGame 45).state = GameState.GAMEPLAY
      ∧ ((UpdateGame
            (⟨Real.cos, Real.sin, Real.sqrt, Real.pi, circleRecOverlap, recsOverlap⟩ : Raylib ℝ)
            (InitGame ⟨Real.cos, Real.sin, Real.sqrt, Real.pi, circleRecOverlap, recsOverlap⟩
              zeroGame 45) (idleInput (1 / 60) 0)).activeBlocks = 0
          → (UpdateGame
            (⟨Real.cos, Real.sin, Real.sqrt, Real.pi, circleRecOverlap, recsOverlap⟩ : Raylib ℝ)
            (InitGame ⟨Real.cos, Real.sin, Real.sqrt, Real.pi, circleRecOverlap, recsOverlap⟩
              zeroGame 45) (idleInput (1 / 60) 0)).state = GameState.GAME_WIN) :=
  ⟨Reachable.init _ _ (by decide), by rw [InitGame_eq],
   (win_in_same_call _ _ (Reachable.init _ _ (by decide)) (by rw [InitGame_eq])
      (idleInput (1 / 60) 0)).2⟩

/-- C6. From any state that is not Gameplay (GameOver, GameWin or Title), an
`UpdateGame` call that observes the Space-pressed event yields a freshly
initialised game whatever the previous state held: state Gameplay, 3 lives,
score 0, `activeBlocks = 50` with all 50 blocks active, every power-up slot
inactive, paddle at `(350, 550)` and ball at the screen centre `(400, 300)`. -/
theorem restart_reinitialises (E : Raylib α) (g : Game α) (inp : Input α)
    (hs : g.state ≠ GameState.GAMEPLAY) (hk : inp.keySpace = true) :
    (UpdateGame E g inp).state = GameState.GAMEPLAY
    ∧ (UpdateGame E g inp).lives = 3
    ∧ (UpdateGame E g inp).score = 0
    ∧ (UpdateGame E g inp).activeBlocks = 50
    ∧ (∀ i, ((UpdateGame E g inp).blocks i).active = true)
    ∧ countActive (UpdateGame E g inp).blocks = 50
    ∧ (∀ i, ((UpdateGame E g inp).powerups i).active = false)
    ∧ (UpdateGame E g inp).playerPosition = ⟨350, 550⟩
    ∧ (UpdateGame E g inp).ballPosition = ⟨400, 300⟩
    ∧ (∀ g2 : Game α, g2.state ≠ GameState.GAMEPLAY →
        (UpdateGame E g2 inp).blocks = (UpdateGame E g inp).blocks
        ∧ (UpdateGame E g2 inp).ballVelocity = (UpdateGame E g inp).ballVelocity) := by
  rw [UpdateGame_idle E g inp hs, if_pos hk, InitGame_eq]
  refine ⟨rfl, rfl, rfl, rfl, fun i => rfl, countActive_initBlock, fun i => rfl, rfl, rfl, ?_⟩
  intro g2 hs2
  rw [UpdateGame_idle E g2 inp hs2, if_pos hk, InitGame_eq]
  exact ⟨rfl, rfl⟩

/-- Witness for C6: a finished game (GameOver, score 120) restarted with Space. -/
theorem restart_reinitialises_witness :
    ({ zeroGame with state := GameState.GAME_OVER, score := 120, activeBlocks := 38 }
        : Game ℝ).state ≠ GameState.GAMEPLAY
      ∧ ({ idleInput (1 / 60) 30 with keySpace := true } : Input ℝ).keySpace = true
      ∧ (UpdateGame
          (⟨Real.cos, Real.sin, Real.sqrt, Real.pi, circleRecOverlap, recsOverlap⟩ : Raylib ℝ)
          { zeroGame with state := GameState.GAME_OVER, score := 120, activeBlocks := 38 }
          { idleInput (1 / 60) 30 with keySpace := true }).lives = 3 :=
  ⟨by simp, rfl,
   (restart_reinitialises _ _ _ (by simp) rfl).2.1⟩

theorem CheckCollisions_of_no_hit (E : Raylib α) (g : Game α)
    (h : ∀ j, blockHit E g j = false) : CheckCollisions E g = g := by
  refine forLoop_induct (CheckCollisions.body E) (fun _ t => t = g) g rfl ?_
  intro i t ht
  show CheckCollisions.body E i t = g
  rw [ht, CheckCollisions_body_eq, h i]
  simp

theorem CheckCollisions_ballVelocity_sq (E : Raylib α) (g : Game α) :
    (CheckCollisions E g).ballVelocity.x * (CheckCollisions E g).ballVelocity.x
        = g.ballVelocity.x * g.ballVelocity.x
    ∧ (CheckCollisions E g).ballVelocity.y * (CheckCollisions E g).ballVelocity.y
        = g.ballVelocity.y * g.ballVelocity.y := by
  have h := CheckCollisions_inv E g
  constructor
  · rcases h.velx with h1 | h1 <;> rw [h1] <;> ring
  · rcases h.vely with h1 | h1 <;> rw [h1] <;> ring

theorem wallVel_sq (p v : Vector2 α) :
    (wallVel p v).x * (wallVel p v).x = v.x * v.x
    ∧ (wallVel p v).y * (wallVel p v).y = v.y * v.y := by
  unfold wallVel
  constructor <;> simp only <;> split_ifs <;> ring

theorem preFrame_lives (E : Raylib α) (g : Game α) (inp : Input α) :
    (preFrame E g inp).lives =
      if g.ballPosition.y + g.ballVelocity.y * inp.deltaTime > 610 then g.lives - 1
      else g.lives := by
  unfold preFrame Vector2Add Vector2Scale; simp only; split_ifs <;> rfl

theorem preFrame_ballVelocity (E : Raylib α) (g : Game α) (inp : Input α) :
    (preFrame E g inp).ballVelocity =
      if g.ballPosition.y + g.ballVelocity.y * inp.deltaTime > 610 ∧ 1 < g.lives then
        ⟨E.cosf ((inp.randomValue : α) * E.DEG2RAD) * 300,
         -E.sinf ((inp.randomValue : α) * E.DEG2RAD) * 300⟩
      else
        paddleVel E (Vector2Add g.ballPosition (Vector2Scale g.ballVelocity inp.deltaTime))
          (wallVel (Vector2Add g.ballPosition (Vector2Scale g.ballVelocity inp.deltaTime))
            g.ballVelocity)
          (paddleX g inp) ⟨paddleX g inp, g.playerPosition.y, 100, 20⟩ := by
  unfold preFrame
  simp only [Vector2Add, Vector2Scale]
  by_cases h1 : g.ballPosition.y + g.ballVelocity.y * inp.deltaTime > 610
  · by_cases h2 : g.lives - 1 ≤ 0
    · have h3 : ¬ 1 < g.lives := by omega
      simp [h1, h2, h3]
    · have h3 : 1 < g.lives := by omega
      simp [h1, h2, h3]
  · simp [h1]

theorem UpdateGame_gameplay_ballVelocity_sq (E : Raylib α) (g : Game α) (inp : Input α)
    (hs : g.state = GameState.GAMEPLAY) :
    (UpdateGame E g inp).ballVelocity.x * (UpdateGame E g inp).ballVelocity.x
        = (preFrame E g inp).ballVelocity.x * (preFrame E g inp).ballVelocity.x
    ∧ (UpdateGame E g inp).ballVelocity.y * (UpdateGame E g inp).ballVelocity.y
        = (preFrame E g inp).ballVelocity.y * (preFrame E g inp).ballVelocity.y := by
  rw [UpdateGame_gameplay E g inp hs]
  have e : ∀ t : Game α, (UpdateGame.winCheck t).ballVelocity = t.ballVelocity := by
    intro t; unfold UpdateGame.winCheck; split_ifs <;> rfl
  rw [e]
  have h := CheckCollisions_ballVelocity_sq E (UpdateGame.updatePowerups E (preFrame E g inp)
    ⟨paddleX g inp, g.playerPosition.y, 100, 20⟩ inp.deltaTime)
  rw [UpdateGame_updatePowerups_eq] at h ⊢
  exact h

theorem launch_length (E : Raylib ℝ) (hE : IdealReal E) (a : ℝ) :
    Vector2Length E ⟨E.cosf a * 300, -E.sinf a * 300⟩ = 300 := by
  obtain ⟨hc, hs, hq, -, -, -⟩ := hE
  unfold Vector2Length
  rw [hc, hs, hq]
  have e : Real.cos a * 300 * (Real.cos a * 300) + -Real.sin a * 300 * (-Real.sin a * 300)
      = 300 * 300 := by
    have := Real.cos_sq_add_sin_sq a
    nlinarith
  show Real.sqrt (Real.cos a * 300 * (Real.cos a * 300)
    + -Real.sin a * 300 * (-Real.sin a * 300)) = 300
  rw [e, Real.sqrt_mul_self (by norm_num)]

theorem Vector2Length_congr (E : Raylib ℝ) (v w : Vector2 ℝ)
    (hx : v.x * v.x = w.x * w.x) (hy : v.y * v.y = w.y * w.y) :
    Vector2Length E v = Vector2Length E w := by
  unfold Vector2Length
  rw [hx, hy]

theorem paddleVel_length (E : Raylib ℝ) (hE : IdealReal E) (p v : Vector2 ℝ) (px : ℝ)
    (r : Rectangle ℝ) :
    Vector2Length E (paddleVel E p v px r) = Vector2Length E v := by
  unfold paddleVel
  split_ifs with h
  · obtain ⟨hc, hs, hq, -, -, -⟩ := hE
    have hnn : 0 ≤ Vector2Length E v := by
      unfold Vector2Length; rw [hq]; exact Real.sqrt_nonneg _
    generalize Vector2Length E v = s at hnn ⊢
    unfold Vector2Length
    rw [hc, hs, hq]
    generalize ((p.x - px) / 100 - 1 / 2) * E.PI = a
    have e : Real.cos a * s * (Real.cos a * s) + -Real.sin a * s * (-Real.sin a * s)
        = s * s := by
      have := Real.cos_sq_add_sin_sq a
      calc Real.cos a * s * (Real.cos a * s) + -Real.sin a * s * (-Real.sin a * s)
          = (Real.cos a ^ 2 + Real.sin a ^ 2) * (s * s) := by ring
        _ = s * s := by rw [this, one_mul]
    show Real.sqrt (Real.cos a * s * (Real.cos a * s) + -Real.sin a * s * (-Real.sin a * s)) = s
    rw [e, Real.sqrt_mul_self hnn]
  · rfl

theorem UpdateGame_gameplay_length (E : Raylib ℝ) (hE : IdealReal E) (g : Game ℝ)
    (inp : Input ℝ) (hs : g.state = GameState.GAMEPLAY) :
    Vector2Length E (UpdateGame E g inp).ballVelocity =
      if g.ballPosition.y + g.ballVelocity.y * inp.deltaTime > 610 ∧ 1 < g.lives then 300
      else Vector2Length E g.ballVelocity := by
  have h := UpdateGame_gameplay_ballVelocity_sq E g inp hs
  rw [Vector2Length_congr E _ _ h.1 h.2, preFrame_ballVelocity]
  split_ifs with hc
  · exact launch_length E hE _
  · rw [paddleVel_length E hE]
    exact Vector2Length_congr E _ _ (wallVel_sq _ _).1 (wallVel_sq _ _).2

theorem speed_UpdateGame (E : Raylib ℝ) (hE : IdealReal E) (g : Game ℝ) (inp : Input ℝ)
    (h : Vector2Length E g.ballVelocity = 300) :
    Vector2Length E (UpdateGame E g inp).ballVelocity = 300 := by
  by_cases hs : g.state = GameState.GAMEPLAY
  · rw [UpdateGame_gameplay_length E hE g inp hs]
    split_ifs
    · rfl
    · exact h
  · rw [UpdateGame_idle E g inp hs]
    split_ifs
    · rw [InitGame_eq]; exact launch_length E hE _
    · exact h

/-- C3. Over the reals: an `UpdateGame` call made in the Gameplay state leaves the
magnitude of `ballVelocity` unchanged, except when the ball is reset in that
call (it left the bottom, `y > 610` after integration, and a life remains), in
which case the magnitude is the launch speed 300; hence in every reachable
state the ball speed is 300 and the velocity is not the zero vector. -/
theorem ball_speed_invariant (E : Raylib ℝ) (hE : IdealReal E) :
    (∀ (g : Game ℝ) (inp : Input ℝ), g.state = GameState.GAMEPLAY →
      Vector2Length E (UpdateGame E g inp).ballVelocity =
        if g.ballPosition.y + g.ballVelocity.y * inp.deltaTime > 610 ∧ 1 < g.lives then 300
        else Vector2Length E g.ballVelocity)
    ∧ (∀ g : Game ℝ, Reachable E g →
        Vector2Length E g.ballVelocity = 300 ∧ g.ballVelocity ≠ ⟨0, 0⟩) := by
  refine ⟨fun g inp hs => UpdateGame_gameplay_length E hE g inp hs, ?_⟩
  intro g hg
  have h300 : Vector2Length E g.ballVelocity = 300 :=
    Reachable_inv E (fun g => Vector2Length E g.ballVelocity = 300)
      (fun g0 rnd => by rw [InitGame_eq]; exact launch_length E hE _)
      (fun g inp h => speed_UpdateGame E hE g inp h) g hg
  refine ⟨h300, ?_⟩
  intro h0
  rw [h0] at h300
  unfold Vector2Length at h300
  rw [hE.2.2.1] at h300
  norm_num at h300

/-- Witness for C3: the exact real-number library, a fresh game and one idle frame. -/
theorem ball_speed_invariant_witness :
    IdealReal ⟨Real.cos, Real.sin, Real.sqrt, Real.pi, circleRecOverlap, recsOverlap⟩
      ∧ Vector2Length
          (⟨Real.cos, Real.sin, Real.sqrt, Real.pi, circleRecOverlap, recsOverlap⟩ : Raylib ℝ)
          (UpdateGame ⟨Real.cos, Real.sin, Real.sqrt, Real.pi, circleRecOverlap, recsOverlap⟩
            (InitGame ⟨Real.cos, Real.sin, Real.sqrt, Real.pi, circleRecOverlap, recsOverlap⟩
              zeroGame 45) (idleInput (1 / 60) 0)).ballVelocity = 300 :=
  ⟨⟨rfl, rfl, rfl, rfl, rfl, rfl⟩,
   ((ball_speed_invariant _ ⟨rfl, rfl, rfl, rfl, rfl, rfl⟩).2 _
      (Reachable.step _ _ (by simp [idleInput]) (Reachable.init _ _ (by decide)))).1⟩

theorem circleRecOverlap_initBlock_low (p : Vector2 α) (i : Fin 50) (hp : 250 < p.y) :
    circleRecOverlap p 10 (initBlock i : Block α).rect = false := by
  have hi : i.val / 10 ≤ 4 := by have := i.isLt; omega
  have hry : ((50 + 40 * (i.val / 10) : Nat) : α) ≤ 210 := by
    have : 50 + 40 * (i.val / 10) ≤ 210 := by omega
    exact_mod_cast this
  have hdy : |p.y - (((50 + 40 * (i.val / 10) : Nat) : α) + 30 / 2)| > 30 / 2 + 10 := by
    rw [abs_of_nonneg (by linarith)]
    linarith
  unfold circleRecOverlap initBlock
  simp only
  split_ifs with h1
  · rfl
  · rfl

theorem blockHit_false_of_low (E : Raylib α) (g : Game α)
    (hE : E.CheckCollisionCircleRec = circleRecOverlap) (hg : GridInv g)
    (hp : 250 < g.ballPosition.y) (j : Fin 50) : blockHit E g j = false := by
  have e2 : ((BALL_RADIUS : Nat) : α) = 10 := by simp [BALL_RADIUS]
  unfold blockHit
  rw [hE, e2, hg j, circleRecOverlap_initBlock_low _ _ hp]
  simp

theorem winCheck_ballVelocity (g : Game α) :
    (UpdateGame.winCheck g).ballVelocity = g.ballVelocity := by
  unfold UpdateGame.winCheck; split_ifs <;> rfl

theorem winCheck_ballPosition (g : Game α) :
    (UpdateGame.winCheck g).ballPosition = g.ballPosition := by
  unfold UpdateGame.winCheck; split_ifs <;> rfl

theorem winCheck_lives (g : Game α) : (UpdateGame.winCheck g).lives = g.lives := by
  unfold UpdateGame.winCheck; split_ifs <;> rfl

theorem preFrame_ballPosition (E : Raylib α) (g : Game α) (inp : Input α) :
    (preFrame E g inp).ballPosition =
      if g.ballPosition.y + g.ballVelocity.y * inp.deltaTime > 610 ∧ 1 < g.lives then ⟨400, 300⟩
      else Vector2Add g.ballPosition (Vector2Scale g.ballVelocity inp.deltaTime) := by
  unfold preFrame
  simp only [Vector2Add, Vector2Scale]
  by_cases h1 : g.ballPosition.y + g.ballVelocity.y * inp.deltaTime > 610
  · by_cases h2 : g.lives - 1 ≤ 0
    · have h3 : ¬ 1 < g.lives := by omega
      simp [h1, h2, h3]
    · have h3 : 1 < g.lives := by omega
      simp [h1, h2, h3]
  · simp [h1]

/-- A gameplay frame in which the ball ends below the block grid: no block is touched. -/
theorem UpdateGame_gameplay_low (E : Raylib α) (g : Game α) (inp : Input α)
    (hs : g.state = GameState.GAMEPLAY)
    (hE : E.CheckCollisionCircleRec = circleRecOverlap) (hg : GridInv g)
    (hp : 250 < (preFrame E g inp).ballPosition.y) :
    UpdateGame E g inp =
      UpdateGame.winCheck (UpdateGame.updatePowerups E (preFrame E g inp)
          ⟨paddleX g inp, g.playerPosition.y, 100, 20⟩ inp.deltaTime) := by
  rw [UpdateGame_gameplay E g inp hs, CheckCollisions_of_no_hit]
  intro j
  apply blockHit_false_of_low E _ hE
  · rw [UpdateGame_updatePowerups_eq]
    intro k
    show ((preFrame E g inp).blocks k).rect = _
    rw [preFrame_blocks]
    exact hg k
  · rw [UpdateGame_updatePowerups_eq]
    exact hp

theorem GridInv_InitGame (E : Raylib α) (g0 : Game α) (rnd : Int) :
    GridInv (InitGame E g0 rnd) := by
  rw [InitGame_eq]
  intro j
  rfl

theorem abs_sin_le_cos (a : ℝ) (h1 : -(Real.pi / 4) ≤ a) (h2 : a ≤ Real.pi / 4) :
    |Real.sin a| ≤ Real.cos a := by
  have hpi := Real.pi_pos
  have hs1 : Real.sin a ≤ Real.sqrt 2 / 2 := by
    rw [← Real.sin_pi_div_four]
    exact Real.sin_le_sin_of_le_of_le_pi_div_two (by linarith) (by linarith) h2
  have hs2 : -(Real.sqrt 2 / 2) ≤ Real.sin a := by
    rw [← Real.sin_pi_div_four, ← Real.sin_neg]
    exact Real.sin_le_sin_of_le_of_le_pi_div_two (by linarith) (by linarith) h1
  have hc : Real.sqrt 2 / 2 ≤ Real.cos a := by
    rw [← Real.cos_pi_div_four, ← Real.cos_abs a]
    exact Real.cos_le_cos_of_nonneg_of_le_pi (abs_nonneg a) (by linarith)
      (abs_le.mpr ⟨h1, h2⟩)
  exact le_trans (abs_le.mpr ⟨hs2, hs1⟩) hc

theorem ResetBall_ballVelocity (E : Raylib α) (g : Game α) (rnd : Int) :
    (ResetBall E g rnd).ballVelocity =
      ⟨E.cosf ((rnd : α) * (E.PI / 180)) * 300, -E.sinf ((rnd : α) * (E.PI / 180)) * 300⟩ := rfl

/-- C7 (as the code has it). For every random integer `rnd` in `[-45, 45]` drawn by
`ResetBall`, the launch velocity is `(300·cos a, -300·sin a)` with `a = rnd` degrees:
it has speed 300 and lies within 45 degrees of the horizontal rightward
direction (`velocity.x > 0` and `|velocity.y| ≤ velocity.x`); the ball departs
upward (`velocity.y < 0`) exactly when `rnd > 0`. -/
theorem launch_within_45_of_rightward (E : Raylib ℝ) (hE : IdealReal E) (g : Game ℝ)
    (rnd : Int) (hr : -45 ≤ rnd ∧ rnd ≤ 45) :
    0 < (ResetBall E g rnd).ballVelocity.x
    ∧ |(ResetBall E g rnd).ballVelocity.y| ≤ (ResetBall E g rnd).ballVelocity.x
    ∧ ((ResetBall E g rnd).ballVelocity.y < 0 ↔ 0 < rnd)
    ∧ Vector2Length E (ResetBall E g rnd).ballVelocity = 300 := by
  have hlen := launch_length E hE ((rnd : ℝ) * (E.PI / 180))
  rw [ResetBall_ballVelocity]
  obtain ⟨hc, hs, -, hpi, -, -⟩ := hE
  rw [hc, hs, hpi] at hlen ⊢
  have hpos := Real.pi_pos
  have hlo : (-45 : ℝ) ≤ (rnd : ℝ) := by exact_mod_cast hr.1
  have hhi : (rnd : ℝ) ≤ 45 := by exact_mod_cast hr.2
  have h1 : -(Real.pi / 4) ≤ (rnd : ℝ) * (Real.pi / 180) := by nlinarith
  have h2 : (rnd : ℝ) * (Real.pi / 180) ≤ Real.pi / 4 := by nlinarith
  have habs := abs_sin_le_cos _ h1 h2
  have hcos : 0 < Real.cos ((rnd : ℝ) * (Real.pi / 180)) :=
    Real.cos_pos_of_mem_Ioo ⟨by linarith, by linarith⟩
  refine ⟨by positivity, ?_, ?_, hlen⟩
  · show |-Real.sin ((rnd : ℝ) * (Real.pi / 180)) * 300|
      ≤ Real.cos ((rnd : ℝ) * (Real.pi / 180)) * 300
    rw [abs_mul, abs_neg, abs_of_pos (by norm_num : (0 : ℝ) < 300)]
    exact mul_le_mul_of_nonneg_right habs (by norm_num)
  · show -Real.sin ((rnd : ℝ) * (Real.pi / 180)) * 300 < 0 ↔ 0 < rnd
    constructor
    · intro h
      by_contra hn
      have hle : (rnd : ℝ) ≤ 0 := by exact_mod_cast not_lt.mp hn
      have : Real.sin ((rnd : ℝ) * (Real.pi / 180)) ≤ 0 :=
        Real.sin_nonpos_of_nonnpos_of_neg_pi_le (by nlinarith) (by linarith)
      linarith
    · intro h
      have hgt : (0 : ℝ) < (rnd : ℝ) := by exact_mod_cast h
      have : 0 < Real.sin ((rnd : ℝ) * (Real.pi / 180)) :=
        Real.sin_pos_of_pos_of_lt_pi (by positivity) (by linarith)
      linarith

/-- Witness for C7: the draw `rnd = 30`. -/
theorem launch_within_45_of_rightward_witness :
    IdealReal ⟨Real.cos, Real.sin, Real.sqrt, Real.pi, circleRecOverlap, recsOverlap⟩
      ∧ ((-45 : Int) ≤ 30 ∧ (30 : Int) ≤ 45)
      ∧ 0 < (ResetBall
          (⟨Real.cos, Real.sin, Real.sqrt, Real.pi, circleRecOverlap, recsOverlap⟩ : Raylib ℝ)
          zeroGame 30).ballVelocity.x :=
  ⟨⟨rfl, rfl, rfl, rfl, rfl, rfl⟩, by decide,
   (launch_within_45_of_rightward _ ⟨rfl, rfl, rfl, rfl, rfl, rfl⟩ zeroGame 30 (by decide)).1⟩

/-- C7, counterexample to the claim as stated: with the admissible draw `rnd = 0`
the launch velocity is `(300, 0)`: the ball departs horizontally, `velocity.y` is
not negative and `|velocity.x| ≤ |velocity.y|` fails. -/
theorem launch_not_upward_at_zero :
    (-45 : Int) ≤ 0 ∧ (0 : Int) ≤ 45
    ∧ (ResetBall
        (⟨Real.cos, Real.sin, Real.sqrt, Real.pi, circleRecOverlap, recsOverlap⟩ : Raylib ℝ)
        zeroGame 0).ballVelocity = ⟨300, 0⟩
    ∧ ¬ ((ResetBall
        (⟨Real.cos, Real.sin, Real.sqrt, Real.pi, circleRecOverlap, recsOverlap⟩ : Raylib ℝ)
        zeroGame 0).ballVelocity.y < 0)
    ∧ ¬ (|(ResetBall
        (⟨Real.cos, Real.sin, Real.sqrt, Real.pi, circleRecOverlap, recsOverlap⟩ : Raylib ℝ)
        zeroGame 0).ballVelocity.x|
      ≤ |(ResetBall
        (⟨Real.cos, Real.sin, Real.sqrt, Real.pi, circleRecOverlap, recsOverlap⟩ : Raylib ℝ)
        zeroGame 0).ballVelocity.y|) := by
  have e : (ResetBall
        (⟨Real.cos, Real.sin, Real.sqrt, Real.pi, circleRecOverlap, recsOverlap⟩ : Raylib ℝ)
        zeroGame 0).ballVelocity = ⟨300, 0⟩ := by
    rw [ResetBall_ballVelocity]
    simp
  refine ⟨by decide, by decide, e, ?_, ?_⟩
  · rw [e]; norm_num
  · rw [e]; norm_num

theorem paddleScenario_preFrame :
    preFrame (⟨Real.cos, Real.sin, Real.sqrt, Real.pi, circleRecOverlap, recsOverlap⟩ : Raylib ℝ)
        paddleScenario (idleInput (1 / 60) 0)
      = { (paddleScenario : Game ℝ) with
          ballPosition := ⟨400, 545⟩
          ballVelocity := ⟨150 * Real.sqrt 2, 150 * Real.sqrt 2⟩ } := by
  have hx : paddleX (paddleScenario : Game ℝ) (idleInput (1 / 60) 0) = 375 := by
    simp [paddleX, paddleScenario, idleInput]
    norm_num
  have hov : circleRecOverlap (⟨400, 545⟩ : Vector2 ℝ) 10 ⟨375, 550, 100, 20⟩ = true := by
    unfold circleRecOverlap
    norm_num [abs_of_nonneg, abs_of_nonpos]
  have hlen : Real.sqrt (0 * 0 + 300 * 300) = 300 := by
    rw [zero_mul, zero_add, Real.sqrt_mul_self (by norm_num)]
  have hang : (((400 : ℝ) - 375) / 100 - 1 / 2) * Real.pi = -(Real.pi / 4) := by ring
  unfold preFrame
  simp only [hx]
  have hpos : Vector2Add (paddleScenario : Game ℝ).ballPosition
      (Vector2Scale (paddleScenario : Game ℝ).ballVelocity (idleInput (1 / 60) 0 : Input ℝ).deltaTime)
      = ⟨400, 545⟩ := by
    simp [Vector2Add, Vector2Scale, paddleScenario, idleInput]
    norm_num
  rw [hpos]
  have hw : wallVel (⟨400, 545⟩ : Vector2 ℝ) (paddleScenario : Game ℝ).ballVelocity = ⟨0, 300⟩ := by
    simp [wallVel, paddleScenario]
    norm_num
  rw [hw]
  have hpv : paddleVel
      (⟨Real.cos, Real.sin, Real.sqrt, Real.pi, circleRecOverlap, recsOverlap⟩ : Raylib ℝ)
      ⟨400, 545⟩ ⟨0, 300⟩ 375 ⟨375, (paddleScenario : Game ℝ).playerPosition.y, 100, 20⟩
      = ⟨150 * Real.sqrt 2, 150 * Real.sqrt 2⟩ := by
    have hy : (paddleScenario : Game ℝ).playerPosition.y = 550 := rfl
    rw [hy]
    unfold paddleVel
    simp only [hov, true_and]
    rw [if_pos (by norm_num)]
    simp only [Vector2Length, hang, hlen, Real.cos_neg, Real.sin_neg, Real.cos_pi_div_four,
      Real.sin_pi_div_four]
    ext <;> simp <;> ring
  rw [hpv]
  norm_num
  rfl

/-- C8, the specification's own scenario evaluated on the code: ball at x = 400
moving straight down with velocity (0, 300) meets the paddle spanning
[375, 475] (hitPos = 0.25, angle = -45 degrees).  After the call the ball is at
(400, 545) and its velocity is (150·√2, 150·√2): rightward, but with positive
y, that is still downward, so the ball is not sent back up. -/
theorem paddle_left_half_keeps_ball_falling :
    (UpdateGame
        (⟨Real.cos, Real.sin, Real.sqrt, Real.pi, circleRecOverlap, recsOverlap⟩ : Raylib ℝ)
        paddleScenario (idleInput (1 / 60) 0)).ballPosition = ⟨400, 545⟩
    ∧ circleRecOverlap (⟨400, 545⟩ : Vector2 ℝ) 10 ⟨375, 550, 100, 20⟩ = true
    ∧ (UpdateGame
        (⟨Real.cos, Real.sin, Real.sqrt, Real.pi, circleRecOverlap, recsOverlap⟩ : Raylib ℝ)
        paddleScenario (idleInput (1 / 60) 0)).ballVelocity
        = ⟨150 * Real.sqrt 2, 150 * Real.sqrt 2⟩
    ∧ 0 < (UpdateGame
        (⟨Real.cos, Real.sin, Real.sqrt, Real.pi, circleRecOverlap, recsOverlap⟩ : Raylib ℝ)
        paddleScenario (idleInput (1 / 60) 0)).ballVelocity.y := by
  have hov : circleRecOverlap (⟨400, 545⟩ : Vector2 ℝ) 10 ⟨375, 550, 100, 20⟩ = true := by
    unfold circleRecOverlap
    norm_num [abs_of_nonneg, abs_of_nonpos]
  have hU := UpdateGame_gameplay_low
    (⟨Real.cos, Real.sin, Real.sqrt, Real.pi, circleRecOverlap, recsOverlap⟩ : Raylib ℝ)
    paddleScenario (idleInput (1 / 60) 0) rfl rfl (fun _ => rfl)
    (by rw [paddleScenario_preFrame]; norm_num)
  rw [hU, winCheck_ballPosition, winCheck_ballVelocity, UpdateGame_updatePowerups_eq,
    paddleScenario_preFrame]
  refine ⟨rfl, hov, rfl, ?_⟩
  show (0 : ℝ) < 150 * Real.sqrt 2
  positivity

theorem CheckCollisions_blocks_active (E : Raylib α) (g : Game α) (i : Fin 50) :
    ((CheckCollisions E g).blocks i).active
      = ((g.blocks i).active
          && !E.CheckCollisionCircleRec g.ballPosition (BALL_RADIUS : α) (g.blocks i).rect) := by
  rw [(CheckCollisions_inv E g).blk i]
  by_cases hh : blockHit E g i = true
  · simp only [i.isLt, hh, and_self, if_true]
    simp only [blockHit, Bool.and_eq_true] at hh
    simp [hh.1, hh.2]
  · simp only [hh, and_false, if_false]
    simp only [blockHit, Bool.and_eq_true, not_and, Bool.not_eq_true] at hh
    by_cases ha : (g.blocks i).active = true
    · simp [ha, hh ha]
    · simp only [Bool.not_eq_true] at ha
      simp [ha]

theorem deactivatedCount_CheckCollisions (E : Raylib α) (g : Game α) :
    deactivatedCount g (CheckCollisions E g) = countBelow (blockHit E g) 50 := by
  rw [countBelow_all]
  unfold deactivatedCount
  congr 1
  ext j
  simp only [Finset.mem_filter, Finset.mem_univ, true_and]
  rw [CheckCollisions_blocks_active]
  simp only [blockHit]
  by_cases ha : (g.blocks j).active = true
  · simp [ha]
  · simp only [Bool.not_eq_true] at ha
    simp [ha]

/-- C10. For every game state, `CheckCollisions` deactivates a block only if it
was active and the ball circle (radius `BALL_RADIUS = 10`) overlaps its
rectangle, never reactivates a block, never changes a block's rectangle, type
or colour, and with `k` the number of blocks it deactivated the score grows by
`10 * k` and `activeBlocks` drops by `k`. -/
theorem CheckCollisions_bookkeeping (E : Raylib α) (g : Game α) :
    (∀ i, (g.blocks i).active = true → ((CheckCollisions E g).blocks i).active = false →
        E.CheckCollisionCircleRec g.ballPosition (BALL_RADIUS : α) (g.blocks i).rect = true)
    ∧ (∀ i, ((CheckCollisions E g).blocks i).active = true → (g.blocks i).active = true)
    ∧ (∀ i, ((CheckCollisions E g).blocks i).rect = (g.blocks i).rect
        ∧ ((CheckCollisions E g).blocks i).type = (g.blocks i).type
        ∧ ((CheckCollisions E g).blocks i).color = (g.blocks i).color)
    ∧ (CheckCollisions E g).score
        = g.score + 10 * (deactivatedCount g (CheckCollisions E g) : Int)
    ∧ (CheckCollisions E g).activeBlocks
        = g.activeBlocks - (deactivatedCount g (CheckCollisions E g) : Int)
    ∧ (BALL_RADIUS : α) = 10 := by
  have h := CheckCollisions_inv E g
  refine ⟨?_, ?_, ?_, ?_, ?_, by simp [BALL_RADIUS]⟩
  · intro i ha hb
    rw [CheckCollisions_blocks_active, ha] at hb
    simpa using hb
  · intro i hb
    rw [CheckCollisions_blocks_active] at hb
    simp only [Bool.and_eq_true] at hb
    exact hb.1
  · intro i
    rw [h.blk i]
    split_ifs <;> exact ⟨rfl, rfl, rfl⟩
  · rw [deactivatedCount_CheckCollisions]; exact h.score
  · rw [deactivatedCount_CheckCollisions]; exact h.cnt

/-- C9 (as the code has it). For every game state, one call of `CheckCollisions`
tests every block: afterwards block `i` is active exactly when it was active
and the ball circle does not overlap its rectangle, so every active block the
ball overlaps is destroyed in that call, possibly several; the ball does not
move and each velocity component keeps its value or changes sign. -/
theorem CheckCollisions_destroys_every_hit (E : Raylib α) (g : Game α) :
    (∀ i, ((CheckCollisions E g).blocks i).active
        = ((g.blocks i).active
            && !E.CheckCollisionCircleRec g.ballPosition (BALL_RADIUS : α) (g.blocks i).rect))
    ∧ (CheckCollisions E g).ballPosition = g.ballPosition
    ∧ ((CheckCollisions E g).ballVelocity.x = g.ballVelocity.x
        ∨ (CheckCollisions E g).ballVelocity.x = -g.ballVelocity.x)
    ∧ ((CheckCollisions E g).ballVelocity.y = g.ballVelocity.y
        ∨ (CheckCollisions E g).ballVelocity.y = -g.ballVelocity.y) :=
  ⟨CheckCollisions_blocks_active E g, (CheckCollisions_inv E g).bpos,
    (CheckCollisions_inv E g).velx, (CheckCollisions_inv E g).vely⟩

/-- C9, counterexample to the claim as stated: with the ball at (485, 245),
between blocks 45 and 46, one `CheckCollisions` call deactivates both blocks
not only the first one in index order, and so does the `UpdateGame` call of a
frame with that ball position. -/
theorem two_blocks_destroyed_in_one_call :
    ((twoBlockScenario : Game ℝ).blocks 45).active = true
    ∧ ((twoBlockScenario : Game ℝ).blocks 46).active = true
    ∧ ((CheckCollisions
          (⟨Real.cos, Real.sin, Real.sqrt, Real.pi, circleRecOverlap, recsOverlap⟩ : Raylib ℝ)
          twoBlockScenario).blocks 45).active = false
    ∧ ((CheckCollisions
          (⟨Real.cos, Real.sin, Real.sqrt, Real.pi, circleRecOverlap, recsOverlap⟩ : Raylib ℝ)
          twoBlockScenario).blocks 46).active = false
    ∧ 2 ≤ deactivatedCount (twoBlockScenario : Game ℝ)
        (CheckCollisions
          (⟨Real.cos, Real.sin, Real.sqrt, Real.pi, circleRecOverlap, recsOverlap⟩ : Raylib ℝ)
          twoBlockScenario)
    ∧ ((UpdateGame
          (⟨Real.cos, Real.sin, Real.sqrt, Real.pi, circleRecOverlap, recsOverlap⟩ : Raylib ℝ)
          twoBlockScenario (idleInput 0 0)).blocks 45).active = false
    ∧ ((UpdateGame
          (⟨Real.cos, Real.sin, Real.sqrt, Real.pi, circleRecOverlap, recsOverlap⟩ : Raylib ℝ)
          twoBlockScenario (idleInput 0 0)).blocks 46).active = false := by
  have e2 : ((BALL_RADIUS : Nat) : ℝ) = 10 := by simp [BALL_RADIUS]
  have v45 : ((45 : Fin 50) : Nat) = 45 := rfl
  have v46 : ((46 : Fin 50) : Nat) = 46 := rfl
  have h45 : circleRecOverlap (⟨485, 245⟩ : Vector2 ℝ) 10 (initBlock (45 : Fin 50) : Block ℝ).rect
      = true := by
    unfold circleRecOverlap initBlock
    simp only [v45]
    norm_num [abs_of_nonneg, abs_of_nonpos]
  have h46 : circleRecOverlap (⟨485, 245⟩ : Vector2 ℝ) 10 (initBlock (46 : Fin 50) : Block ℝ).rect
      = true := by
    unfold circleRecOverlap initBlock
    simp only [v46]
    norm_num [abs_of_nonneg, abs_of_nonpos]
  have a45 : ((CheckCollisions
      (⟨Real.cos, Real.sin, Real.sqrt, Real.pi, circleRecOverlap, recsOverlap⟩ : Raylib ℝ)
      twoBlockScenario).blocks 45).active = false := by
    rw [CheckCollisions_blocks_active, e2]
    show (true && !circleRecOverlap (⟨485, 245⟩ : Vector2 ℝ) 10
      (initBlock (45 : Fin 50) : Block ℝ).rect) = false
    rw [h45]; rfl
  have a46 : ((CheckCollisions
      (⟨Real.cos, Real.sin, Real.sqrt, Real.pi, circleRecOverlap, recsOverlap⟩ : Raylib ℝ)
      twoBlockScenario).blocks 46).active = false := by
    rw [CheckCollisions_blocks_active, e2]
    show (true && !circleRecOverlap (⟨485, 245⟩ : Vector2 ℝ) 10
      (initBlock (46 : Fin 50) : Block ℝ).rect) = false
    rw [h46]; rfl
  have hpos : (UpdateGame.updatePowerups
      (⟨Real.cos, Real.sin, Real.sqrt, Real.pi, circleRecOverlap, recsOverlap⟩ : Raylib ℝ)
      (preFrame ⟨Real.cos, Real.sin, Real.sqrt, Real.pi, circleRecOverlap, recsOverlap⟩
        twoBlockScenario (idleInput 0 0))
      ⟨paddleX (twoBlockScenario : Game ℝ) (idleInput 0 0),
        (twoBlockScenario : Game ℝ).playerPosition.y, 100, 20⟩
      (idleInput 0 0 : Input ℝ).deltaTime).ballPosition = ⟨485, 245⟩ := by
    rw [UpdateGame_updatePowerups_eq]
    show (preFrame _ twoBlockScenario (idleInput 0 0)).ballPosition = _
    rw [preFrame_ballPosition]
    simp [twoBlockScenario, idleInput, Vector2Add, Vector2Scale]
    norm_num
  have hblk : (UpdateGame.updatePowerups
      (⟨Real.cos, Real.sin, Real.sqrt, Real.pi, circleRecOverlap, recsOverlap⟩ : Raylib ℝ)
      (preFrame ⟨Real.cos, Real.sin, Real.sqrt, Real.pi, circleRecOverlap, recsOverlap⟩
        twoBlockScenario (idleInput 0 0))
      ⟨paddleX (twoBlockScenario : Game ℝ) (idleInput 0 0),
        (twoBlockScenario : Game ℝ).playerPosition.y, 100, 20⟩
      (idleInput 0 0 : Input ℝ).deltaTime).blocks = initBlock := by
    rw [UpdateGame_updatePowerups_eq]
    show (preFrame _ twoBlockScenario (idleInput 0 0)).blocks = _
    rw [preFrame_blocks]
    rfl
  have u45 : ((UpdateGame
      (⟨Real.cos, Real.sin, Real.sqrt, Real.pi, circleRecOverlap, recsOverlap⟩ : Raylib ℝ)
      twoBlockScenario (idleInput 0 0)).blocks 45).active = false := by
    rw [UpdateGame_gameplay _ _ _ rfl, winCheck_blocks, CheckCollisions_blocks_active, e2,
      hpos, hblk]
    show (true && !circleRecOverlap (⟨485, 245⟩ : Vector2 ℝ) 10
      (initBlock (45 : Fin 50) : Block ℝ).rect) = false
    rw [h45]; rfl
  have u46 : ((UpdateGame
      (⟨Real.cos, Real.sin, Real.sqrt, Real.pi, circleRecOverlap, recsOverlap⟩ : Raylib ℝ)
      twoBlockScenario (idleInput 0 0)).blocks 46).active = false := by
    rw [UpdateGame_gameplay _ _ _ rfl, winCheck_blocks, CheckCollisions_blocks_active, e2,
      hpos, hblk]
    show (true && !circleRecOverlap (⟨485, 245⟩ : Vector2 ℝ) 10
      (initBlock (46 : Fin 50) : Block ℝ).rect) = false
    rw [h46]; rfl
  refine ⟨rfl, rfl, a45, a46, ?_, u45, u46⟩
  unfold deactivatedCount
  have hsub : ({45, 46} : Finset (Fin 50)) ⊆ Finset.univ.filter
      (fun i : Fin 50 => ((twoBlockScenario : Game ℝ).blocks i).active = true
        ∧ ((CheckCollisions
          (⟨Real.cos, Real.sin, Real.sqrt, Real.pi, circleRecOverlap, recsOverlap⟩ : Raylib ℝ)
          twoBlockScenario).blocks i).active = false) := by
    intro i hi
    simp only [Finset.mem_insert, Finset.mem_singleton] at hi
    simp only [Finset.mem_filter, Finset.mem_univ, true_and]
    rcases hi with h | h <;> subst h
    · exact ⟨rfl, a45⟩
    · exact ⟨rfl, a46⟩
  have hc := Finset.card_le_card hsub
  simpa using hc

theorem PlayInv_InitGame (E : Raylib α) (g0 : Game α) (rnd : Int) :
    PlayInv (InitGame E g0 rnd) := by
  rw [InitGame_eq]
  intro _
  show (0 : Int) < 50
  norm_num

theorem PlayInv_winCheck (g : Game α) : PlayInv (UpdateGame.winCheck g) := by
  unfold UpdateGame.winCheck PlayInv
  split_ifs with h
  · intro hs
    exact absurd hs (by simp)
  · intro _
    exact not_le.mp h

theorem PlayInv_UpdateGame (E : Raylib α) (g : Game α) (inp : Input α) (h : PlayInv g) :
    PlayInv (UpdateGame E g inp) := by
  by_cases hs : g.state = GameState.GAMEPLAY
  · rw [UpdateGame_gameplay E g inp hs]
    exact PlayInv_winCheck _
  · rw [UpdateGame_idle E g inp hs]
    split_ifs
    · exact PlayInv_InitGame E g _
    · exact h

theorem GridInv_UpdateGame (E : Raylib α) (g : Game α) (inp : Input α) (h : GridInv g) :
    GridInv (UpdateGame E g inp) := by
  by_cases hs : g.state = GameState.GAMEPLAY
  · rw [UpdateGame_gameplay E g inp hs]
    intro j
    rw [winCheck_blocks, (CheckCollisions_inv E _).blk j, UpdateGame_updatePowerups_eq]
    show (if _ then _ else (preFrame E g inp).blocks j).rect = _
    rw [preFrame_blocks]
    split_ifs
    · exact h j
    · exact h j
  · rw [UpdateGame_idle E g inp hs]
    split_ifs
    · exact GridInv_InitGame E g _
    · exact h

theorem preFrame_state (E : Raylib α) (g : Game α) (inp : Input α) :
    (preFrame E g inp).state =
      if g.ballPosition.y + g.ballVelocity.y * inp.deltaTime > 610 ∧ g.lives ≤ 1 then
        GameState.GAME_OVER
      else g.state := by
  unfold preFrame
  simp only [Vector2Add, Vector2Scale]
  by_cases h1 : g.ballPosition.y + g.ballVelocity.y * inp.deltaTime > 610
  · by_cases h2 : g.lives - 1 ≤ 0
    · have h3 : g.lives ≤ 1 := by omega
      simp [h1, h2, h3]
    · have h3 : ¬ g.lives ≤ 1 := by omega
      simp [h1, h2, h3]
  · simp [h1]

theorem caughtCount_preFrame (E : Raylib α) (g : Game α) (inp : Input α)
    (r : Rectangle α) (dt : α) :
    caughtCount E r dt (preFrame E g inp) = caughtCount E r dt g := by
  unfold caughtCount
  rw [preFrame_powerups]

/-- A gameplay frame in which the ball leaves the bottom of the screen, for a game
whose blocks sit on the `InitGame` grid and which still has a block left. -/
theorem UpdateGame_ball_lost (E : Raylib α) (g : Game α) (inp : Input α)
    (hE : E.CheckCollisionCircleRec = circleRecOverlap)
    (hs : g.state = GameState.GAMEPLAY) (hg : GridInv g) (hp : PlayInv g)
    (hout : g.ballPosition.y + g.ballVelocity.y * inp.deltaTime > 610) :
    UpdateGame E g inp =
      UpdateGame.updatePowerups E (preFrame E g inp)
        ⟨paddleX g inp, g.playerPosition.y, 100, 20⟩ inp.deltaTime := by
  have hlow : 250 < (preFrame E g inp).ballPosition.y := by
    rw [preFrame_ballPosition]
    split_ifs
    · show (250 : α) < 300
      norm_num
    · show (250 : α) < g.ballPosition.y + g.ballVelocity.y * inp.deltaTime
      linarith
  rw [UpdateGame_gameplay_low E g inp hs hE hg hlow]
  unfold UpdateGame.winCheck
  rw [if_neg]
  rw [UpdateGame_updatePowerups_eq]
  show ¬ (preFrame E g inp).activeBlocks ≤ 0
  rw [preFrame_activeBlocks]
  exact not_le.mpr (hp hs)

/-- C5 (as the code has it). For every reachable Gameplay state and every
`UpdateGame` call in which the ball's y-coordinate after integration exceeds 610:
the out-of-bounds step takes one life and the power-up loop of the same call
gives one back for each power-up caught, so `lives` ends at
`lives - 1 + caughtCount`; if `lives` was 1 the call ends in `GAME_OVER` with the
ball left where integration put it (not reset); if `lives` was greater than 1
the call ends in Gameplay with the ball at the screen centre (400, 300) and
speed 300. -/
theorem ball_lost_below_screen (E : Raylib ℝ) (hE : IdealReal E) (g : Game ℝ)
    (hr : Reachable E g) (hs : g.state = GameState.GAMEPLAY) (inp : Input ℝ)
    (hout : g.ballPosition.y + g.ballVelocity.y * inp.deltaTime > 610) :
    (UpdateGame E g inp).lives
        = g.lives - 1
          + (caughtCount E ⟨paddleX g inp, g.playerPosition.y, 100, 20⟩ inp.deltaTime g : Int)
    ∧ (g.lives = 1 →
        (UpdateGame E g inp).state = GameState.GAME_OVER
        ∧ (UpdateGame E g inp).ballPosition
            = ⟨g.ballPosition.x + g.ballVelocity.x * inp.deltaTime,
               g.ballPosition.y + g.ballVelocity.y * inp.deltaTime⟩)
    ∧ (1 < g.lives →
        (UpdateGame E g inp).state = GameState.GAMEPLAY
        ∧ (UpdateGame E g inp).ballPosition = ⟨400, 300⟩
        ∧ Vector2Length E (UpdateGame E g inp).ballVelocity = 300) := by
  have hg : GridInv g := Reachable_inv E GridInv (GridInv_InitGame E) (GridInv_UpdateGame E) g hr
  have hp : PlayInv g := Reachable_inv E PlayInv (PlayInv_InitGame E) (PlayInv_UpdateGame E) g hr
  have hU := UpdateGame_ball_lost E g inp hE.2.2.2.2.1 hs hg hp hout
  rw [hU, UpdateGame_updatePowerups_eq]
  refine ⟨?_, ?_, ?_⟩
  · show (preFrame E g inp).lives + _ = _
    rw [preFrame_lives, if_pos hout, caughtCount_preFrame]
  · intro h1
    refine ⟨?_, ?_⟩
    · show (preFrame E g inp).state = _
      rw [preFrame_state, if_pos ⟨hout, le_of_eq h1⟩]
    · show (preFrame E g inp).ballPosition = _
      rw [preFrame_ballPosition, if_neg (fun h => absurd h.2 (by omega))]
      rfl
  · intro h1
    refine ⟨?_, ?_, ?_⟩
    · show (preFrame E g inp).state = _
      rw [preFrame_state, if_neg (fun h => absurd h.2 (by omega))]
      exact hs
    · show (preFrame E g inp).ballPosition = _
      rw [preFrame_ballPosition, if_pos ⟨hout, h1⟩]
    · show Vector2Length E (preFrame E g inp).ballVelocity = _
      rw [preFrame_ballVelocity, if_pos ⟨hout, h1⟩]
      exact launch_length E hE _

theorem circleRecOverlap_far (c : Vector2 α) (radius : α) (rec : Rectangle α)
    (h : rec.width / 2 + radius < |c.x - (rec.x + rec.width / 2)|
      ∨ rec.height / 2 + radius < |c.y - (rec.y + rec.height / 2)|) :
    circleRecOverlap c radius rec = false := by
  unfold circleRecOverlap
  simp only
  rcases h with h | h
  · rw [if_pos h]
  · split_ifs
    · rfl
    · rfl

theorem blockHit_body_of_ne (E : Raylib α) (g : Game α) (k i : Fin 50) (h : i ≠ k) :
    blockHit E (CheckCollisions.body E k g) i = blockHit E g i := by
  have hne : i.val ≠ k.val := fun e => h (Fin.ext e)
  rw [CheckCollisions_body_eq]
  split_ifs
  · simp [blockHit, modifyAt, hne]
  · simp [blockHit, modifyAt, hne]
  · rfl

/-- If the ball overlaps no active block other than block `k`, the whole
`CheckCollisions` loop does what its iteration `k` does. -/
theorem CheckCollisions_single_hit (E : Raylib α) (g : Game α) (k : Fin 50)
    (h : ∀ j, j ≠ k → blockHit E g j = false) :
    CheckCollisions E g = CheckCollisions.body E k g := by
  have key := forLoop_induct (CheckCollisions.body E)
    (fun n t => t = if k.val < n then CheckCollisions.body E k g else g) g
    (by simp)
    (by
      intro i t ht
      show CheckCollisions.body E i t = _
      by_cases hik : i = k
      · subst hik
        rw [ht, if_neg (lt_irrefl _), if_pos (Nat.lt_succ_self _)]
      · have hne : k.val ≠ i.val := fun e => hik (Fin.ext e.symm)
        have e : (k.val < i.val + 1) = (k.val < i.val) := by
          apply propext; constructor <;> intro h <;> omega
        have hit : blockHit E t i = false := by
          rw [ht]
          split_ifs
          · rw [blockHit_body_of_ne E g k i hik]; exact h i hik
          · exact h i hik
        rw [CheckCollisions_body_eq, hit]
        simp only [Bool.false_eq_true, if_false, e]
        exact ht)
  unfold CheckCollisions
  rw [key, if_pos k.isLt]

theorem updatePowerups_of_inactive (E : Raylib α) (g : Game α) (r : Rectangle α) (dt : α)
    (h : ∀ j, (g.powerups j).active = false) :
    UpdateGame.updatePowerups E g r dt = g := by
  rw [UpdateGame_updatePowerups_eq]
  have hc : caughtCount E r dt g = 0 := by
    unfold caughtCount
    rw [Finset.card_eq_zero, Finset.filter_eq_empty_iff]
    intro j _
    simp [caught, h j]
  rw [hc]
  ext1 <;> try rfl
  · funext j
    simp [stepPowerup, h j]
  · simp

theorem circleRecOverlap_455_245 (j : Fin 50) (hj : j ≠ 45) :
    circleRecOverlap (⟨455, 245⟩ : Vector2 α) 10 (initBlock j : Block α).rect = false := by
  apply circleRecOverlap_far
  have hlt := j.isLt
  have hv : j.val ≠ 45 := fun e => hj (Fin.ext e)
  show (70 : α) / 2 + 10 < |455 - (((10 + 80 * (j.val % 10) : Nat) : α) + 70 / 2)|
    ∨ (30 : α) / 2 + 10 < |245 - (((50 + 40 * (j.val / 10) : Nat) : α) + 30 / 2)|
  by_cases hrow : j.val / 10 ≤ 3
  · right
    have hy : ((50 + 40 * (j.val / 10) : Nat) : α) ≤ 170 := by
      have : 50 + 40 * (j.val / 10) ≤ 170 := by omega
      exact_mod_cast this
    rw [abs_of_nonneg (by linarith)]
    linarith
  · left
    by_cases hcol : j.val % 10 ≤ 4
    · have hx : ((10 + 80 * (j.val % 10) : Nat) : α) ≤ 330 := by
        have : 10 + 80 * (j.val % 10) ≤ 330 := by omega
        exact_mod_cast this
      rw [abs_of_nonneg (by linarith)]
      linarith
    · have hx : (490 : α) ≤ ((10 + 80 * (j.val % 10) : Nat) : α) := by
        have : 490 ≤ 10 + 80 * (j.val % 10) := by omega
        exact_mod_cast this
      rw [abs_of_nonpos (by linarith)]
      linarith

theorem initBlock_45 :
    (initBlock (45 : Fin 50) : Block α)
      = ⟨⟨410, 210, 70, 30⟩, true, ⟨0, 228, 48, 255⟩, BlockType.POWERUP⟩ := by
  have v45 : ((45 : Fin 50) : Nat) = 45 := rfl
  unfold initBlock
  simp only [v45]
  norm_num

theorem CheckCollisions_beforeBlock45 (E : Raylib α)
    (hE : E.CheckCollisionCircleRec = circleRecOverlap) (s : α) :
    CheckCollisions E (beforeBlock45 s) = afterBlock45 s := by
  have e2 : ((BALL_RADIUS : Nat) : α) = 10 := by simp [BALL_RADIUS]
  have e15 : ((POWERUP_SIZE : Nat) : α) = 15 := by simp [POWERUP_SIZE]
  have hov : circleRecOverlap (⟨455, 245⟩ : Vector2 α) 10 ⟨410, 210, 70, 30⟩ = true := by
    unfold circleRecOverlap
    norm_num [abs_of_nonneg, abs_of_nonpos]
  have hmiss : ∀ j : Fin 50, j ≠ 45 → blockHit E (beforeBlock45 s) j = false := by
    intro j hj
    unfold blockHit
    rw [hE, e2]
    show ((initBlock j : Block α).active
      && circleRecOverlap (⟨455, 245⟩ : Vector2 α) 10 (initBlock j : Block α).rect) = false
    rw [circleRecOverlap_455_245 j hj]
    simp
  have hhit : blockHit E (beforeBlock45 s) 45 = true := by
    unfold blockHit
    rw [hE, e2]
    show ((initBlock (45 : Fin 50) : Block α).active
      && circleRecOverlap (⟨455, 245⟩ : Vector2 α) 10 (initBlock (45 : Fin 50) : Block α).rect) = true
    rw [initBlock_45, hov]
    rfl
  have hcb : CheckBlockCollision E (⟨455, 245⟩ : Vector2 α) ⟨150 * s, -(150 * s)⟩
      ⟨410, 210, 70, 30⟩ = (true, ⟨455, 245⟩, ⟨150 * s, 150 * s⟩) := by
    unfold CheckBlockCollision
    rw [hE, e2, hov]
    norm_num
  rw [CheckCollisions_single_hit E _ 45 hmiss, CheckCollisions_body_eq, hhit, if_pos rfl]
  have hb : (beforeBlock45 s).blocks 45 = (initBlock (45 : Fin 50) : Block α) := rfl
  rw [hb, initBlock_45]
  simp only [if_true]
  have hbp : (beforeBlock45 s).ballPosition = ⟨455, 245⟩ := rfl
  have hbv : (beforeBlock45 s).ballVelocity = ⟨150 * s, -(150 * s)⟩ := rfl
  rw [hbp, hbv, hcb]
  unfold afterBlock45
  ext1 <;> try rfl
  funext j
  show modifyAt _ 45 (fun _ => spawnPowerup _) j = _
  simp only [modifyAt, spawnPowerup, e15]
  split_ifs
  · norm_num
  · rfl

theorem preFrame_fresh_45 (E : Raylib ℝ) (hE : IdealReal E) :
    preFrame E (InitGame E zeroGame 45) (idleInput (11 * Real.sqrt 2 / 60) 0)
      = beforeBlock45 (Real.sqrt 2) := by
  obtain ⟨hc, hs, hq, hpi, hcc, hrr⟩ := hE
  have h2 : Real.sqrt 2 * Real.sqrt 2 = 2 := Real.mul_self_sqrt (by norm_num)
  have hang : ((45 : Int) : ℝ) * (Real.pi / 180) = Real.pi / 4 := by push_cast; ring
  have hv : (InitGame E zeroGame 45).ballVelocity
      = ⟨150 * Real.sqrt 2, -(150 * Real.sqrt 2)⟩ := by
    rw [InitGame_eq]
    show (⟨E.cosf (((45 : Int) : ℝ) * E.DEG2RAD) * 300,
      -E.sinf (((45 : Int) : ℝ) * E.DEG2RAD) * 300⟩ : Vector2 ℝ) = _
    unfold Raylib.DEG2RAD
    rw [hc, hs, hpi, hang, Real.cos_pi_div_four, Real.sin_pi_div_four]
    ext <;> simp <;> ring
  have hp : (InitGame E zeroGame 45).ballPosition = ⟨400, 300⟩ := by rw [InitGame_eq]
  have hpl : (InitGame E zeroGame 45).playerPosition = ⟨350, 550⟩ := by rw [InitGame_eq]
  have hx : paddleX (InitGame E zeroGame 45) (idleInput (11 * Real.sqrt 2 / 60) 0) = 350 := by
    unfold paddleX
    rw [hpl]
    simp [idleInput]
    norm_num
  have hd : 150 * Real.sqrt 2 * (11 * Real.sqrt 2 / 60) = 55 := by
    calc 150 * Real.sqrt 2 * (11 * Real.sqrt 2 / 60)
        = 150 * 11 / 60 * (Real.sqrt 2 * Real.sqrt 2) := by ring
      _ = 55 := by rw [h2]; norm_num
  have hpos : Vector2Add (InitGame E zeroGame 45).ballPosition
      (Vector2Scale (InitGame E zeroGame 45).ballVelocity
        (idleInput (11 * Real.sqrt 2 / 60) 0 : Input ℝ).deltaTime) = ⟨455, 245⟩ := by
    rw [hp, hv]
    show (⟨400 + 150 * Real.sqrt 2 * (11 * Real.sqrt 2 / 60),
      300 + -(150 * Real.sqrt 2) * (11 * Real.sqrt 2 / 60)⟩ : Vector2 ℝ) = _
    rw [neg_mul, hd]
    norm_num
  have hw : wallVel (⟨455, 245⟩ : Vector2 ℝ) (InitGame E zeroGame 45).ballVelocity
      = ⟨150 * Real.sqrt 2, -(150 * Real.sqrt 2)⟩ := by
    rw [hv]
    unfold wallVel
    norm_num
  have hnp : circleRecOverlap (⟨455, 245⟩ : Vector2 ℝ) 10 ⟨350, 550, 100, 20⟩ = false := by
    apply circleRecOverlap_far
    right
    norm_num [abs_of_nonneg, abs_of_nonpos]
  have hpv : paddleVel E (⟨455, 245⟩ : Vector2 ℝ) ⟨150 * Real.sqrt 2, -(150 * Real.sqrt 2)⟩ 350
      ⟨350, 550, 100, 20⟩ = ⟨150 * Real.sqrt 2, -(150 * Real.sqrt 2)⟩ := by
    unfold paddleVel
    rw [hcc, hnp]
    simp
  unfold preFrame
  simp only [hx, hpos, hw, hpl, hpv]
  rw [if_neg (by norm_num)]
  rw [InitGame_eq]
  unfold beforeBlock45
  ext1 <;> rfl

theorem first_frame_destroys_block_45 (E : Raylib ℝ) (hE : IdealReal E) :
    UpdateGame E (InitGame E zeroGame 45) (idleInput (11 * Real.sqrt 2 / 60) 0)
      = afterBlock45 (Real.sqrt 2) := by
  rw [UpdateGame_gameplay E _ _ (by rw [InitGame_eq]), preFrame_fresh_45 E hE,
    updatePowerups_of_inactive E _ _ _ (fun _ => rfl),
    CheckCollisions_beforeBlock45 E hE.2.2.2.2.1]
  unfold UpdateGame.winCheck
  rw [if_neg]
  show ¬ (49 : Int) ≤ 0
  norm_num

theorem caughtCount_afterBlock45 (E : Raylib α) (hE : E.CheckCollisionRecs = recsOverlap)
    (s : α) :
    caughtCount E ⟨350, 550, 100, 20⟩ 2 (afterBlock45 s) = 1 := by
  have e150 : ((POWERUP_SPEED : Nat) : α) = 150 := by simp [POWERUP_SPEED]
  unfold caughtCount
  have e : Finset.univ.filter
      (fun j : Fin 50 => caught E ⟨350, 550, 100, 20⟩ 2 ((afterBlock45 s).powerups j) = true)
      = {45} := by
    ext j
    simp only [Finset.mem_filter, Finset.mem_univ, true_and, Finset.mem_singleton]
    constructor
    · intro h
      by_contra hne
      have hv : ¬ j.val = 45 := fun e => hne (Fin.ext e)
      have : (afterBlock45 s).powerups j
          = ⟨⟨0, 0⟩, false, PowerupType.EXTRA_LIFE, ⟨0, 0, 0, 0⟩⟩ := by
        show (if j.val = 45 then _ else _) = _
        rw [if_neg hv]
      rw [this] at h
      simp [caught] at h
    · intro h
      subst h
      show caught E ⟨350, 550, 100, 20⟩ 2
        ⟨⟨875 / 2, 240⟩, true, PowerupType.EXTRA_LIFE, ⟨875 / 2, 240, 15, 15⟩⟩ = true
      unfold caught fallen
      rw [hE, e150]
      unfold recsOverlap
      norm_num
  rw [e]
  rfl

theorem second_frame_lives (E : Raylib α) (hc : E.CheckCollisionCircleRec = circleRecOverlap)
    (hr : E.CheckCollisionRecs = recsOverlap) (s : α) (hs : 245 + 150 * s * 2 > 610) :
    (UpdateGame E (afterBlock45 s) (idleInput 2 0)).lives = 3 := by
  have hg : GridInv (afterBlock45 s) := by
    intro j
    show (if j.val = 45 then _ else _ : Block α).rect = _
    split_ifs <;> rfl
  have hp : PlayInv (afterBlock45 s) := by
    intro _
    show (0 : Int) < 49
    norm_num
  have hx : paddleX (afterBlock45 s) (idleInput 2 0) = 350 := by
    unfold paddleX
    simp [idleInput, afterBlock45]
    norm_num
  have hout : (afterBlock45 s).ballPosition.y
      + (afterBlock45 s).ballVelocity.y * (idleInput 2 0 : Input α).deltaTime > 610 := hs
  rw [UpdateGame_ball_lost E _ (idleInput 2 0) hc rfl hg hp hout, UpdateGame_updatePowerups_eq]
  show (preFrame E (afterBlock45 s) (idleInput 2 0)).lives + _ = 3
  rw [preFrame_lives, if_pos hout, caughtCount_preFrame, hx]
  show (3 : Int) - 1 + (caughtCount E ⟨350, 550, 100, 20⟩ 2 (afterBlock45 s) : Int) = 3
  rw [caughtCount_afterBlock45 E hr]
  norm_num

theorem sqrt_two_far : 245 + 150 * Real.sqrt 2 * 2 > 610 := by
  have h2 : Real.sqrt 2 * Real.sqrt 2 = 2 := Real.mul_self_sqrt (by norm_num)
  have h0 := Real.sqrt_nonneg 2
  nlinarith

/-- C5, counterexample to the claim as stated, on a reachable state.  A fresh game
launches the ball at 45 degrees; a first frame of `11·√2/60` s takes it to
(455, 245), where it destroys the `POWERUP` block 45 and turns downward.  In the
next frame (2 s) the ball ends below y = 610 and the power-up of slot 45 reaches
the paddle: the call takes one life and gives one back, so `lives` is 3 before
and 3 after, not decremented by one. -/
theorem caught_powerup_offsets_lost_life :
    Reachable (⟨Real.cos, Real.sin, Real.sqrt, Real.pi, circleRecOverlap, recsOverlap⟩ : Raylib ℝ)
      (UpdateGame ⟨Real.cos, Real.sin, Real.sqrt, Real.pi, circleRecOverlap, recsOverlap⟩
        (InitGame ⟨Real.cos, Real.sin, Real.sqrt, Real.pi, circleRecOverlap, recsOverlap⟩
          zeroGame 45) (idleInput (11 * Real.sqrt 2 / 60) 0))
    ∧ (UpdateGame
        (⟨Real.cos, Real.sin, Real.sqrt, Real.pi, circleRecOverlap, recsOverlap⟩ : Raylib ℝ)
        (InitGame ⟨Real.cos, Real.sin, Real.sqrt, Real.pi, circleRecOverlap, recsOverlap⟩
          zeroGame 45) (idleInput (11 * Real.sqrt 2 / 60) 0)).state = GameState.GAMEPLAY
    ∧ (UpdateGame
        (⟨Real.cos, Real.sin, Real.sqrt, Real.pi, circleRecOverlap, recsOverlap⟩ : Raylib ℝ)
        (InitGame ⟨Real.cos, Real.sin, Real.sqrt, Real.pi, circleRecOverlap, recsOverlap⟩
          zeroGame 45) (idleInput (11 * Real.sqrt 2 / 60) 0)).ballPosition.y
        + (UpdateGame
        (⟨Real.cos, Real.sin, Real.sqrt, Real.pi, circleRecOverlap, recsOverlap⟩ : Raylib ℝ)
        (InitGame ⟨Real.cos, Real.sin, Real.sqrt, Real.pi, circleRecOverlap, recsOverlap⟩
          zeroGame 45) (idleInput (11 * Real.sqrt 2 / 60) 0)).ballVelocity.y
          * (idleInput 2 0 : Input ℝ).deltaTime > 610
    ∧ (UpdateGame
        (⟨Real.cos, Real.sin, Real.sqrt, Real.pi, circleRecOverlap, recsOverlap⟩ : Raylib ℝ)
        (InitGame ⟨Real.cos, Real.sin, Real.sqrt, Real.pi, circleRecOverlap, recsOverlap⟩
          zeroGame 45) (idleInput (11 * Real.sqrt 2 / 60) 0)).lives = 3
    ∧ (UpdateGame
        (⟨Real.cos, Real.sin, Real.sqrt, Real.pi, circleRecOverlap, recsOverlap⟩ : Raylib ℝ)
        (UpdateGame ⟨Real.cos, Real.sin, Real.sqrt, Real.pi, circleRecOverlap, recsOverlap⟩
          (InitGame ⟨Real.cos, Real.sin, Real.sqrt, Real.pi, circleRecOverlap, recsOverlap⟩
            zeroGame 45) (idleInput (11 * Real.sqrt 2 / 60) 0))
        (idleInput 2 0)).lives = 3 := by
  refine ⟨Reachable.step _ _ (by simp [idleInput]) (Reachable.init _ _ (by decide)), ?_⟩
  rw [first_frame_destroys_block_45 _ ⟨rfl, rfl, rfl, rfl, rfl, rfl⟩]
  exact ⟨rfl, sqrt_two_far, rfl, second_frame_lives _ rfl rfl _ sqrt_two_far⟩

theorem sin_neg_thirty : Real.sin (((-30 : Int) : ℝ) * (Real.pi / 180)) = -(1 / 2) := by
  have e : ((-30 : Int) : ℝ) * (Real.pi / 180) = -(Real.pi / 6) := by push_cast; ring
  rw [e, Real.sin_neg, Real.sin_pi_div_six]

/-- Witness for C5: a fresh game launched 30 degrees downward loses the ball within a frame of 3 s and, having 3 lives, gets it back at the screen centre. -/
theorem ball_lost_below_screen_witness :
    IdealReal ⟨Real.cos, Real.sin, Real.sqrt, Real.pi, circleRecOverlap, recsOverlap⟩
    ∧ Reachable (⟨Real.cos, Real.sin, Real.sqrt, Real.pi, circleRecOverlap, recsOverlap⟩ : Raylib ℝ)
      (InitGame ⟨Real.cos, Real.sin, Real.sqrt, Real.pi, circleRecOverlap, recsOverlap⟩
        zeroGame (-30))
    ∧ (InitGame (⟨Real.cos, Real.sin, Real.sqrt, Real.pi, circleRecOverlap, recsOverlap⟩ : Raylib ℝ)
        zeroGame (-30)).state = GameState.GAMEPLAY
    ∧ (InitGame (⟨Real.cos, Real.sin, Real.sqrt, Real.pi, circleRecOverlap, recsOverlap⟩ : Raylib ℝ)
        zeroGame (-30)).ballPosition.y
      + (InitGame (⟨Real.cos, Real.sin, Real.sqrt, Real.pi, circleRecOverlap, recsOverlap⟩ : Raylib ℝ)
        zeroGame (-30)).ballVelocity.y * (idleInput 3 0 : Input ℝ).deltaTime > 610
    ∧ (1 : Int) < (InitGame
        (⟨Real.cos, Real.sin, Real.sqrt, Real.pi, circleRecOverlap, recsOverlap⟩ : Raylib ℝ)
        zeroGame (-30)).lives
    ∧ (UpdateGame
        (⟨Real.cos, Real.sin, Real.sqrt, Real.pi, circleRecOverlap, recsOverlap⟩ : Raylib ℝ)
        (InitGame ⟨Real.cos, Real.sin, Real.sqrt, Real.pi, circleRecOverlap, recsOverlap⟩
          zeroGame (-30)) (idleInput 3 0)).ballPosition = ⟨400, 300⟩ :=
  have hout : (InitGame
      (⟨Real.cos, Real.sin, Real.sqrt, Real.pi, circleRecOverlap, recsOverlap⟩ : Raylib ℝ)
        zeroGame (-30)).ballPosition.y
      + (InitGame (⟨Real.cos, Real.sin, Real.sqrt, Real.pi, circleRecOverlap, recsOverlap⟩ : Raylib ℝ)
        zeroGame (-30)).ballVelocity.y * (idleInput 3 0 : Input ℝ).deltaTime > 610 := by
    rw [InitGame_eq]
    show (300 : ℝ) + -Real.sin (((-30 : Int) : ℝ) * (Real.pi / 180)) * 300 * 3 > 610
    rw [sin_neg_thirty]
    norm_num
  have hlives : (1 : Int) < (InitGame
      (⟨Real.cos, Real.sin, Real.sqrt, Real.pi, circleRecOverlap, recsOverlap⟩ : Raylib ℝ)
        zeroGame (-30)).lives := by
    rw [InitGame_eq]
    show (1 : Int) < 3
    norm_num
  ⟨⟨rfl, rfl, rfl, rfl, rfl, rfl⟩, Reachable.init _ _ (by decide), by rw [InitGame_eq], hout,
   hlives,
   ((ball_lost_below_screen _ ⟨rfl, rfl, rfl, rfl, rfl, rfl⟩ _ (Reachable.init _ _ (by decide))
      (by rw [InitGame_eq]) (idleInput 3 0) hout).2.2 hlives).2.1⟩

/-- The frame that destroys the last block ends in `GAME_WIN` itself: from
`lastBlockScenario` one `UpdateGame` call leaves no active block,
`activeBlocks = 0`, score 500 and state `GAME_WIN`. -/
theorem last_block_wins_in_same_call (E : Raylib α)
    (hE : E.CheckCollisionCircleRec = circleRecOverlap) :
    (UpdateGame E lastBlockScenario (idleInput 0 0)).state = GameState.GAME_WIN
    ∧ (UpdateGame E lastBlockScenario (idleInput 0 0)).activeBlocks = 0
    ∧ (UpdateGame E lastBlockScenario (idleInput 0 0)).score = 500
    ∧ (∀ i, ((UpdateGame E lastBlockScenario (idleInput 0 0)).blocks i).active = false) := by
  have e2 : ((BALL_RADIUS : Nat) : α) = 10 := by simp [BALL_RADIUS]
  have hov : circleRecOverlap (⟨455, 245⟩ : Vector2 α) 10 ⟨410, 210, 70, 30⟩ = true := by
    unfold circleRecOverlap
    norm_num [abs_of_nonneg, abs_of_nonpos]
  have ht : UpdateGame.updatePowerups E (preFrame E lastBlockScenario (idleInput 0 0))
      ⟨paddleX (lastBlockScenario : Game α) (idleInput 0 0),
        (lastBlockScenario : Game α).playerPosition.y, 100, 20⟩
      (idleInput 0 0 : Input α).deltaTime = preFrame E lastBlockScenario (idleInput 0 0) := by
    apply updatePowerups_of_inactive
    intro j
    rw [preFrame_powerups]
    rfl
  have hpos : (preFrame E lastBlockScenario (idleInput 0 0)).ballPosition = ⟨455, 245⟩ := by
    rw [preFrame_ballPosition]
    simp [lastBlockScenario, idleInput, Vector2Add, Vector2Scale]
    norm_num
  have hmiss : ∀ j : Fin 50, j ≠ 45 →
      blockHit E (preFrame E lastBlockScenario (idleInput 0 0)) j = false := by
    intro j hj
    have hv : ¬ j.val = 45 := fun e => hj (Fin.ext e)
    unfold blockHit
    rw [preFrame_blocks]
    show ((if j.val = 45 then initBlock j else { initBlock j with active := false } : Block α).active
      && _) = false
    rw [if_neg hv]
    rfl
  have hhit : blockHit E (preFrame E lastBlockScenario (idleInput 0 0)) 45 = true := by
    unfold blockHit
    rw [preFrame_blocks, hpos, hE, e2]
    show ((initBlock (45 : Fin 50) : Block α).active
      && circleRecOverlap (⟨455, 245⟩ : Vector2 α) 10 (initBlock (45 : Fin 50) : Block α).rect) = true
    rw [initBlock_45, hov]
    rfl
  rw [UpdateGame_gameplay E _ _ rfl, ht, CheckCollisions_single_hit E _ 45 hmiss,
    CheckCollisions_body_eq, if_pos hhit]
  have hab : (preFrame E (lastBlockScenario : Game α) (idleInput 0 0)).activeBlocks - 1 = 0 := by
    rw [preFrame_activeBlocks]
    show (1 : Int) - 1 = 0
    norm_num
  refine ⟨?_, ?_, ?_, ?_⟩
  · exact winCheck_state_of_activeBlocks _ hab
  · rw [winCheck_activeBlocks]
    exact hab
  · unfold UpdateGame.winCheck
    split_ifs <;>
    · show (preFrame E (lastBlockScenario : Game α) (idleInput 0 0)).score + 10 = 500
      rw [preFrame_score]
      show (490 : Int) + 10 = 500
      norm_num
  · intro i
    rw [winCheck_blocks]
    show (modifyAt (preFrame E (lastBlockScenario : Game α) (idleInput 0 0)).blocks 45
      (fun b => { b with active := false }) i).active = false
    rw [preFrame_blocks]
    simp only [modifyAt]
    by_cases hv : i.val = 45
    · rw [if_pos hv]
    · rw [if_neg hv]
      show ((if i.val = 45 then initBlock i else { initBlock i with active := false } : Block α).active)
        = false
      rw [if_neg hv]

theorem UpdateGame_gameplay_mid (E : Raylib α) (g : Game α) (inp : Input α)
    (hs : g.state = GameState.GAMEPLAY) :
    UpdateGame E g inp = UpdateGame.winCheck (CheckCollisions E (midFrame E g inp)) :=
  UpdateGame_gameplay E g inp hs

theorem midFrame_eq (E : Raylib α) (g : Game α) (inp : Input α) :
    midFrame E g inp =
      { preFrame E g inp with
        powerups := fun j =>
          stepPowerup E ⟨paddleX g inp, g.playerPosition.y, 100, 20⟩ inp.deltaTime (g.powerups j)
        lives := (preFrame E g inp).lives
          + (caughtCount E ⟨paddleX g inp, g.playerPosition.y, 100, 20⟩ inp.deltaTime g : Int) } := by
  unfold midFrame
  rw [UpdateGame_updatePowerups_eq, caughtCount_preFrame, preFrame_powerups]

theorem midFrame_blocks (E : Raylib α) (g : Game α) (inp : Input α) :
    (midFrame E g inp).blocks = g.blocks := by
  rw [midFrame_eq]; exact preFrame_blocks E g inp

theorem winCheck_state (g : Game α) :
    (UpdateGame.winCheck g).state
      = if g.activeBlocks ≤ 0 then GameState.GAME_WIN else g.state := by
  unfold UpdateGame.winCheck; split_ifs <;> rfl

theorem winCheck_score (g : Game α) : (UpdateGame.winCheck g).score = g.score := by
  unfold UpdateGame.winCheck; split_ifs <;> rfl

theorem winCheck_powerups (g : Game α) : (UpdateGame.winCheck g).powerups = g.powerups := by
  unfold UpdateGame.winCheck; split_ifs <;> rfl

theorem UpdateGame_gameplay_activeBlocks (E : Raylib α) (g : Game α) (inp : Input α)
    (hs : g.state = GameState.GAMEPLAY) :
    (UpdateGame E g inp).activeBlocks = g.activeBlocks - (frameHits E g inp : Int) := by
  rw [UpdateGame_gameplay_mid E g inp hs, winCheck_activeBlocks,
    (CheckCollisions_inv E _).cnt, midFrame_eq]
  show (preFrame E g inp).activeBlocks - _ = _
  rw [preFrame_activeBlocks, ← midFrame_eq]
  rfl

theorem UpdateGame_gameplay_score (E : Raylib α) (g : Game α) (inp : Input α)
    (hs : g.state = GameState.GAMEPLAY) :
    (UpdateGame E g inp).score = g.score + 10 * (frameHits E g inp : Int) := by
  rw [UpdateGame_gameplay_mid E g inp hs, winCheck_score,
    (CheckCollisions_inv E _).score, midFrame_eq]
  show (preFrame E g inp).score + _ = _
  rw [preFrame_score, ← midFrame_eq]
  rfl

theorem UpdateGame_gameplay_lives (E : Raylib α) (g : Game α) (inp : Input α)
    (hs : g.state = GameState.GAMEPLAY) :
    (UpdateGame E g inp).lives
      = (if g.ballPosition.y + g.ballVelocity.y * inp.deltaTime > 610 then g.lives - 1
          else g.lives)
        + (caughtCount E ⟨paddleX g inp, g.playerPosition.y, 100, 20⟩ inp.deltaTime g : Int) := by
  rw [UpdateGame_gameplay_mid E g inp hs, winCheck_lives,
    (CheckCollisions_inv E _).lives, midFrame_eq]
  show (preFrame E g inp).lives + _ = _
  rw [preFrame_lives]

theorem UpdateGame_gameplay_state (E : Raylib α) (g : Game α) (inp : Input α)
    (hs : g.state = GameState.GAMEPLAY) :
    (UpdateGame E g inp).state
      = if (UpdateGame E g inp).activeBlocks ≤ 0 then GameState.GAME_WIN
        else if g.ballPosition.y + g.ballVelocity.y * inp.deltaTime > 610 ∧ g.lives ≤ 1 then
          GameState.GAME_OVER
        else GameState.GAMEPLAY := by
  have h1 : (UpdateGame E g inp).activeBlocks
      = (CheckCollisions E (midFrame E g inp)).activeBlocks := by
    rw [UpdateGame_gameplay_mid E g inp hs, winCheck_activeBlocks]
  rw [h1, UpdateGame_gameplay_mid E g inp hs, winCheck_state,
    (CheckCollisions_inv E _).state, midFrame_eq]
  show (if _ then _ else (preFrame E g inp).state) = _
  rw [preFrame_state, hs]

theorem LivesInv_InitGame (E : Raylib α) (g0 : Game α) (rnd : Int) :
    LivesInv (InitGame E g0 rnd) := by
  rw [InitGame_eq]
  refine ⟨?_, ?_, fun _ => ?_⟩
  · show (0 : Int) ≤ 3
    norm_num
  · show (0 : Int) ≤ 0
    norm_num
  · show (1 : Int) ≤ 3
    norm_num

theorem LivesInv_UpdateGame (E : Raylib α) (g : Game α) (inp : Input α) (h : LivesInv g) :
    LivesInv (UpdateGame E g inp) := by
  obtain ⟨hl, hsc, hpl⟩ := h
  by_cases hs : g.state = GameState.GAMEPLAY
  · have h1 := hpl hs
    have hc : (0 : Int) ≤ (caughtCount E ⟨paddleX g inp, g.playerPosition.y, 100, 20⟩
        inp.deltaTime g : Int) := Int.natCast_nonneg _
    have hf : (0 : Int) ≤ (frameHits E g inp : Int) := Int.natCast_nonneg _
    refine ⟨?_, ?_, ?_⟩
    · rw [UpdateGame_gameplay_lives E g inp hs]
      split_ifs <;> omega
    · rw [UpdateGame_gameplay_score E g inp hs]
      omega
    · intro hpost
      rw [UpdateGame_gameplay_state E g inp hs] at hpost
      rw [UpdateGame_gameplay_lives E g inp hs]
      by_cases hout : g.ballPosition.y + g.ballVelocity.y * inp.deltaTime > 610
      · rw [if_pos hout]
        by_cases hle : g.lives ≤ 1
        · have hcond : g.ballPosition.y + g.ballVelocity.y * inp.deltaTime > 610 ∧ g.lives ≤ 1 :=
            ⟨hout, hle⟩
          rw [if_pos hcond] at hpost
          split_ifs at hpost
        · omega
      · rw [if_neg hout]
        omega
  · rw [UpdateGame_idle E g inp hs]
    split_ifs
    · exact LivesInv_InitGame E g _
    · exact ⟨hl, hsc, hpl⟩

theorem ScoreInv_InitGame (E : Raylib α) (g0 : Game α) (rnd : Int) :
    ScoreInv (InitGame E g0 rnd) := by
  rw [InitGame_eq]
  refine ⟨?_, fun h => ?_⟩
  · show (0 : Int) = 10 * (50 - 50)
    norm_num
  · exact absurd h (by simp)

theorem ScoreInv_UpdateGame (E : Raylib α) (g : Game α) (inp : Input α) (h : ScoreInv g) :
    ScoreInv (UpdateGame E g inp) := by
  obtain ⟨hsc, hw⟩ := h
  by_cases hs : g.state = GameState.GAMEPLAY
  · refine ⟨?_, ?_⟩
    · rw [UpdateGame_gameplay_score E g inp hs, UpdateGame_gameplay_activeBlocks E g inp hs, hsc]
      ring
    · intro hpost
      rw [UpdateGame_gameplay_state E g inp hs] at hpost
      by_contra hn
      rw [if_neg hn] at hpost
      split_ifs at hpost
  · rw [UpdateGame_idle E g inp hs]
    split_ifs
    · exact ScoreInv_InitGame E g _
    · exact ⟨hsc, hw⟩

theorem countActive_le (blocks : Fin 50 → Block α) : countActive blocks ≤ 50 := by
  unfold countActive
  have h := Finset.card_filter_le (Finset.univ : Finset (Fin 50))
    (fun i => (blocks i).active = true)
  simpa using h

/-- C16. In every state reachable from `InitGame`, `lives ≥ 0` and `score ≥ 0`, and
whenever the machine state is Gameplay, `lives ≥ 1`. -/
theorem lives_and_score_nonneg (E : Raylib α) (g : Game α) (hr : Reachable E g) :
    0 ≤ g.lives ∧ 0 ≤ g.score ∧ (g.state = GameState.GAMEPLAY → 1 ≤ g.lives) :=
  Reachable_inv E LivesInv (LivesInv_InitGame E) (LivesInv_UpdateGame E) g hr

/-- Witness for C16: the state after `InitGame` and one idle frame is reachable. -/
theorem lives_and_score_nonneg_witness :
    Reachable (⟨Real.cos, Real.sin, Real.sqrt, Real.pi, circleRecOverlap, recsOverlap⟩ : Raylib ℝ)
        (UpdateGame ⟨Real.cos, Real.sin, Real.sqrt, Real.pi, circleRecOverlap, recsOverlap⟩
          (InitGame ⟨Real.cos, Real.sin, Real.sqrt, Real.pi, circleRecOverlap, recsOverlap⟩
            zeroGame 45) (idleInput (1 / 60) 0))
      ∧ 0 ≤ (UpdateGame
          (⟨Real.cos, Real.sin, Real.sqrt, Real.pi, circleRecOverlap, recsOverlap⟩ : Raylib ℝ)
          (InitGame ⟨Real.cos, Real.sin, Real.sqrt, Real.pi, circleRecOverlap, recsOverlap⟩
            zeroGame 45) (idleInput (1 / 60) 0)).lives :=
  ⟨Reachable.step _ _ (by simp [idleInput]) (Reachable.init _ _ (by decide)),
   (lives_and_score_nonneg _ _
    (Reachable.step _ _ (by simp [idleInput]) (Reachable.init _ _ (by decide)))).1⟩

/-- C20. In every state reachable from `InitGame`, `score = 10 * (50 - activeBlocks)`;
hence the score is a multiple of 10 between 0 and 500, and a game in state
`GAME_WIN` has score exactly 500. -/
theorem score_is_ten_per_destroyed_block (E : Raylib α) (g : Game α) (hr : Reachable E g) :
    g.score = 10 * (50 - g.activeBlocks)
    ∧ 0 ≤ g.score ∧ g.score ≤ 500 ∧ (10 : Int) ∣ g.score
    ∧ (g.state = GameState.GAME_WIN → g.score = 500) := by
  have hs : ScoreInv g :=
    Reachable_inv E ScoreInv (ScoreInv_InitGame E) (ScoreInv_UpdateGame E) g hr
  have hc : CountInv g :=
    Reachable_inv E CountInv (CountInv_InitGame E) (CountInv_UpdateGame E) g hr
  obtain ⟨hsc, hw⟩ := hs
  unfold CountInv at hc
  have h50 : (countActive g.blocks : Int) ≤ 50 := by exact_mod_cast countActive_le g.blocks
  have h0 : (0 : Int) ≤ (countActive g.blocks : Int) := Int.natCast_nonneg _
  refine ⟨hsc, by omega, by omega, ⟨50 - g.activeBlocks, hsc⟩, ?_⟩
  intro hwin
  have := hw hwin
  omega

/-- Witness for C20: the state after `InitGame` and one idle frame is reachable. -/
theorem score_is_ten_per_destroyed_block_witness :
    Reachable (⟨Real.cos, Real.sin, Real.sqrt, Real.pi, circleRecOverlap, recsOverlap⟩ : Raylib ℝ)
        (UpdateGame ⟨Real.cos, Real.sin, Real.sqrt, Real.pi, circleRecOverlap, recsOverlap⟩
          (InitGame ⟨Real.cos, Real.sin, Real.sqrt, Real.pi, circleRecOverlap, recsOverlap⟩
            zeroGame 45) (idleInput (1 / 60) 0))
      ∧ (UpdateGame
          (⟨Real.cos, Real.sin, Real.sqrt, Real.pi, circleRecOverlap, recsOverlap⟩ : Raylib ℝ)
          (InitGame ⟨Real.cos, Real.sin, Real.sqrt, Real.pi, circleRecOverlap, recsOverlap⟩
            zeroGame 45) (idleInput (1 / 60) 0)).score
        = 10 * (50 - (UpdateGame
          (⟨Real.cos, Real.sin, Real.sqrt, Real.pi, circleRecOverlap, recsOverlap⟩ : Raylib ℝ)
          (InitGame ⟨Real.cos, Real.sin, Real.sqrt, Real.pi, circleRecOverlap, recsOverlap⟩
            zeroGame 45) (idleInput (1 / 60) 0)).activeBlocks) :=
  ⟨Reachable.step _ _ (by simp [idleInput]) (Reachable.init _ _ (by decide)),
   (score_is_ten_per_destroyed_block _ _
    (Reachable.step _ _ (by simp [idleInput]) (Reachable.init _ _ (by decide)))).1⟩

/-- C17. After `InitGame`, for every index `i` in 0..49 block `i` is active with
rectangle x = 10 + 80·(i mod 10), y = 50 + 40·(i div 10), width 70, height 30;
its type is `POWERUP` exactly when i mod 5 = 0 (10 blocks in all) and `NORMAL`
otherwise; its colour follows its type (green (0, 228, 48, 255) for `POWERUP`,
red (230, 41, 55, 255) for `NORMAL`); and `activeBlocks = 50`. -/
theorem InitGame_block_grid (E : Raylib α) (g0 : Game α) (rnd : Int) :
    (∀ i : Fin 50,
      ((InitGame E g0 rnd).blocks i).active = true
      ∧ ((InitGame E g0 rnd).blocks i).rect
          = ⟨((10 + 80 * (i.val % 10) : Nat) : α), ((50 + 40 * (i.val / 10) : Nat) : α), 70, 30⟩
      ∧ (((InitGame E g0 rnd).blocks i).type = BlockType.POWERUP ↔ i.val % 5 = 0)
      ∧ (((InitGame E g0 rnd).blocks i).type = BlockType.NORMAL ↔ i.val % 5 ≠ 0)
      ∧ (((InitGame E g0 rnd).blocks i).type = BlockType.POWERUP →
          ((InitGame E g0 rnd).blocks i).color = ⟨0, 228, 48, 255⟩)
      ∧ (((InitGame E g0 rnd).blocks i).type = BlockType.NORMAL →
          ((InitGame E g0 rnd).blocks i).color = ⟨230, 41, 55, 255⟩))
    ∧ (Finset.univ.filter
        (fun i : Fin 50 => ((InitGame E g0 rnd).blocks i).type = BlockType.POWERUP)).card = 10
    ∧ (InitGame E g0 rnd).activeBlocks = 50 := by
  rw [InitGame_eq]
  refine ⟨?_, ?_, rfl⟩
  · intro i
    show (initBlock i : Block α).active = true ∧ (initBlock i : Block α).rect = _
      ∧ ((initBlock i : Block α).type = BlockType.POWERUP ↔ _)
      ∧ ((initBlock i : Block α).type = BlockType.NORMAL ↔ _)
      ∧ ((initBlock i : Block α).type = BlockType.POWERUP → (initBlock i : Block α).color = _)
      ∧ ((initBlock i : Block α).type = BlockType.NORMAL → (initBlock i : Block α).color = _)
    unfold initBlock
    by_cases h5 : i.val % 5 = 0 <;> simp [h5]
  · show (Finset.univ.filter
      (fun i : Fin 50 => (initBlock i : Block α).type = BlockType.POWERUP)).card = 10
    have e : (Finset.univ.filter
        (fun i : Fin 50 => (initBlock i : Block α).type = BlockType.POWERUP))
        = Finset.univ.filter (fun i : Fin 50 => i.val % 5 = 0) := by
      ext i
      simp only [Finset.mem_filter, Finset.mem_univ, true_and, initBlock]
      by_cases h5 : i.val % 5 = 0 <;> simp [h5]
    rw [e]
    decide

/-- C18. `CheckBlockCollision` in closed form.  If the ball circle (radius
`BALL_RADIUS = 10`) does not overlap the rectangle it returns `false` and leaves
position and velocity as they were.  If it overlaps it returns `true`, leaves
the position unchanged and negates exactly one velocity component: x when
`min (ballRight - blockLeft) (blockRight - ballLeft)
  < min (ballBottom - blockTop) (blockBottom - ballTop)`, y otherwise (ties
negate y); the other component is unchanged. -/
theorem CheckBlockCollision_closed_form (E : Raylib α) (p v : Vector2 α) (r : Rectangle α) :
    CheckBlockCollision E p v r =
      if E.CheckCollisionCircleRec p 10 r = true then
        if min (p.x + 10 - r.x) (r.x + r.width - (p.x - 10))
            < min (p.y + 10 - r.y) (r.y + r.height - (p.y - 10)) then
          (true, p, ⟨-v.x, v.y⟩)
        else
          (true, p, ⟨v.x, -v.y⟩)
      else (false, p, v) := by
  have e2 : ((BALL_RADIUS : Nat) : α) = 10 := by simp [BALL_RADIUS]
  have hmin : ∀ a b : α, (if a < b then a else b) = min a b := by
    intro a b
    rcases lt_or_le a b with h | h
    · rw [if_pos h, min_eq_left h.le]
    · rw [if_neg (not_lt.mpr h), min_eq_right h]
  unfold CheckBlockCollision
  simp only [e2, hmin, mul_neg, mul_one]

theorem UpdateGame_gameplay_state_cases (E : Raylib α) (g : Game α) (inp : Input α)
    (hs : g.state = GameState.GAMEPLAY) :
    (UpdateGame E g inp).state = GameState.GAMEPLAY
    ∨ (UpdateGame E g inp).state = GameState.GAME_OVER
    ∨ (UpdateGame E g inp).state = GameState.GAME_WIN := by
  rw [UpdateGame_gameplay_state E g inp hs]
  split_ifs
  · exact Or.inr (Or.inr rfl)
  · exact Or.inr (Or.inl rfl)
  · exact Or.inl rfl

theorem UpdateGame_idle_state (E : Raylib α) (g : Game α) (inp : Input α)
    (hs : g.state ≠ GameState.GAMEPLAY) :
    (UpdateGame E g inp).state
      = if inp.keySpace = true then GameState.GAMEPLAY else g.state := by
  rw [UpdateGame_idle E g inp hs]
  split_ifs
  · rw [InitGame_eq]
  · rfl

theorem state_ne_title_UpdateGame (E : Raylib α) (g : Game α) (inp : Input α)
    (h : g.state ≠ GameState.TITLE) : (UpdateGame E g inp).state ≠ GameState.TITLE := by
  by_cases hs : g.state = GameState.GAMEPLAY
  · rcases UpdateGame_gameplay_state_cases E g inp hs with h1 | h1 | h1 <;> rw [h1] <;> simp
  · rw [UpdateGame_idle_state E g inp hs]
    split_ifs
    · simp
    · exact h

/-- C15. `InitGame` leaves the machine in Gameplay.  An `UpdateGame` call made in
Gameplay ends in Gameplay, GameOver or GameWin; a call made in any other state
ends in Gameplay exactly when the Space-pressed event is observed and otherwise
leaves the state as it was.  Hence GameOver and GameWin never change into each
other, and since no reachable state is Title, no call on a reachable state ends
in Title. -/
theorem state_machine_transitions (E : Raylib α) :
    (∀ (g0 : Game α) (rnd : Int), (InitGame E g0 rnd).state = GameState.GAMEPLAY)
    ∧ (∀ (g : Game α) (inp : Input α), g.state = GameState.GAMEPLAY →
        (UpdateGame E g inp).state = GameState.GAMEPLAY
        ∨ (UpdateGame E g inp).state = GameState.GAME_OVER
        ∨ (UpdateGame E g inp).state = GameState.GAME_WIN)
    ∧ (∀ (g : Game α) (inp : Input α), g.state ≠ GameState.GAMEPLAY →
        ((UpdateGame E g inp).state = GameState.GAMEPLAY ↔ inp.keySpace = true)
        ∧ (inp.keySpace = false → (UpdateGame E g inp).state = g.state))
    ∧ (∀ (g : Game α) (inp : Input α), Reachable E g →
        g.state ≠ GameState.TITLE ∧ (UpdateGame E g inp).state ≠ GameState.TITLE)
    ∧ (∀ (g : Game α) (inp : Input α),
        (g.state = GameState.GAME_OVER → (UpdateGame E g inp).state ≠ GameState.GAME_WIN)
        ∧ (g.state = GameState.GAME_WIN → (UpdateGame E g inp).state ≠ GameState.GAME_OVER)) := by
  refine ⟨fun g0 rnd => by rw [InitGame_eq], UpdateGame_gameplay_state_cases E, ?_, ?_, ?_⟩
  · intro g inp hs
    rw [UpdateGame_idle_state E g inp hs]
    constructor
    · constructor
      · intro h
        by_contra hk
        rw [if_neg hk] at h
        exact hs h
      · intro hk
        rw [if_pos hk]
    · intro hk
      rw [if_neg (by simp [hk])]
  · intro g inp hr
    have h : g.state ≠ GameState.TITLE :=
      Reachable_inv E (fun g => g.state ≠ GameState.TITLE)
        (fun g0 rnd => by rw [InitGame_eq]; simp)
        (fun g inp h => state_ne_title_UpdateGame E g inp h) g hr
    exact ⟨h, state_ne_title_UpdateGame E g inp h⟩
  · intro g inp
    constructor
    · intro hs
      rw [UpdateGame_idle_state E g inp (by rw [hs]; simp), hs]
      split_ifs <;> simp
    · intro hs
      rw [UpdateGame_idle_state E g inp (by rw [hs]; simp), hs]
      split_ifs <;> simp

/-- Witness for C15: a fresh game is reachable and in Gameplay; a finished game
without the Space event stays finished. -/
theorem state_machine_transitions_witness :
    Reachable (⟨Real.cos, Real.sin, Real.sqrt, Real.pi, circleRecOverlap, recsOverlap⟩ : Raylib ℝ)
        (InitGame ⟨Real.cos, Real.sin, Real.sqrt, Real.pi, circleRecOverlap, recsOverlap⟩
          zeroGame 45)
      ∧ (UpdateGame
          (⟨Real.cos, Real.sin, Real.sqrt, Real.pi, circleRecOverlap, recsOverlap⟩ : Raylib ℝ)
          (InitGame ⟨Real.cos, Real.sin, Real.sqrt, Real.pi, circleRecOverlap, recsOverlap⟩
            zeroGame 45) (idleInput (1 / 60) 0)).state ≠ GameState.TITLE
      ∧ ({ zeroGame with state := GameState.GAME_OVER } : Game ℝ).state ≠ GameState.GAMEPLAY
      ∧ (idleInput (1 / 60) 0 : Input ℝ).keySpace = false
      ∧ (UpdateGame
          (⟨Real.cos, Real.sin, Real.sqrt, Real.pi, circleRecOverlap, recsOverlap⟩ : Raylib ℝ)
          { zeroGame with state := GameState.GAME_OVER } (idleInput (1 / 60) 0)).state
        = ({ zeroGame with state := GameState.GAME_OVER } : Game ℝ).state :=
  ⟨Reachable.init _ _ (by decide),
   ((state_machine_transitions _).2.2.2.1 _ (idleInput (1 / 60) 0)
      (Reachable.init _ _ (by decide))).2,
   by simp, rfl,
   ((state_machine_transitions _).2.2.1 _ (idleInput (1 / 60) 0) (by simp)).2 rfl⟩

theorem UpdateGame_gameplay_blocks (E : Raylib α) (g : Game α) (inp : Input α)
    (hs : g.state = GameState.GAMEPLAY) (i : Fin 50) :
    (UpdateGame E g inp).blocks i =
      if blockHit E (midFrame E g inp) i = true then { g.blocks i with active := false }
      else g.blocks i := by
  rw [UpdateGame_gameplay_mid E g inp hs, winCheck_blocks, (CheckCollisions_inv E _).blk i,
    midFrame_blocks]
  simp only [i.isLt, true_and]

theorem UpdateGame_gameplay_powerups (E : Raylib α) (g : Game α) (inp : Input α)
    (hs : g.state = GameState.GAMEPLAY) (i : Fin 50) :
    (UpdateGame E g inp).powerups i =
      if blockHit E (midFrame E g inp) i = true ∧ (g.blocks i).type = BlockType.POWERUP then
        spawnPowerup (g.blocks i)
      else
        stepPowerup E ⟨paddleX g inp, g.playerPosition.y, 100, 20⟩ inp.deltaTime
          (g.powerups i) := by
  rw [UpdateGame_gameplay_mid E g inp hs, winCheck_powerups, (CheckCollisions_inv E _).pwr i,
    midFrame_blocks]
  simp only [i.isLt, true_and]
  rw [midFrame_eq]

theorem blockHit_midFrame_active (E : Raylib α) (g : Game α) (inp : Input α) (i : Fin 50)
    (h : blockHit E (midFrame E g inp) i = true) : (g.blocks i).active = true := by
  unfold blockHit at h
  rw [midFrame_blocks] at h
  simp only [Bool.and_eq_true] at h
  exact h.1

theorem stepPowerup_active (E : Raylib α) (r : Rectangle α) (dt : α) (p : Powerup α)
    (h : (stepPowerup E r dt p).active = true) : p.active = true := by
  unfold stepPowerup at h
  by_cases hp : p.active = true
  · exact hp
  · rw [if_neg hp] at h
    exact h

theorem stepPowerup_of_active (E : Raylib α) (r : Rectangle α) (dt : α) (p : Powerup α)
    (h : p.active = true) :
    stepPowerup E r dt p =
      { position := ⟨p.position.x, p.position.y + 150 * dt⟩
        active := !(decide (p.position.y + 150 * dt > 600)
          || E.CheckCollisionRecs ⟨p.rect.x, p.position.y + 150 * dt, p.rect.width, p.rect.height⟩ r)
        type := p.type
        rect := ⟨p.rect.x, p.position.y + 150 * dt, p.rect.width, p.rect.height⟩ } := by
  have e150 : ((POWERUP_SPEED : Nat) : α) = 150 := by simp [POWERUP_SPEED]
  have e600 : ((SCREEN_HEIGHT : Nat) : α) = 600 := by simp [SCREEN_HEIGHT]
  unfold stepPowerup fallen
  rw [if_pos h, e150, e600]

theorem TypeInv_InitGame (E : Raylib α) (g0 : Game α) (rnd : Int) :
    TypeInv (InitGame E g0 rnd) := by
  rw [InitGame_eq]
  intro j
  rfl

theorem TypeInv_UpdateGame (E : Raylib α) (g : Game α) (inp : Input α) (h : TypeInv g) :
    TypeInv (UpdateGame E g inp) := by
  by_cases hs : g.state = GameState.GAMEPLAY
  · intro j
    rw [UpdateGame_gameplay_blocks E g inp hs j]
    split_ifs
    · exact h j
    · exact h j
  · rw [UpdateGame_idle E g inp hs]
    split_ifs
    · exact TypeInv_InitGame E g _
    · exact h

theorem SlotInv_InitGame (E : Raylib α) (g0 : Game α) (rnd : Int) :
    SlotInv (InitGame E g0 rnd) := by
  rw [InitGame_eq]
  intro i hi
  exact absurd hi (by simp)

theorem SlotInv_UpdateGame (E : Raylib α) (g : Game α) (inp : Input α) (h : SlotInv g) :
    SlotInv (UpdateGame E g inp) := by
  have e15 : ((POWERUP_SIZE : Nat) : α) = 15 := by simp [POWERUP_SIZE]
  by_cases hs : g.state = GameState.GAMEPLAY
  · intro i hi
    rw [UpdateGame_gameplay_powerups E g inp hs i] at hi ⊢
    rw [UpdateGame_gameplay_blocks E g inp hs i]
    by_cases hh : blockHit E (midFrame E g inp) i = true
    · by_cases hty : (g.blocks i).type = BlockType.POWERUP
      · have hc : blockHit E (midFrame E g inp) i = true
            ∧ (g.blocks i).type = BlockType.POWERUP := ⟨hh, hty⟩
        rw [if_pos hc, if_pos hh]
        refine ⟨hty, rfl, ?_⟩
        simp only [spawnPowerup, e15]
      · have hnc : ¬ (blockHit E (midFrame E g inp) i = true
            ∧ (g.blocks i).type = BlockType.POWERUP) := fun hc => hty hc.2
        rw [if_neg hnc] at hi
        have hold := stepPowerup_active E _ _ _ hi
        have := (h i hold).2.1
        rw [blockHit_midFrame_active E g inp i hh] at this
        exact absurd this (by simp)
    · have hnc : ¬ (blockHit E (midFrame E g inp) i = true
          ∧ (g.blocks i).type = BlockType.POWERUP) := fun hc => hh hc.1
      rw [if_neg hnc] at hi ⊢
      rw [if_neg hh]
      have hold := stepPowerup_active E _ _ _ hi
      obtain ⟨h1, h2, h3⟩ := h i hold
      refine ⟨h1, h2, ?_⟩
      rw [stepPowerup_of_active E _ _ _ hold, h3]
  · rw [UpdateGame_idle E g inp hs]
    split_ifs
    · exact SlotInv_InitGame E g _
    · exact h

theorem initBlock_type_iff (j : Fin 50) :
    (initBlock j : Block α).type = BlockType.POWERUP ↔ j.val % 5 = 0 := by
  unfold initBlock
  by_cases h5 : j.val % 5 = 0 <;> simp [h5]

/-- C13. In every state reachable from `InitGame`, for every index `i`: if power-up
slot `i` is active then block `i` has type `POWERUP`, `i mod 5 = 0`, and block `i`
is inactive (already destroyed). -/
theorem active_powerup_has_destroyed_block (E : Raylib α) (g : Game α) (hr : Reachable E g)
    (i : Fin 50) (ha : (g.powerups i).active = true) :
    (g.blocks i).type = BlockType.POWERUP ∧ i.val % 5 = 0 ∧ (g.blocks i).active = false := by
  have hslot : SlotInv g :=
    Reachable_inv E SlotInv (SlotInv_InitGame E) (SlotInv_UpdateGame E) g hr
  have htype : TypeInv g :=
    Reachable_inv E TypeInv (TypeInv_InitGame E) (TypeInv_UpdateGame E) g hr
  obtain ⟨h1, h2, -⟩ := hslot i ha
  refine ⟨h1, ?_, h2⟩
  rw [htype i] at h1
  exact (initBlock_type_iff i).mp h1

/-- Witness for C13: after the first frame of the 45-degree launch that destroys
block 45, power-up slot 45 is active. -/
theorem active_powerup_has_destroyed_block_witness :
    Reachable (⟨Real.cos, Real.sin, Real.sqrt, Real.pi, circleRecOverlap, recsOverlap⟩ : Raylib ℝ)
      (UpdateGame ⟨Real.cos, Real.sin, Real.sqrt, Real.pi, circleRecOverlap, recsOverlap⟩
        (InitGame ⟨Real.cos, Real.sin, Real.sqrt, Real.pi, circleRecOverlap, recsOverlap⟩
          zeroGame 45) (idleInput (11 * Real.sqrt 2 / 60) 0))
    ∧ ((UpdateGame
        (⟨Real.cos, Real.sin, Real.sqrt, Real.pi, circleRecOverlap, recsOverlap⟩ : Raylib ℝ)
        (InitGame ⟨Real.cos, Real.sin, Real.sqrt, Real.pi, circleRecOverlap, recsOverlap⟩
          zeroGame 45) (idleInput (11 * Real.sqrt 2 / 60) 0)).powerups 45).active = true
    ∧ ((UpdateGame
        (⟨Real.cos, Real.sin, Real.sqrt, Real.pi, circleRecOverlap, recsOverlap⟩ : Raylib ℝ)
        (InitGame ⟨Real.cos, Real.sin, Real.sqrt, Real.pi, circleRecOverlap, recsOverlap⟩
          zeroGame 45) (idleInput (11 * Real.sqrt 2 / 60) 0)).blocks 45).active = false :=
  have hact : ((UpdateGame
        (⟨Real.cos, Real.sin, Real.sqrt, Real.pi, circleRecOverlap, recsOverlap⟩ : Raylib ℝ)
        (InitGame ⟨Real.cos, Real.sin, Real.sqrt, Real.pi, circleRecOverlap, recsOverlap⟩
          zeroGame 45) (idleInput (11 * Real.sqrt 2 / 60) 0)).powerups 45).active = true := by
    rw [first_frame_destroys_block_45 _ ⟨rfl, rfl, rfl, rfl, rfl, rfl⟩]
    rfl
  ⟨Reachable.step _ _ (by simp [idleInput]) (Reachable.init _ _ (by decide)), hact,
   (active_powerup_has_destroyed_block _ _
      (Reachable.step _ _ (by simp [idleInput]) (Reachable.init _ _ (by decide))) 45 hact).2.2⟩

theorem playerRect_UpdateGame (E : Raylib α) (g : Game α) (inp : Input α)
    (hs : g.state = GameState.GAMEPLAY) :
    UpdateGame.playerRect (UpdateGame E g inp)
      = ⟨paddleX g inp, g.playerPosition.y, 100, 20⟩ := by
  have e3 : ((PLAYER_WIDTH : Nat) : α) = 100 := by simp [PLAYER_WIDTH]
  have e4 : ((PLAYER_HEIGHT : Nat) : α) = 20 := by simp [PLAYER_HEIGHT]
  unfold UpdateGame.playerRect
  rw [UpdateGame_gameplay_playerPosition E g inp hs, e3, e4]

theorem UpdateGame_gameplay_powerup_of_active (E : Raylib α) (g : Game α) (inp : Input α)
    (hs : g.state = GameState.GAMEPLAY) (hslot : SlotInv g) (i : Fin 50)
    (ha : (g.powerups i).active = true) :
    (UpdateGame E g inp).powerups i =
      { position := ⟨(g.powerups i).position.x, (g.powerups i).position.y + 150 * inp.deltaTime⟩
        active := !(decide ((g.powerups i).position.y + 150 * inp.deltaTime > 600)
          || E.CheckCollisionRecs
              ⟨(g.powerups i).position.x, (g.powerups i).position.y + 150 * inp.deltaTime, 15, 15⟩
              ⟨paddleX g inp, g.playerPosition.y, 100, 20⟩)
        type := (g.powerups i).type
        rect :=
          ⟨(g.powerups i).position.x, (g.powerups i).position.y + 150 * inp.deltaTime, 15, 15⟩ } := by
  obtain ⟨-, hb, hrect⟩ := hslot i ha
  have hnc : ¬ (blockHit E (midFrame E g inp) i = true
      ∧ (g.blocks i).type = BlockType.POWERUP) := by
    intro hc
    have := blockHit_midFrame_active E g inp i hc.1
    rw [hb] at this
    exact absurd this (by simp)
  rw [UpdateGame_gameplay_powerups E g inp hs i, if_neg hnc,
    stepPowerup_of_active E _ _ _ ha, hrect]

theorem caughtCount_eq_card (E : Raylib α) (g : Game α) (inp : Input α)
    (hs : g.state = GameState.GAMEPLAY) (hslot : SlotInv g) :
    caughtCount E ⟨paddleX g inp, g.playerPosition.y, 100, 20⟩ inp.deltaTime g
      = (Finset.univ.filter (fun i : Fin 50 => (g.powerups i).active = true
          ∧ E.CheckCollisionRecs ((UpdateGame E g inp).powerups i).rect
              (UpdateGame.playerRect (UpdateGame E g inp)) = true)).card := by
  have e150 : ((POWERUP_SPEED : Nat) : α) = 150 := by simp [POWERUP_SPEED]
  unfold caughtCount
  congr 1
  ext i
  simp only [Finset.mem_filter, Finset.mem_univ, true_and]
  rw [playerRect_UpdateGame E g inp hs]
  by_cases ha : (g.powerups i).active = true
  · rw [UpdateGame_gameplay_powerup_of_active E g inp hs hslot i ha]
    simp only [caught, fallen, ha, Bool.true_and, true_and, e150, (hslot i ha).2.2]
  · simp [caught, ha]

/-- C12. For every reachable Gameplay state, every `UpdateGame` call with frame
time `dt` and every power-up slot that is active before the call: afterwards its
`position.y` and `rect.y` are the old y plus `150 * dt`, its x is unchanged and
its rectangle is 15x15; it is inactive afterwards exactly when the new y exceeds
600 or its rectangle overlaps the paddle rectangle; and the lives after the
call are the lives after the out-of-bounds step plus one for each slot that was
active and whose rectangle overlaps the paddle (no cap), nothing being added
for a slot that only leaves the screen. -/
theorem powerup_falls_and_is_caught (E : Raylib α) (g : Game α) (hr : Reachable E g)
    (hs : g.state = GameState.GAMEPLAY) (inp : Input α) :
    (∀ i, (g.powerups i).active = true →
      ((UpdateGame E g inp).powerups i).position
          = ⟨(g.powerups i).position.x, (g.powerups i).position.y + 150 * inp.deltaTime⟩
      ∧ ((UpdateGame E g inp).powerups i).rect
          = ⟨(g.powerups i).rect.x, (g.powerups i).rect.y + 150 * inp.deltaTime, 15, 15⟩
      ∧ (g.powerups i).rect.y = (g.powerups i).position.y
      ∧ (((UpdateGame E g inp).powerups i).active = false ↔
          ((g.powerups i).position.y + 150 * inp.deltaTime > 600
            ∨ E.CheckCollisionRecs ((UpdateGame E g inp).powerups i).rect
                (UpdateGame.playerRect (UpdateGame E g inp)) = true)))
    ∧ (UpdateGame E g inp).lives
        = (if g.ballPosition.y + g.ballVelocity.y * inp.deltaTime > 610 then g.lives - 1
            else g.lives)
          + ((Finset.univ.filter (fun i : Fin 50 => (g.powerups i).active = true
              ∧ E.CheckCollisionRecs ((UpdateGame E g inp).powerups i).rect
                  (UpdateGame.playerRect (UpdateGame E g inp)) = true)).card : Int) := by
  have hslot : SlotInv g :=
    Reachable_inv E SlotInv (SlotInv_InitGame E) (SlotInv_UpdateGame E) g hr
  refine ⟨?_, ?_⟩
  · intro i ha
    have hrect := (hslot i ha).2.2
    rw [playerRect_UpdateGame E g inp hs,
      UpdateGame_gameplay_powerup_of_active E g inp hs hslot i ha, hrect]
    refine ⟨rfl, rfl, rfl, ?_⟩
    generalize E.CheckCollisionRecs _ _ = b
    by_cases hy : (g.powerups i).position.y + 150 * inp.deltaTime > 600 <;>
      cases b <;> simp [hy]
  · rw [UpdateGame_gameplay_lives E g inp hs, caughtCount_eq_card E g inp hs hslot]

/-- Witness for C12: after the first frame of the 45-degree launch, which destroys
block 45, the game is in Gameplay with power-up slot 45 active. -/
theorem powerup_falls_and_is_caught_witness :
    Reachable (⟨Real.cos, Real.sin, Real.sqrt, Real.pi, circleRecOverlap, recsOverlap⟩ : Raylib ℝ)
      (UpdateGame ⟨Real.cos, Real.sin, Real.sqrt, Real.pi, circleRecOverlap, recsOverlap⟩
        (InitGame ⟨Real.cos, Real.sin, Real.sqrt, Real.pi, circleRecOverlap, recsOverlap⟩
          zeroGame 45) (idleInput (11 * Real.sqrt 2 / 60) 0))
    ∧ (UpdateGame
        (⟨Real.cos, Real.sin, Real.sqrt, Real.pi, circleRecOverlap, recsOverlap⟩ : Raylib ℝ)
        (InitGame ⟨Real.cos, Real.sin, Real.sqrt, Real.pi, circleRecOverlap, recsOverlap⟩
          zeroGame 45) (idleInput (11 * Real.sqrt 2 / 60) 0)).state = GameState.GAMEPLAY
    ∧ ((UpdateGame
        (⟨Real.cos, Real.sin, Real.sqrt, Real.pi, circleRecOverlap, recsOverlap⟩ : Raylib ℝ)
        (InitGame ⟨Real.cos, Real.sin, Real.sqrt, Real.pi, circleRecOverlap, recsOverlap⟩
          zeroGame 45) (idleInput (11 * Real.sqrt 2 / 60) 0)).powerups 45).active = true
    ∧ ((UpdateGame
        (⟨Real.cos, Real.sin, Real.sqrt, Real.pi, circleRecOverlap, recsOverlap⟩ : Raylib ℝ)
        (UpdateGame ⟨Real.cos, Real.sin, Real.sqrt, Real.pi, circleRecOverlap, recsOverlap⟩
          (InitGame ⟨Real.cos, Real.sin, Real.sqrt, Real.pi, circleRecOverlap, recsOverlap⟩
            zeroGame 45) (idleInput (11 * Real.sqrt 2 / 60) 0))
        (idleInput (1 / 60) 0)).powerups 45).position
      = ⟨((UpdateGame
        (⟨Real.cos, Real.sin, Real.sqrt, Real.pi, circleRecOverlap, recsOverlap⟩ : Raylib ℝ)
        (InitGame ⟨Real.cos, Real.sin, Real.sqrt, Real.pi, circleRecOverlap, recsOverlap⟩
          zeroGame 45) (idleInput (11 * Real.sqrt 2 / 60) 0)).powerups 45).position.x,
        ((UpdateGame
        (⟨Real.cos, Real.sin, Real.sqrt, Real.pi, circleRecOverlap, recsOverlap⟩ : Raylib ℝ)
        (InitGame ⟨Real.cos, Real.sin, Real.sqrt, Real.pi, circleRecOverlap, recsOverlap⟩
          zeroGame 45) (idleInput (11 * Real.sqrt 2 / 60) 0)).powerups 45).position.y
          + 150 * (idleInput (1 / 60) 0 : Input ℝ).deltaTime⟩ :=
  have hst : (UpdateGame
        (⟨Real.cos, Real.sin, Real.sqrt, Real.pi, circleRecOverlap, recsOverlap⟩ : Raylib ℝ)
        (InitGame ⟨Real.cos, Real.sin, Real.sqrt, Real.pi, circleRecOverlap, recsOverlap⟩
          zeroGame 45) (idleInput (11 * Real.sqrt 2 / 60) 0)).state = GameState.GAMEPLAY := by
    rw [first_frame_destroys_block_45 _ ⟨rfl, rfl, rfl, rfl, rfl, rfl⟩]
    rfl
  have hact : ((UpdateGame
        (⟨Real.cos, Real.sin, Real.sqrt, Real.pi, circleRecOverlap, recsOverlap⟩ : Raylib ℝ)
        (InitGame ⟨Real.cos, Real.sin, Real.sqrt, Real.pi, circleRecOverlap, recsOverlap⟩
          zeroGame 45) (idleInput (11 * Real.sqrt 2 / 60) 0)).powerups 45).active = true := by
    rw [first_frame_destroys_block_45 _ ⟨rfl, rfl, rfl, rfl, rfl, rfl⟩]
    rfl
  ⟨Reachable.step _ _ (by simp [idleInput]) (Reachable.init _ _ (by decide)), hst, hact,
   ((powerup_falls_and_is_caught _ _
      (Reachable.step _ _ (by simp [idleInput]) (Reachable.init _ _ (by decide))) hst
      (idleInput (1 / 60) 0)).1 45 hact).1⟩

theorem block_stays_destroyed (E : Raylib α) (g : Game α) (inp : Input α) (i : Fin 50)
    (hn : g.state = GameState.GAMEPLAY ∨ inp.keySpace = false)
    (hb : (g.blocks i).active = false) : ((UpdateGame E g inp).blocks i).active = false := by
  by_cases hs : g.state = GameState.GAMEPLAY
  · rw [UpdateGame_gameplay_blocks E g inp hs i]
    split_ifs
    · rfl
    · exact hb
  · have hk : inp.keySpace = false := hn.resolve_left hs
    rw [UpdateGame_idle E g inp hs, if_neg (by simp [hk])]
    exact hb

theorem slot_stays_inactive (E : Raylib α) (g : Game α) (inp : Input α) (i : Fin 50)
    (hn : g.state = GameState.GAMEPLAY ∨ inp.keySpace = false)
    (hb : (g.blocks i).active = false) (hp : (g.powerups i).active = false) :
    ((UpdateGame E g inp).powerups i).active = false := by
  by_cases hs : g.state = GameState.GAMEPLAY
  · have hnc : ¬ (blockHit E (midFrame E g inp) i = true
        ∧ (g.blocks i).type = BlockType.POWERUP) := by
      intro hc
      have := blockHit_midFrame_active E g inp i hc.1
      rw [hb] at this
      exact absurd this (by simp)
    rw [UpdateGame_gameplay_powerups E g inp hs i, if_neg hnc]
    unfold stepPowerup
    rw [if_neg (by simp [hp])]
    exact hp
  · have hk : inp.keySpace = false := hn.resolve_left hs
    rw [UpdateGame_idle E g inp hs, if_neg (by simp [hk])]
    exact hp

theorem noRestart_cons (E : Raylib α) (g : Game α) (inp : Input α) (rest : List (Input α))
    (h : noRestart E g (inp :: rest) = true) :
    (g.state = GameState.GAMEPLAY ∨ inp.keySpace = false)
    ∧ noRestart E (UpdateGame E g inp) rest = true := by
  simp only [noRestart, Bool.and_eq_true, Bool.or_eq_true, decide_eq_true_eq] at h
  refine ⟨?_, h.2⟩
  rcases h.1 with hs | hk
  · exact Or.inl hs
  · right
    cases hkk : inp.keySpace
    · rfl
    · rw [hkk] at hk
      exact absurd hk (by decide)

theorem runFrames_block_destroyed (E : Raylib α) (i : Fin 50) (inps : List (Input α)) :
    ∀ g : Game α, noRestart E g inps = true → (g.blocks i).active = false →
      ((runFrames E g inps).blocks i).active = false := by
  induction inps with
  | nil => intro g _ hb; exact hb
  | cons inp rest ih =>
    intro g hn hb
    obtain ⟨h1, h2⟩ := noRestart_cons E g inp rest hn
    exact ih _ h2 (block_stays_destroyed E g inp i h1 hb)

theorem runFrames_slot_inactive (E : Raylib α) (i : Fin 50) (inps : List (Input α)) :
    ∀ g : Game α, noRestart E g inps = true → (g.blocks i).active = false →
      (g.powerups i).active = false → ((runFrames E g inps).powerups i).active = false := by
  induction inps with
  | nil => intro g _ _ hp; exact hp
  | cons inp rest ih =>
    intro g hn hb hp
    obtain ⟨h1, h2⟩ := noRestart_cons E g inp rest hn
    exact ih _ h2 (block_stays_destroyed E g inp i h1 hb)
      (slot_stays_inactive E g inp i h1 hb hp)

/-- C14. Within one game round (frames none of which restarts the game), a
power-up slot that has been activated and then deactivated stays inactive: if
slot `i` is active in a reachable state `g`, is inactive after the frames
`inps1`, then it is inactive after any further frames `inps2` of the round.
(Its block was destroyed when the slot was activated and only `InitGame` brings
a block back.) -/
theorem powerup_slot_activated_at_most_once (E : Raylib α) (g : Game α) (hr : Reachable E g)
    (i : Fin 50) (inps1 inps2 : List (Input α))
    (h1 : noRestart E g inps1 = true)
    (h2 : noRestart E (runFrames E g inps1) inps2 = true)
    (hact : (g.powerups i).active = true)
    (hde : ((runFrames E g inps1).powerups i).active = false) :
    ((runFrames E (runFrames E g inps1) inps2).powerups i).active = false := by
  have hslot : SlotInv g :=
    Reachable_inv E SlotInv (SlotInv_InitGame E) (SlotInv_UpdateGame E) g hr
  have hb : (g.blocks i).active = false := (hslot i hact).2.1
  have hb1 := runFrames_block_destroyed E i inps1 g h1 hb
  exact runFrames_slot_inactive E i inps2 _ h2 hb1 hde

theorem runFrames_single (E : Raylib α) (g : Game α) (inp : Input α) :
    runFrames E g [inp] = UpdateGame E g inp := by
  simp only [runFrames]

theorem afterBlock45_caught (E : Raylib α) (hr : E.CheckCollisionRecs = recsOverlap) (s : α)
    (i : Fin 50) (hi : i.val = 45) (inp : Input α) (hinp : inp = idleInput 2 0) :
    ((UpdateGame E (afterBlock45 s) inp).powerups i).active = false := by
  subst hinp
  have hx : paddleX (afterBlock45 s) (idleInput 2 0) = 350 := by
    unfold paddleX
    simp [idleInput, afterBlock45]
    norm_num
  have hb : ((afterBlock45 s).blocks i).active = false := by
    show (if i.val = 45 then { initBlock i with active := false } else initBlock i
      : Block α).active = false
    rw [if_pos hi]
  have hp : (afterBlock45 s).powerups i
      = ⟨⟨875 / 2, 240⟩, true, PowerupType.EXTRA_LIFE, ⟨875 / 2, 240, 15, 15⟩⟩ := by
    show (if i.val = 45 then _ else _) = _
    rw [if_pos hi]
  have hnc : ¬ (blockHit E (midFrame E (afterBlock45 s) (idleInput 2 0)) i = true
      ∧ ((afterBlock45 s).blocks i).type = BlockType.POWERUP) := by
    intro h
    have := blockHit_midFrame_active E _ _ i h.1
    rw [hb] at this
    exact absurd this (by simp)
  rw [UpdateGame_gameplay_powerups E _ _ rfl i, if_neg hnc, hx, hp,
    stepPowerup_of_active E _ _ _ rfl, hr]
  show (!(decide ((240 : α) + 150 * 2 > 600)
    || recsOverlap ⟨875 / 2, 240 + 150 * 2, 15, 15⟩ ⟨350, 550, 100, 20⟩)) = false
  unfold recsOverlap
  norm_num

/-- Witness for C14: after the first frame of the 45-degree launch slot 45 is
active; the next frame (2 s, no restart) brings the power-up to the paddle, which
deactivates it; one more idle frame later it is still inactive. -/
theorem powerup_slot_activated_at_most_once_witness :
    Reachable (⟨Real.cos, Real.sin, Real.sqrt, Real.pi, circleRecOverlap, recsOverlap⟩ : Raylib ℝ)
      (UpdateGame ⟨Real.cos, Real.sin, Real.sqrt, Real.pi, circleRecOverlap, recsOverlap⟩
        (InitGame ⟨Real.cos, Real.sin, Real.sqrt, Real.pi, circleRecOverlap, recsOverlap⟩
          zeroGame 45) (idleInput (11 * Real.sqrt 2 / 60) 0))
    ∧ noRestart (⟨Real.cos, Real.sin, Real.sqrt, Real.pi, circleRecOverlap, recsOverlap⟩ : Raylib ℝ)
      (UpdateGame ⟨Real.cos, Real.sin, Real.sqrt, Real.pi, circleRecOverlap, recsOverlap⟩
        (InitGame ⟨Real.cos, Real.sin, Real.sqrt, Real.pi, circleRecOverlap, recsOverlap⟩
          zeroGame 45) (idleInput (11 * Real.sqrt 2 / 60) 0)) [idleInput 2 0] = true
    ∧ ((UpdateGame
        (⟨Real.cos, Real.sin, Real.sqrt, Real.pi, circleRecOverlap, recsOverlap⟩ : Raylib ℝ)
        (InitGame ⟨Real.cos, Real.sin, Real.sqrt, Real.pi, circleRecOverlap, recsOverlap⟩
          zeroGame 45) (idleInput (11 * Real.sqrt 2 / 60) 0)).powerups 45).active = true
    ∧ ((runFrames
        (⟨Real.cos, Real.sin, Real.sqrt, Real.pi, circleRecOverlap, recsOverlap⟩ : Raylib ℝ)
        (UpdateGame ⟨Real.cos, Real.sin, Real.sqrt, Real.pi, circleRecOverlap, recsOverlap⟩
          (InitGame ⟨Real.cos, Real.sin, Real.sqrt, Real.pi, circleRecOverlap, recsOverlap⟩
            zeroGame 45) (idleInput (11 * Real.sqrt 2 / 60) 0))
        [idleInput 2 0]).powerups 45).active = false
    ∧ ((runFrames
        (⟨Real.cos, Real.sin, Real.sqrt, Real.pi, circleRecOverlap, recsOverlap⟩ : Raylib ℝ)
        (runFrames ⟨Real.cos, Real.sin, Real.sqrt, Real.pi, circleRecOverlap, recsOverlap⟩
          (UpdateGame ⟨Real.cos, Real.sin, Real.sqrt, Real.pi, circleRecOverlap, recsOverlap⟩
            (InitGame ⟨Real.cos, Real.sin, Real.sqrt, Real.pi, circleRecOverlap, recsOverlap⟩
              zeroGame 45) (idleInput (11 * Real.sqrt 2 / 60) 0))
          [idleInput 2 0])
        [idleInput (1 / 60) 0]).powerups 45).active = false :=
  have hno : noRestart
      (⟨Real.cos, Real.sin, Real.sqrt, Real.pi, circleRecOverlap, recsOverlap⟩ : Raylib ℝ)
      (UpdateGame ⟨Real.cos, Real.sin, Real.sqrt, Real.pi, circleRecOverlap, recsOverlap⟩
        (InitGame ⟨Real.cos, Real.sin, Real.sqrt, Real.pi, circleRecOverlap, recsOverlap⟩
          zeroGame 45) (idleInput (11 * Real.sqrt 2 / 60) 0)) [idleInput 2 0] = true := by
    simp [noRestart, idleInput]
  have hact : ((UpdateGame
        (⟨Real.cos, Real.sin, Real.sqrt, Real.pi, circleRecOverlap, recsOverlap⟩ : Raylib ℝ)
        (InitGame ⟨Real.cos, Real.sin, Real.sqrt, Real.pi, circleRecOverlap, recsOverlap⟩
          zeroGame 45) (idleInput (11 * Real.sqrt 2 / 60) 0)).powerups 45).active = true := by
    rw [first_frame_destroys_block_45 _ ⟨rfl, rfl, rfl, rfl, rfl, rfl⟩]
    rfl
  have hde : ((runFrames
        (⟨Real.cos, Real.sin, Real.sqrt, Real.pi, circleRecOverlap, recsOverlap⟩ : Raylib ℝ)
        (UpdateGame ⟨Real.cos, Real.sin, Real.sqrt, Real.pi, circleRecOverlap, recsOverlap⟩
          (InitGame ⟨Real.cos, Real.sin, Real.sqrt, Real.pi, circleRecOverlap, recsOverlap⟩
            zeroGame 45) (idleInput (11 * Real.sqrt 2 / 60) 0))
        [idleInput 2 0]).powerups 45).active = false := by
    rw [runFrames_single, first_frame_destroys_block_45 _ ⟨rfl, rfl, rfl, rfl, rfl, rfl⟩]
    exact afterBlock45_caught
      (⟨Real.cos, Real.sin, Real.sqrt, Real.pi, circleRecOverlap, recsOverlap⟩ : Raylib ℝ)
      rfl (Real.sqrt 2) 45 rfl (idleInput 2 0) rfl
  ⟨Reachable.step _ _ (by simp [idleInput]) (Reachable.init _ _ (by decide)), hno, hact, hde,
   powerup_slot_activated_at_most_once _ _
      (Reachable.step _ _ (by simp [idleInput]) (Reachable.init _ _ (by decide))) 45
      [idleInput 2 0] [idleInput (1 / 60) 0] hno (by simp [noRestart, idleInput]) hact hde⟩

theorem blockHit_of_destroyed (E : Raylib α) (g : Game α) (i : Fin 50)
    (ha : (g.blocks i).active = true)
    (hb : ((CheckCollisions E g).blocks i).active = false) : blockHit E g i = true := by
  rw [CheckCollisions_blocks_active, ha] at hb
  unfold blockHit
  rw [ha]
  cases hc : E.CheckCollisionCircleRec g.ballPosition (BALL_RADIUS : α) (g.blocks i).rect
  · rw [hc] at hb
    exact absurd hb (by decide)
  · rfl

theorem CheckCollisions_powerup_of_hit (E : Raylib α) (g : Game α) (i : Fin 50)
    (hh : blockHit E g i = true) :
    (CheckCollisions E g).powerups i =
      if (g.blocks i).type = BlockType.POWERUP then spawnPowerup (g.blocks i)
      else g.powerups i := by
  rw [(CheckCollisions_inv E g).pwr i]
  simp only [i.isLt, hh, true_and]

/-- C11 (as the code has it). When `CheckCollisions` destroys a block `i` of type
`POWERUP`, power-up slot `i` becomes active with type `EXTRA_LIFE`; its position
is the top-left corner of a 15x15 rectangle centred under the block,
`(rect.x + rect.width/2 - 7.5, rect.y + rect.height)`, and its rectangle is that
square; for a block with rectangle x = 10, y = 50, 70 wide, 30 high (block 0 of a
fresh game) the position is (37.5, 80).  Destroying a `NORMAL` block leaves
slot `i` as it was. -/
theorem destroyed_powerup_block_spawns (E : Raylib α) (g : Game α) (i : Fin 50)
    (ha : (g.blocks i).active = true)
    (hb : ((CheckCollisions E g).blocks i).active = false) :
    ((g.blocks i).type = BlockType.POWERUP →
      (CheckCollisions E g).powerups i =
        { position :=
            ⟨(g.blocks i).rect.x + (g.blocks i).rect.width / 2 - 15 / 2,
             (g.blocks i).rect.y + (g.blocks i).rect.height⟩
          active := true
          type := PowerupType.EXTRA_LIFE
          rect :=
            ⟨(g.blocks i).rect.x + (g.blocks i).rect.width / 2 - 15 / 2,
             (g.blocks i).rect.y + (g.blocks i).rect.height, 15, 15⟩ }
      ∧ ((g.blocks i).rect = ⟨10, 50, 70, 30⟩ →
          ((CheckCollisions E g).powerups i).position = ⟨75 / 2, 80⟩))
    ∧ ((g.blocks i).type = BlockType.NORMAL →
        (CheckCollisions E g).powerups i = g.powerups i) := by
  have e15 : ((POWERUP_SIZE : Nat) : α) = 15 := by simp [POWERUP_SIZE]
  have hh := blockHit_of_destroyed E g i ha hb
  rw [CheckCollisions_powerup_of_hit E g i hh]
  constructor
  · intro hty
    rw [if_pos hty]
    refine ⟨by simp only [spawnPowerup, e15], ?_⟩
    intro hrect
    simp only [spawnPowerup, e15, hrect]
    norm_num
  · intro hty
    rw [if_neg (by rw [hty]; simp)]

theorem block0Scenario_destroyed (E : Raylib α)
    (hE : E.CheckCollisionCircleRec = circleRecOverlap) :
    ((block0Scenario E).blocks 0).active = true
    ∧ ((CheckCollisions E (block0Scenario E)).blocks 0).active = false
    ∧ ((block0Scenario E).blocks 0).type = BlockType.POWERUP
    ∧ ((block0Scenario E).blocks 0).rect = ⟨10, 50, 70, 30⟩ := by
  have e2 : ((BALL_RADIUS : Nat) : α) = 10 := by simp [BALL_RADIUS]
  have v0 : ((0 : Fin 50) : Nat) = 0 := rfl
  have hb0 : (block0Scenario E).blocks 0
      = ⟨⟨10, 50, 70, 30⟩, true, ⟨0, 228, 48, 255⟩, BlockType.POWERUP⟩ := by
    show (InitGame E zeroGame 0).blocks 0 = _
    rw [InitGame_eq]
    show (initBlock (0 : Fin 50) : Block α) = _
    unfold initBlock
    simp only [v0]
    norm_num
  have hpos : (block0Scenario E).ballPosition = ⟨45, 85⟩ := rfl
  have hov : circleRecOverlap (⟨45, 85⟩ : Vector2 α) 10 ⟨10, 50, 70, 30⟩ = true := by
    unfold circleRecOverlap
    norm_num [abs_of_nonneg, abs_of_nonpos]
  refine ⟨by rw [hb0], ?_, by rw [hb0], by rw [hb0]⟩
  rw [CheckCollisions_blocks_active, hb0, hpos, hE, e2, hov]
  rfl

/-- Witness for C11: block 0 of a fresh game, with the ball at (45, 85). -/
theorem destroyed_powerup_block_spawns_witness :
    ((block0Scenario
        (⟨Real.cos, Real.sin, Real.sqrt, Real.pi, circleRecOverlap, recsOverlap⟩ : Raylib ℝ)).blocks
        0).active = true
    ∧ ((CheckCollisions
        (⟨Real.cos, Real.sin, Real.sqrt, Real.pi, circleRecOverlap, recsOverlap⟩ : Raylib ℝ)
        (block0Scenario ⟨Real.cos, Real.sin, Real.sqrt, Real.pi, circleRecOverlap,
          recsOverlap⟩)).blocks 0).active = false
    ∧ ((block0Scenario
        (⟨Real.cos, Real.sin, Real.sqrt, Real.pi, circleRecOverlap, recsOverlap⟩ : Raylib ℝ)).blocks
        0).type = BlockType.POWERUP
    ∧ ((block0Scenario
        (⟨Real.cos, Real.sin, Real.sqrt, Real.pi, circleRecOverlap, recsOverlap⟩ : Raylib ℝ)).blocks
        0).rect = ⟨10, 50, 70, 30⟩
    ∧ ((CheckCollisions
        (⟨Real.cos, Real.sin, Real.sqrt, Real.pi, circleRecOverlap, recsOverlap⟩ : Raylib ℝ)
        (block0Scenario ⟨Real.cos, Real.sin, Real.sqrt, Real.pi, circleRecOverlap,
          recsOverlap⟩)).powerups 0).position = ⟨75 / 2, 80⟩ :=
  have h := block0Scenario_destroyed
    (⟨Real.cos, Real.sin, Real.sqrt, Real.pi, circleRecOverlap, recsOverlap⟩ : Raylib ℝ) rfl
  ⟨h.1, h.2.1, h.2.2.1, h.2.2.2,
   ((destroyed_powerup_block_spawns _ _ 0 h.1 h.2.1).1 h.2.2.1).2 h.2.2.2⟩

/-- C11, counterexample to the claim as stated: when block 0 of a fresh game
(rectangle x = 10, y = 50, 70 wide, 30 high, type `POWERUP`) is destroyed, the
position of power-up slot 0 is (37.5, 80), not the bottom-centre (45, 80) of the
block. -/
theorem spawned_powerup_not_at_bottom_centre :
    ((block0Scenario
        (⟨Real.cos, Real.sin, Real.sqrt, Real.pi, circleRecOverlap, recsOverlap⟩ : Raylib ℝ)).blocks
        0).active = true
    ∧ ((CheckCollisions
        (⟨Real.cos, Real.sin, Real.sqrt, Real.pi, circleRecOverlap, recsOverlap⟩ : Raylib ℝ)
        (block0Scenario ⟨Real.cos, Real.sin, Real.sqrt, Real.pi, circleRecOverlap,
          recsOverlap⟩)).blocks 0).active = false
    ∧ ((block0Scenario
        (⟨Real.cos, Real.sin, Real.sqrt, Real.pi, circleRecOverlap, recsOverlap⟩ : Raylib ℝ)).blocks
        0).rect = ⟨10, 50, 70, 30⟩
    ∧ ((CheckCollisions
        (⟨Real.cos, Real.sin, Real.sqrt, Real.pi, circleRecOverlap, recsOverlap⟩ : Raylib ℝ)
        (block0Scenario ⟨Real.cos, Real.sin, Real.sqrt, Real.pi, circleRecOverlap,
          recsOverlap⟩)).powerups 0).position = ⟨75 / 2, 80⟩
    ∧ ((CheckCollisions
        (⟨Real.cos, Real.sin, Real.sqrt, Real.pi, circleRecOverlap, recsOverlap⟩ : Raylib ℝ)
        (block0Scenario ⟨Real.cos, Real.sin, Real.sqrt, Real.pi, circleRecOverlap,
          recsOverlap⟩)).powerups 0).position ≠ ⟨45, 80⟩ := by
  have h := block0Scenario_destroyed
    (⟨Real.cos, Real.sin, Real.sqrt, Real.pi, circleRecOverlap, recsOverlap⟩ : Raylib ℝ) rfl
  have e15 : ((POWERUP_SIZE : Nat) : ℝ) = 15 := by simp [POWERUP_SIZE]
  have hp : ((CheckCollisions
        (⟨Real.cos, Real.sin, Real.sqrt, Real.pi, circleRecOverlap, recsOverlap⟩ : Raylib ℝ)
        (block0Scenario ⟨Real.cos, Real.sin, Real.sqrt, Real.pi, circleRecOverlap,
          recsOverlap⟩)).powerups 0).position = ⟨75 / 2, 80⟩ := by
    rw [CheckCollisions_powerup_of_hit _ _ 0 (blockHit_of_destroyed _ _ 0 h.1 h.2.1),
      if_pos h.2.2.1]
    simp only [spawnPowerup, e15, h.2.2.2]
    norm_num
  refine ⟨h.1, h.2.1, h.2.2.2, hp, ?_⟩
  rw [hp]
  intro hc
  have := congrArg Vector2.x hc
  norm_num at this

theorem ballPlayer_eq_of_hitPos (E : Raylib α) (g : Game α) :
    UpdateGame.ballPlayer E g (UpdateGame.playerRect g) =
      if UpdateGame.paddleFires E g = true then
        { g with ballVelocity :=
            ⟨E.cosf ((UpdateGame.hitPos g - 1 / 2) * E.PI) * Vector2Length E g.ballVelocity,
             -E.sinf ((UpdateGame.hitPos g - 1 / 2) * E.PI) * Vector2Length E g.ballVelocity⟩ }
      else g := by
  unfold UpdateGame.ballPlayer UpdateGame.paddleFires UpdateGame.hitPos
  split_ifs <;> rfl

/-- What the geometry does guarantee when the paddle response fires: the ball
centre is at most one radius outside the paddle, so `hitPos` lies in
`[-1/10, 11/10]`. -/
theorem paddleFires_hitPos_bounds (E : Raylib α)
    (hE : E.CheckCollisionCircleRec = circleRecOverlap) (g : Game α)
    (h : UpdateGame.paddleFires E g = true) :
    -(1 / 10) ≤ UpdateGame.hitPos g ∧ UpdateGame.hitPos g ≤ 11 / 10 := by
  have e2 : ((BALL_RADIUS : Nat) : α) = 10 := by simp [BALL_RADIUS]
  have e3 : ((PLAYER_WIDTH : Nat) : α) = 100 := by simp [PLAYER_WIDTH]
  have e4 : ((PLAYER_HEIGHT : Nat) : α) = 20 := by simp [PLAYER_HEIGHT]
  unfold UpdateGame.paddleFires at h
  simp only [Bool.and_eq_true] at h
  have hov := h.1
  rw [hE, e2] at hov
  unfold UpdateGame.playerRect at hov
  rw [e3, e4] at hov
  have hdx : ¬ |g.ballPosition.x - (g.playerPosition.x + 100 / 2)| > 100 / 2 + 10 := by
    intro hc
    unfold circleRecOverlap at hov
    simp only [hc, if_true] at hov
    exact absurd hov (by decide)
  have habs := abs_le.mp (not_lt.mp hdx)
  unfold UpdateGame.hitPos
  rw [e3]
  constructor
  · rw [le_div_iff₀ (by norm_num)]
    linarith [habs.1]
  · rw [div_le_iff₀ (by norm_num)]
    linarith [habs.2]

theorem paddleEdgeScenario_beforePaddle :
    UpdateGame.beforePaddle (paddleEdgeScenario : Game α) (idleInput (1 / 60) 0)
      = { (paddleEdgeScenario : Game α) with ballPosition := ⟨370, 545⟩ } := by
  have hx : paddleX (paddleEdgeScenario : Game α) (idleInput (1 / 60) 0) = 375 := by
    simp [paddleX, paddleEdgeScenario, idleInput]
    norm_num
  unfold UpdateGame.beforePaddle
  rw [UpdateGame_movePlayer_eq, hx, UpdateGame_ballWall_eq]
  simp only [UpdateGame.moveBall, Vector2Add, Vector2Scale, wallVel, paddleEdgeScenario,
    idleInput]
  norm_num

theorem paddleEdgeScenario_preFrame :
    preFrame (⟨Real.cos, Real.sin, Real.sqrt, Real.pi, circleRecOverlap, recsOverlap⟩ : Raylib ℝ)
        paddleEdgeScenario (idleInput (1 / 60) 0)
      = { (paddleEdgeScenario : Game ℝ) with
          ballPosition := ⟨370, 545⟩
          ballVelocity := ⟨Real.cos (-(11 / 20) * Real.pi) * 300,
            -Real.sin (-(11 / 20) * Real.pi) * 300⟩ } := by
  have hx : paddleX (paddleEdgeScenario : Game ℝ) (idleInput (1 / 60) 0) = 375 := by
    simp [paddleX, paddleEdgeScenario, idleInput]
    norm_num
  have hov : circleRecOverlap (⟨370, 545⟩ : Vector2 ℝ) 10 ⟨375, 550, 100, 20⟩ = true := by
    unfold circleRecOverlap
    norm_num [abs_of_nonneg, abs_of_nonpos]
  have hlen : Real.sqrt (0 * 0 + 300 * 300) = 300 := by
    rw [zero_mul, zero_add, Real.sqrt_mul_self (by norm_num)]
  have hang : (((370 : ℝ) - 375) / 100 - 1 / 2) * Real.pi = -(11 / 20) * Real.pi := by ring
  unfold preFrame
  simp only [hx]
  have hpos : Vector2Add (paddleEdgeScenario : Game ℝ).ballPosition
      (Vector2Scale (paddleEdgeScenario : Game ℝ).ballVelocity
        (idleInput (1 / 60) 0 : Input ℝ).deltaTime) = ⟨370, 545⟩ := by
    simp [Vector2Add, Vector2Scale, paddleEdgeScenario, idleInput]
    norm_num
  rw [hpos]
  have hw : wallVel (⟨370, 545⟩ : Vector2 ℝ) (paddleEdgeScenario : Game ℝ).ballVelocity
      = ⟨0, 300⟩ := by
    simp [wallVel, paddleEdgeScenario]
    norm_num
  rw [hw]
  have hpv : paddleVel
      (⟨Real.cos, Real.sin, Real.sqrt, Real.pi, circleRecOverlap, recsOverlap⟩ : Raylib ℝ)
      ⟨370, 545⟩ ⟨0, 300⟩ 375 ⟨375, (paddleEdgeScenario : Game ℝ).playerPosition.y, 100, 20⟩
      = ⟨Real.cos (-(11 / 20) * Real.pi) * 300, -Real.sin (-(11 / 20) * Real.pi) * 300⟩ := by
    have hy : (paddleEdgeScenario : Game ℝ).playerPosition.y = 550 := rfl
    rw [hy]
    unfold paddleVel
    simp only [hov, true_and]
    rw [if_pos (by norm_num)]
    simp only [Vector2Length, hang, hlen]
  rw [hpv]
  norm_num
  rfl

/-- C19, a hit on the paddle's corner evaluated on the code.  The paddle spans
x in [375, 475]; the ball, at (370, 540) with velocity (0, 300), reaches
(370, 545) in a frame of 1/60 s.  There the paddle response fires with
`hitPos = -1/20`, which is not in [0, 1]; the angle `(hitPos - 1/2)·π` is below
`-π/2`, and the new velocity `(cos(-11π/20)·300, -sin(-11π/20)·300)` points
left and down. -/
theorem paddle_corner_hit_leaves_unit_range :
    UpdateGame.paddleFires
        (⟨Real.cos, Real.sin, Real.sqrt, Real.pi, circleRecOverlap, recsOverlap⟩ : Raylib ℝ)
        (UpdateGame.beforePaddle paddleEdgeScenario (idleInput (1 / 60) 0)) = true
    ∧ UpdateGame.hitPos
        (UpdateGame.beforePaddle (paddleEdgeScenario : Game ℝ) (idleInput (1 / 60) 0))
        = -(1 / 20)
    ∧ ¬ (0 ≤ UpdateGame.hitPos
        (UpdateGame.beforePaddle (paddleEdgeScenario : Game ℝ) (idleInput (1 / 60) 0)))
    ∧ (UpdateGame.hitPos
        (UpdateGame.beforePaddle (paddleEdgeScenario : Game ℝ) (idleInput (1 / 60) 0))
        - 1 / 2) * Real.pi < -(Real.pi / 2)
    ∧ (UpdateGame
        (⟨Real.cos, Real.sin, Real.sqrt, Real.pi, circleRecOverlap, recsOverlap⟩ : Raylib ℝ)
        paddleEdgeScenario (idleInput (1 / 60) 0)).ballVelocity
        = ⟨Real.cos (-(11 / 20) * Real.pi) * 300, -Real.sin (-(11 / 20) * Real.pi) * 300⟩
    ∧ (UpdateGame
        (⟨Real.cos, Real.sin, Real.sqrt, Real.pi, circleRecOverlap, recsOverlap⟩ : Raylib ℝ)
        paddleEdgeScenario (idleInput (1 / 60) 0)).ballVelocity.x < 0
    ∧ 0 < (UpdateGame
        (⟨Real.cos, Real.sin, Real.sqrt, Real.pi, circleRecOverlap, recsOverlap⟩ : Raylib ℝ)
        paddleEdgeScenario (idleInput (1 / 60) 0)).ballVelocity.y := by
  have hpi := Real.pi_pos
  have hov : circleRecOverlap (⟨370, 545⟩ : Vector2 ℝ) 10 ⟨375, 550, 100, 20⟩ = true := by
    unfold circleRecOverlap
    norm_num [abs_of_nonneg, abs_of_nonpos]
  have hhit : UpdateGame.hitPos
      (UpdateGame.beforePaddle (paddleEdgeScenario : Game ℝ) (idleInput (1 / 60) 0))
      = -(1 / 20) := by
    rw [paddleEdgeScenario_beforePaddle]
    simp [UpdateGame.hitPos, paddleEdgeScenario, PLAYER_WIDTH]
    norm_num
  have hfire : UpdateGame.paddleFires
      (⟨Real.cos, Real.sin, Real.sqrt, Real.pi, circleRecOverlap, recsOverlap⟩ : Raylib ℝ)
      (UpdateGame.beforePaddle paddleEdgeScenario (idleInput (1 / 60) 0)) = true := by
    rw [paddleEdgeScenario_beforePaddle]
    simp only [UpdateGame.paddleFires, UpdateGame.playerRect, paddleEdgeScenario, BALL_RADIUS,
      PLAYER_WIDTH, PLAYER_HEIGHT, Nat.cast_ofNat, hov, Bool.true_and, decide_eq_true_eq]
    norm_num
  have hU := UpdateGame_gameplay_low
    (⟨Real.cos, Real.sin, Real.sqrt, Real.pi, circleRecOverlap, recsOverlap⟩ : Raylib ℝ)
    paddleEdgeScenario (idleInput (1 / 60) 0) rfl rfl (fun _ => rfl)
    (by rw [paddleEdgeScenario_preFrame]; norm_num)
  have hcos : Real.cos (-(11 / 20) * Real.pi) < 0 := by
    have e : -(11 / 20) * Real.pi = -(11 / 20 * Real.pi) := by ring
    rw [e, Real.cos_neg]
    exact Real.cos_neg_of_pi_div_two_lt_of_lt (by linarith) (by linarith)
  have hsin : Real.sin (-(11 / 20) * Real.pi) < 0 := by
    have e : -(11 / 20) * Real.pi = -(11 / 20 * Real.pi) := by ring
    rw [e, Real.sin_neg]
    have : 0 < Real.sin (11 / 20 * Real.pi) :=
      Real.sin_pos_of_pos_of_lt_pi (by linarith) (by linarith)
    linarith
  rw [hU, winCheck_ballVelocity, UpdateGame_updatePowerups_eq, paddleEdgeScenario_preFrame]
  refine ⟨hfire, hhit, ?_, ?_, rfl, ?_, ?_⟩
  · rw [hhit]; norm_num
  · rw [hhit]; linarith
  · show Real.cos (-(11 / 20) * Real.pi) * 300 < 0
    linarith
  · show 0 < -Real.sin (-(11 / 20) * Real.pi) * 300
    linarith

end Lemmas

end BlockKuzushi
